import Mathlib

namespace Strassen

/-- A heap assigns to every buffer identity (the shared vector behind a
matrix_data) its flat integer contents. -/
abbrev Heap := ℕ → ℤ → ℤ

/-- Shallow embedding of matrix_data: the logical dimension together with the
identity and length of the shared flat int vector. -/
structure MatrixData where
  ref : ℕ
  dimension : ℤ
  size : ℤ
deriving DecidableEq

/-- matrix_data(dimension): a fresh vector of dimension*dimension zeroes. -/
def MatrixData.make (r : ℕ) (dimension : ℤ) : MatrixData :=
  { ref := r, dimension := dimension, size := dimension * dimension }

/-- matrix_data::in_bounds: i >= 0 && j >= 0 && i + dimension * j < int(data->size()). -/
def MatrixData.in_bounds (m : MatrixData) (i j : ℤ) : Prop :=
  0 ≤ i ∧ 0 ≤ j ∧ i + m.dimension * j < m.size

instance (m : MatrixData) (i j : ℤ) : Decidable (m.in_bounds i j) := by
  unfold MatrixData.in_bounds; infer_instance

/-- matrix_data::get. -/
def MatrixData.get (m : MatrixData) (h : Heap) (i j : ℤ) : ℤ :=
  h m.ref (i + m.dimension * j)

/-- Shallow embedding of submatrix: shared data plus offsets (i, j) and the
logical dimension of the view. -/
structure Submatrix where
  data : MatrixData
  i : ℤ
  j : ℤ
  dimension : ℤ
deriving DecidableEq

/-- submatrix(matrix_data): offsets 0, dimension taken from the data. -/
def Submatrix.ofData (d : MatrixData) : Submatrix :=
  { data := d, i := 0, j := 0, dimension := d.dimension }

/-- submatrix::in_bounds: data.in_bounds(x + i, y + j) plus the local check
0 <= x < dimension, 0 <= y < dimension. -/
def Submatrix.in_bounds (s : Submatrix) (x y : ℤ) : Prop :=
  s.data.in_bounds (x + s.i) (y + s.j) ∧
    (0 ≤ x ∧ x < s.dimension ∧ 0 ≤ y ∧ y < s.dimension)

instance (s : Submatrix) (x y : ℤ) : Decidable (s.in_bounds x y) := by
  unfold Submatrix.in_bounds; infer_instance

/-- The flat index the view addresses at local coordinates (x, y). -/
def Submatrix.flat (s : Submatrix) (x y : ℤ) : ℤ :=
  (x + s.i) + s.data.dimension * (y + s.j)

/-- submatrix::at used as an rvalue: an out-of-bounds access reads the zeroed
padding sentinel. -/
def Submatrix.read (s : Submatrix) (h : Heap) (x y : ℤ) : ℤ :=
  if s.in_bounds x y then h s.data.ref (s.flat x y) else 0

def updateHeap (h : Heap) (r : ℕ) (idx v : ℤ) : Heap :=
  fun r2 idx2 => if r2 = r ∧ idx2 = idx then v else h r2 idx2

/-- submatrix::at used as an lvalue: an out-of-bounds write lands in the
padding sentinel, which is never read back, so the store is lost. -/
def Submatrix.write (s : Submatrix) (h : Heap) (x y v : ℤ) : Heap :=
  if s.in_bounds x y then updateHeap h s.data.ref (s.flat x y) v else h

/-- ceil_divide(x) = x / 2 + (x % 2 != 0), with C++ truncating division. -/
def ceil_divide (x : ℤ) : ℤ :=
  x.tdiv 2 + (if x.tmod 2 ≠ 0 then 1 else 0)

/-- submatrix::sub. -/
def Submatrix.sub (s : Submatrix) (x y : ℤ) : Submatrix :=
  { data := s.data
    i := s.i + x * ceil_divide s.dimension
    j := s.j + y * ceil_divide s.dimension
    dimension := ceil_divide s.dimension }

/-- submatrix::clear. -/
def Submatrix.clear (s : Submatrix) (h : Heap) : Heap :=
  (List.range s.dimension.toNat).foldl (fun (h : Heap) (j : ℕ) =>
    (List.range s.dimension.toNat).foldl (fun (h : Heap) (i : ℕ) =>
      s.write h (i : ℤ) (j : ℤ) 0) h) h

/-- submatrix::operator== : after comparing dimensions it compares the two
backing buffers from their top-left corners, ignoring the view offsets. -/
def Submatrix.eqOp (s : Submatrix) (h : Heap) (other : Submatrix) : Bool :=
  if s.dimension ≠ other.dimension then false
  else (List.range other.dimension.toNat).all fun (x : ℕ) =>
    (List.range other.dimension.toNat).all fun (y : ℕ) =>
      s.data.get h (x : ℤ) (y : ℤ) == other.data.get h (x : ℤ) (y : ℤ)

/-- Free function sum(a, b, c): c.at(i,j) = a.at(i,j) + b.at(i,j), j outer. -/
def sum (a b c : Submatrix) (h : Heap) : Heap :=
  (List.range c.dimension.toNat).foldl (fun (h : Heap) (j : ℕ) =>
    (List.range c.dimension.toNat).foldl (fun (h : Heap) (i : ℕ) =>
      c.write h (i : ℤ) (j : ℤ) (a.read h (i : ℤ) (j : ℤ) + b.read h (i : ℤ) (j : ℤ))) h) h

/-- Free function sub(a, b, c): c.at(i,j) = a.at(i,j) - b.at(i,j), j outer. -/
def sub (a b c : Submatrix) (h : Heap) : Heap :=
  (List.range c.dimension.toNat).foldl (fun (h : Heap) (j : ℕ) =>
    (List.range c.dimension.toNat).foldl (fun (h : Heap) (i : ℕ) =>
      c.write h (i : ℤ) (j : ℤ) (a.read h (i : ℤ) (j : ℤ) - b.read h (i : ℤ) (j : ℤ))) h) h

/-- linear_mul(a, b, c): triple loop accumulation, k outer, then i (with the
row value r hoisted), then j. -/
def linear_mul (a b c : Submatrix) (h : Heap) : Heap :=
  (List.range c.dimension.toNat).foldl (fun (h : Heap) (k : ℕ) =>
    (List.range c.dimension.toNat).foldl (fun (h : Heap) (i : ℕ) =>
      let r := a.read h (i : ℤ) (k : ℤ)
      (List.range c.dimension.toNat).foldl (fun (h : Heap) (j : ℕ) =>
        c.write h (i : ℤ) (j : ℤ) (c.read h (i : ℤ) (j : ℤ) + r * b.read h (k : ℤ) (j : ℤ))) h) h) h

/-- The body of the non-terminal branch of strassen_mul_recursion: quadrant
decomposition, the seven products through the recursion argument, and the
recombination into the output quadrants. -/
def strassen_combine (rec : Submatrix → Submatrix → Submatrix → Submatrix → Heap → Option Heap)
    (A B C S : Submatrix) (h : Heap) : Option Heap :=
  let A00 := A.sub 0 0
  let A01 := A.sub 0 1
  let A10 := A.sub 1 0
  let A11 := A.sub 1 1
  let B00 := B.sub 0 0
  let B01 := B.sub 0 1
  let B10 := B.sub 1 0
  let B11 := B.sub 1 1
  let C00 := C.sub 0 0
  let C01 := C.sub 0 1
  let C10 := C.sub 1 0
  let C11 := C.sub 1 1
  let M := S.sub 0 0
  let SR := S.sub 0 1
  let sum0 := S.sub 1 0
  let sum1 := S.sub 1 1
  let h1 := sum A00 A11 sum0 h
  let h2 := sum B00 B11 sum1 h1
  (rec sum0 sum1 M SR h2).bind fun h3 =>
  let h4 := sum C00 M C00 h3
  let h5 := sum C11 M C11 h4
  let h6 := sum A10 A11 sum0 h5
  (rec sum0 B00 M SR h6).bind fun h7 =>
  let h8 := sum C10 M C10 h7
  let h9 := sub C11 M C11 h8
  let h10 := sub B01 B11 sum0 h9
  (rec A00 sum0 M SR h10).bind fun h11 =>
  let h12 := sum C01 M C01 h11
  let h13 := sum C11 M C11 h12
  let h14 := sub B10 B00 sum0 h13
  (rec A11 sum0 M SR h14).bind fun h15 =>
  let h16 := sum C00 M C00 h15
  let h17 := sum C10 M C10 h16
  let h18 := sum A00 A01 sum0 h17
  (rec sum0 B11 M SR h18).bind fun h19 =>
  let h20 := sub C00 M C00 h19
  let h21 := sum C01 M C01 h20
  let h22 := sub A10 A00 sum0 h21
  let h23 := sum B00 B01 sum1 h22
  (rec sum0 sum1 M SR h23).bind fun h24 =>
  let h25 := sum C11 M C11 h24
  let h26 := sub A01 A11 sum0 h25
  let h27 := sum B10 B11 sum1 h26
  (rec sum0 sum1 M SR h27).bind fun h28 =>
  some (sum C00 M C00 h28)

/-- strassen_mul_recursion, with a fuel parameter making the recursion
structurally total; exhausted fuel yields none. -/
def strassen_mul_rec (cutoff : ℤ) :
    ℕ → Submatrix → Submatrix → Submatrix → Submatrix → Heap → Option Heap
  | 0, _, _, _, _, _ => none
  | fuel + 1, A, B, C, S, h =>
    let h1 := C.clear h
    if C.dimension.tmod 2 = 1 ∨ C.dimension ≤ cutoff then
      some (linear_mul A B C h1)
    else
      strassen_combine (strassen_mul_rec cutoff fuel) A B C S h1

/-- strassen_mul: forces the input view dimensions to the output dimension,
allocates the scratch arena (a fresh zeroed buffer at scratchRef) and runs the
recursion on the full views. -/
def strassen_mul (a b c : Submatrix) (cutoff : ℤ) (scratchRef : ℕ) (fuel : ℕ) (h : Heap) :
    Option Heap :=
  let dimension := c.dimension
  let a2 := { a with dimension := dimension }
  let b2 := { b with dimension := dimension }
  let scratch := MatrixData.make scratchRef dimension
  let h2 : Heap := fun r idx => if r = scratchRef then 0 else h r idx
  strassen_mul_rec cutoff fuel a2 b2 c (Submatrix.ofData scratch) h2

/-- The while loop of padding_size, fueled. -/
def padding_loop (cutoff : ℤ) : ℕ → ℤ → ℕ → Option (ℤ × ℕ)
  | 0, dimension, power =>
    if dimension > cutoff then none else some (dimension, power)
  | fuel + 1, dimension, power =>
    if dimension > cutoff then padding_loop cutoff fuel (ceil_divide dimension) (power + 1)
    else some (dimension, power)

/-- padding_size(dimension, cutoff) = dimension * (1 << power) after the loop. -/
def padding_size (fuel : ℕ) (dimension cutoff : ℤ) : Option ℤ :=
  (padding_loop cutoff fuel dimension 0).map fun p => p.1 * 2 ^ p.2

/-- Flat store holding the N * N entries of the matrix function A
(column index j major, matching idx = i + N * j). -/
def initStore (N : ℤ) (A : ℤ → ℤ → ℤ) : ℤ → ℤ := fun idx =>
  if 0 ≤ idx ∧ idx < N * N then A (idx % N) (idx / N) else 0

/-- Initial heap of main: buffer 0 holds A, buffer 1 holds B, everything else
is zeroed. -/
def initHeap (N : ℤ) (A B : ℤ → ℤ → ℤ) : Heap := fun r =>
  if r = 0 then initStore N A else if r = 1 then initStore N B else fun _ => 0

/-- The Strassen path of main: compute the padded size, allocate the padded
output buffer (ref 2), run strassen_mul with the scratch arena at ref 3.
Returns the padded size and the final heap. -/
def strassen_multiply_heap (N cutoff : ℤ) (A B : ℤ → ℤ → ℤ) : Option (ℤ × Heap) :=
  (padding_size N.toNat N cutoff).bind fun P =>
  (strassen_mul (Submatrix.ofData (MatrixData.make 0 N)) (Submatrix.ofData (MatrixData.make 1 N))
      (Submatrix.ofData (MatrixData.make 2 P)) cutoff 3 (P.toNat + 1) (initHeap N A B)).map
    fun hF => (P, hF)

/-- Reading back the top-left N x N region of the padded output buffer, through
the view c with c.dimension = N that main constructs. -/
def strassen_multiply (N cutoff : ℤ) (A B : ℤ → ℤ → ℤ) : Option (ℤ → ℤ → ℤ) :=
  (strassen_multiply_heap N cutoff A B).map fun PH =>
    fun x y =>
      Submatrix.read { data := MatrixData.make 2 PH.1, i := 0, j := 0, dimension := N } PH.2 x y

/-- The naive reference path of main: linear_mul of the two input buffers into
a fresh N x N buffer, read back in full. -/
def linear_multiply (N : ℤ) (A B : ℤ → ℤ → ℤ) : ℤ → ℤ → ℤ :=
  fun x y =>
    Submatrix.read (Submatrix.ofData (MatrixData.make 2 N))
      (linear_mul (Submatrix.ofData (MatrixData.make 0 N)) (Submatrix.ofData (MatrixData.make 1 N))
        (Submatrix.ofData (MatrixData.make 2 N)) (initHeap N A B)) x y

/-- Iterated ceiling halving: halveIter k d applies ceil_divide k times. -/
def halveIter : ℕ → ℤ → ℤ
  | 0, d => d
  | t + 1, d => halveIter t (ceil_divide d)

/-- A view that denotes a genuine square sub-block of its backing buffer:
nonnegative dimension, offsets inside the buffer, the whole block inside the
buffer, and the buffer of the advertised square size. -/
def RealRect (s : Submatrix) : Prop :=
  0 ≤ s.dimension ∧ 0 ≤ s.i ∧ 0 ≤ s.j ∧
    s.i + s.dimension ≤ s.data.dimension ∧ s.j + s.dimension ≤ s.data.dimension ∧
    s.data.size = s.data.dimension * s.data.dimension

instance (s : Submatrix) : Decidable (RealRect s) := by
  unfold RealRect; infer_instance

/-- The heap locations underneath the logical rectangle of a view. -/
def InFoot (s : Submatrix) (r : ℕ) (idx : ℤ) : Prop :=
  r = s.data.ref ∧ ∃ x y : ℤ,
    0 ≤ x ∧ x < s.dimension ∧ 0 ≤ y ∧ y < s.dimension ∧ idx = s.flat x y

/-- The heap locations a read through the view can actually touch. -/
def InReadFoot (s : Submatrix) (r : ℕ) (idx : ℤ) : Prop :=
  r = s.data.ref ∧ ∃ x y : ℤ, s.in_bounds x y ∧ idx = s.flat x y

/-- Disjointness of the rectangle footprints of two views. -/
def FootDisj (s t : Submatrix) : Prop :=
  ∀ r idx, InFoot s r idx → InFoot t r idx → False

/-- Every location a read of the first view can touch avoids the rectangle
footprint of the second view. -/
def ReadsOutside (a c : Submatrix) : Prop :=
  ∀ r idx, InReadFoot a r idx → ¬ InFoot c r idx

/-- One loop iteration of the elementwise operations: write cell p of c with a
value computed from the current heap. -/
def cellStep (c : Submatrix) (g : Heap → ℤ → ℤ → ℤ) (h : Heap) (p : ℤ × ℤ) : Heap :=
  c.write h p.1 p.2 (g h p.1 p.2)

/-- All cells of an n by n sweep, outer coordinate second (j-major). -/
def cellList (n : ℤ) : List (ℤ × ℤ) :=
  (List.range n.toNat).flatMap fun (j : ℕ) =>
    (List.range n.toNat).map fun (i : ℕ) => ((i : ℤ), (j : ℤ))

/-- The cells of one row of an n by n sweep. -/
def rowCells (i : ℤ) (n : ℤ) : List (ℤ × ℤ) :=
  (List.range n.toNat).map fun (j : ℕ) => (i, (j : ℤ))

/-- Matrix product denotation over local coordinates, with inner dimension d. -/
def mmulF (d : ℤ) (f g : ℤ → ℤ → ℤ) (x y : ℤ) : ℤ :=
  ∑ k ∈ Finset.range d.toNat, f x (k : ℤ) * g (k : ℤ) y

/-- The shape invariant of one recursive strassen_mul_recursion call: all four
views share one dimension, the output and scratch views are genuine disjoint
rectangles, and reads of the operands never touch output or scratch cells. -/
def Config (A B C S : Submatrix) : Prop :=
  A.dimension = C.dimension ∧ B.dimension = C.dimension ∧ S.dimension = C.dimension ∧
    RealRect C ∧ RealRect S ∧ FootDisj C S ∧
    ReadsOutside A C ∧ ReadsOutside A S ∧ ReadsOutside B C ∧ ReadsOutside B S

/-- The innermost j loop of linear_mul for one fixed row i and outer index k,
with the hoisted row value r. -/
def linRowFold (b c : Submatrix) (i k r : ℤ) (h : Heap) : Heap :=
  (List.range c.dimension.toNat).foldl (fun (h : Heap) (j : ℕ) =>
    c.write h i (j : ℤ) (c.read h i (j : ℤ) + r * b.read h k (j : ℤ))) h

/-- One full pass of linear_mul for a fixed outer index k: the middle i loop
of rows, each hoisting r = a.at(i, k) before its inner loop. -/
def linPassFold (a b c : Submatrix) (k : ℤ) (h : Heap) : Heap :=
  (List.range c.dimension.toNat).foldl (fun (h : Heap) (i : ℕ) =>
    linRowFold b c (i : ℤ) k (a.read h (i : ℤ) k) h) h

section Arith

theorem ceil_divide_nonneg {x : ℤ} (hx : 0 ≤ x) : 0 ≤ ceil_divide x := by
  unfold ceil_divide
  have h1 : 0 ≤ x.tdiv 2 := Int.tdiv_nonneg hx (by norm_num)
  split_ifs <;> omega

theorem two_mul_ceil_divide_of_even {x : ℤ} (hx : x.tmod 2 = 0) : 2 * ceil_divide x = x := by
  unfold ceil_divide
  rw [if_neg (by simp [hx])]
  have h1 := Int.tdiv_add_tmod x 2
  omega

theorem ceil_divide_lt {x : ℤ} (hx : 2 ≤ x) : ceil_divide x < x := by
  unfold ceil_divide
  have h1 := Int.tdiv_add_tmod x 2
  have h2 : 0 ≤ x.tmod 2 := Int.tmod_nonneg 2 (by omega)
  have h3 : x.tmod 2 < 2 := Int.tmod_lt_of_pos x (by norm_num)
  split_ifs <;> omega

theorem le_two_mul_ceil_divide {x : ℤ} (hx : 0 ≤ x) : x ≤ 2 * ceil_divide x := by
  unfold ceil_divide
  have h1 := Int.tdiv_add_tmod x 2
  have h2 : 0 ≤ x.tmod 2 := Int.tmod_nonneg 2 hx
  have h3 : x.tmod 2 < 2 := Int.tmod_lt_of_pos x (by norm_num)
  split_ifs <;> omega

theorem ceil_divide_pos {x : ℤ} (hx : 1 ≤ x) : 1 ≤ ceil_divide x := by
  unfold ceil_divide
  have h1 := Int.tdiv_add_tmod x 2
  have h2 : 0 ≤ x.tmod 2 := Int.tmod_nonneg 2 (by omega)
  have h3 : x.tmod 2 < 2 := Int.tmod_lt_of_pos x (by norm_num)
  split_ifs <;> omega

theorem tmod_two_eq_one_iff_odd {d : ℤ} (hd : 0 ≤ d) : d.tmod 2 = 1 ↔ Odd d := by
  have h1 := Int.tdiv_add_tmod d 2
  have h2 : 0 ≤ d.tmod 2 := Int.tmod_nonneg 2 hd
  have h3 : d.tmod 2 < 2 := Int.tmod_lt_of_pos d (by norm_num)
  constructor
  · intro h
    exact ⟨d.tdiv 2, by omega⟩
  · rintro ⟨k, hk⟩
    omega

end Arith

section Padding

theorem padding_loop_spec (C : ℤ) (hC : 1 ≤ C) :
    ∀ (fuel : ℕ) (d : ℤ) (power : ℕ), d.toNat ≤ fuel →
      ∃ k : ℕ, padding_loop C fuel d power = some (halveIter k d, power + k) ∧
        halveIter k d ≤ C ∧ ∀ t, t < k → C < halveIter t d := by
  intro fuel
  induction fuel with
  | zero =>
    intro d power hdf
    have hdC : ¬ d > C := by omega
    exact ⟨0, by simp [padding_loop, hdC, halveIter], by simpa [halveIter] using (by omega : d ≤ C),
      fun t ht => absurd ht (by omega)⟩
  | succ n ih =>
    intro d power hdf
    by_cases hgt : d > C
    · have hd2 : 2 ≤ d := by omega
      have hlt := ceil_divide_lt hd2
      have hnn := ceil_divide_nonneg (by omega : (0 : ℤ) ≤ d)
      obtain ⟨k, hk, hle, hall⟩ := ih (ceil_divide d) (power + 1) (by omega)
      refine ⟨k + 1, ?_, ?_, ?_⟩
      · show padding_loop C (n + 1) d power = _
        rw [padding_loop, if_pos hgt, hk]
        have : power + 1 + k = power + (k + 1) := by omega
        simp [halveIter, this]
      · simpa [halveIter] using hle
      · intro t ht
        match t with
        | 0 => simpa [halveIter] using hgt
        | s + 1 =>
          have : s < k := by omega
          simpa [halveIter] using hall s this
    · exact ⟨0, by simp [padding_loop, hgt, halveIter], by simpa [halveIter] using (by omega : d ≤ C),
        fun t ht => absurd ht (by omega)⟩

theorem padding_ge (k : ℕ) : ∀ d : ℤ, 0 ≤ d → d ≤ halveIter k d * 2 ^ k := by
  induction k with
  | zero => intro d hd; simp [halveIter]
  | succ n ih =>
    intro d hd
    have hnn := ceil_divide_nonneg hd
    have h1 := ih (ceil_divide d) hnn
    have h2 := le_two_mul_ceil_divide hd
    calc d ≤ 2 * ceil_divide d := h2
    _ ≤ 2 * (halveIter n (ceil_divide d) * 2 ^ n) := by omega
    _ = halveIter (n + 1) d * 2 ^ (n + 1) := by
        simp [halveIter, pow_succ]; ring

theorem halveIter_pos (k : ℕ) : ∀ d : ℤ, 1 ≤ d → 1 ≤ halveIter k d := by
  induction k with
  | zero => intro d hd; simpa [halveIter] using hd
  | succ n ih =>
    intro d hd
    have := ceil_divide_pos hd
    simpa [halveIter] using ih (ceil_divide d) this

/-- Claim C3: padding_size returns final_size * 2^k where k is the number of
ceiling halvings needed to bring the dimension at or below the cutoff, with
final_size the first iterate at or below the cutoff; in particular with
N at or below C it returns exactly N. -/
theorem claimC3 (N C : ℤ) (fuel : ℕ) (hN : 1 ≤ N) (hC : 1 ≤ C) (hfuel : N.toNat ≤ fuel) :
    (∃ k : ℕ, padding_size fuel N C = some (halveIter k N * 2 ^ k) ∧
      halveIter k N ≤ C ∧ ∀ t, t < k → C < halveIter t N) ∧
    (N ≤ C → padding_size fuel N C = some N) := by
  constructor
  · obtain ⟨k, hk, hle, hall⟩ := padding_loop_spec C hC fuel N 0 hfuel
    refine ⟨k, ?_, hle, hall⟩
    simp [padding_size, hk]
  · intro hNC
    have hgt : ¬ N > C := by omega
    match fuel with
    | 0 => simp [padding_size, padding_loop, hgt]
    | n + 1 => simp [padding_size, padding_loop, hgt]

/-- Witness for C3: the concrete scenario N = 5, C = 2 gives padded size 8. -/
theorem claimC3_w :
    (padding_size 5 5 2 = some 8) ∧
    (∃ k : ℕ, padding_size 5 5 2 = some (halveIter k 5 * 2 ^ k) ∧
      halveIter k 5 ≤ 2 ∧ ∀ t, t < k → 2 < halveIter t 5) ∧
    (5 ≤ (2 : ℤ) → padding_size 5 5 2 = some 5) :=
  ⟨by decide, (claimC3 5 2 5 (by decide) (by decide) (by decide)).1,
    (claimC3 5 2 5 (by decide) (by decide) (by decide)).2⟩

end Padding

section Quadrants

/-- Claim C6: sub(qx, qy) has side ceil(n/2), origin shifted by qx, qy times
that side into the same buffer, and the four quadrants jointly cover every
cell of the parent region. -/
theorem claimC6 (s : Submatrix) :
    (∀ qx qy : ℤ, (s.sub qx qy).dimension = ceil_divide s.dimension ∧
      (s.sub qx qy).i = s.i + qx * ceil_divide s.dimension ∧
      (s.sub qx qy).j = s.j + qy * ceil_divide s.dimension ∧
      (s.sub qx qy).data = s.data) ∧
    (∀ x y : ℤ, 0 ≤ x → x < s.dimension → 0 ≤ y → y < s.dimension →
      ∃ qx qy u v : ℤ, (qx = 0 ∨ qx = 1) ∧ (qy = 0 ∨ qy = 1) ∧
        0 ≤ u ∧ u < (s.sub qx qy).dimension ∧ 0 ≤ v ∧ v < (s.sub qx qy).dimension ∧
        s.i + x = (s.sub qx qy).i + u ∧ s.j + y = (s.sub qx qy).j + v) := by
  constructor
  · intro qx qy
    exact ⟨rfl, rfl, rfl, rfl⟩
  · intro x y hx0 hxn hy0 hyn
    have hn0 : 0 ≤ s.dimension := by omega
    have h2m := le_two_mul_ceil_divide hn0
    set m := ceil_divide s.dimension with hm
    have hqx : ∃ qx u : ℤ, (qx = 0 ∨ qx = 1) ∧ 0 ≤ u ∧ u < m ∧ x = qx * m + u := by
      by_cases hxm : x < m
      · exact ⟨0, x, Or.inl rfl, hx0, hxm, by ring⟩
      · exact ⟨1, x - m, Or.inr rfl, by omega, by omega, by ring⟩
    have hqy : ∃ qy v : ℤ, (qy = 0 ∨ qy = 1) ∧ 0 ≤ v ∧ v < m ∧ y = qy * m + v := by
      by_cases hym : y < m
      · exact ⟨0, y, Or.inl rfl, hy0, hym, by ring⟩
      · exact ⟨1, y - m, Or.inr rfl, by omega, by omega, by ring⟩
    obtain ⟨qx, u, hq1, hu0, hum, hxe⟩ := hqx
    obtain ⟨qy, v, hq2, hv0, hvm, hye⟩ := hqy
    refine ⟨qx, qy, u, v, hq1, hq2, hu0, hum, hv0, hvm, ?_, ?_⟩
    · show s.i + x = s.i + qx * m + u
      omega
    · show s.j + y = s.j + qy * m + v
      omega

/-- Witness for C6 at a concrete 3 by 3 full view and cell (2, 2). -/
theorem claimC6_w :
    ∃ qx qy u v : ℤ,
      (qx = 0 ∨ qx = 1) ∧ (qy = 0 ∨ qy = 1) ∧
      0 ≤ u ∧ u < ((Submatrix.ofData (MatrixData.make 0 3)).sub qx qy).dimension ∧
      0 ≤ v ∧ v < ((Submatrix.ofData (MatrixData.make 0 3)).sub qx qy).dimension ∧
      (Submatrix.ofData (MatrixData.make 0 3)).i + 2 =
        ((Submatrix.ofData (MatrixData.make 0 3)).sub qx qy).i + u ∧
      (Submatrix.ofData (MatrixData.make 0 3)).j + 2 =
        ((Submatrix.ofData (MatrixData.make 0 3)).sub qx qy).j + v :=
  (claimC6 (Submatrix.ofData (MatrixData.make 0 3))).2 2 2 (by decide) (by decide) (by decide)
    (by decide)

end Quadrants

section BaseCase

/-- Claim C4: a call of the recursion delegates to linear_mul (after the
initial clear, with no decomposition) exactly when the side is odd or at most
the cutoff; otherwise it decomposes into quadrants and recurses via
strassen_combine. -/
theorem claimC4 (cutoff : ℤ) (fuel : ℕ) (A B C S : Submatrix) (h : Heap)
    (hd : 0 ≤ C.dimension) :
    ((C.dimension ≤ cutoff ∨ Odd C.dimension) →
      strassen_mul_rec cutoff (fuel + 1) A B C S h = some (linear_mul A B C (C.clear h))) ∧
    (¬ (C.dimension ≤ cutoff ∨ Odd C.dimension) →
      strassen_mul_rec cutoff (fuel + 1) A B C S h =
        strassen_combine (strassen_mul_rec cutoff fuel) A B C S (C.clear h)) := by
  have hiff := tmod_two_eq_one_iff_odd hd
  constructor
  · intro hbase
    rw [strassen_mul_rec, if_pos]
    rcases hbase with hcut | hodd
    · exact Or.inr hcut
    · exact Or.inl (hiff.mpr hodd)
  · intro hnot
    push_neg at hnot
    rw [strassen_mul_rec, if_neg]
    push_neg
    exact ⟨fun h1 => hnot.2 (hiff.mp h1), hnot.1⟩

/-- Witness for C4 at a 1 by 1 view (odd side, delegation) and a 2 by 2 view
with cutoff 1 (even side above cutoff, decomposition). -/
theorem claimC4_w :
    (strassen_mul_rec 1 1 (Submatrix.ofData (MatrixData.make 0 1))
        (Submatrix.ofData (MatrixData.make 1 1)) (Submatrix.ofData (MatrixData.make 2 1))
        (Submatrix.ofData (MatrixData.make 3 1)) (initHeap 1 (fun _ _ => 0) (fun _ _ => 0)) =
      some (linear_mul (Submatrix.ofData (MatrixData.make 0 1))
        (Submatrix.ofData (MatrixData.make 1 1)) (Submatrix.ofData (MatrixData.make 2 1))
        ((Submatrix.ofData (MatrixData.make 2 1)).clear
          (initHeap 1 (fun _ _ => 0) (fun _ _ => 0))))) ∧
    (strassen_mul_rec 1 2 (Submatrix.ofData (MatrixData.make 0 2))
        (Submatrix.ofData (MatrixData.make 1 2)) (Submatrix.ofData (MatrixData.make 2 2))
        (Submatrix.ofData (MatrixData.make 3 2)) (initHeap 2 (fun _ _ => 0) (fun _ _ => 0)) =
      strassen_combine (strassen_mul_rec 1 1) (Submatrix.ofData (MatrixData.make 0 2))
        (Submatrix.ofData (MatrixData.make 1 2)) (Submatrix.ofData (MatrixData.make 2 2))
        (Submatrix.ofData (MatrixData.make 3 2))
        ((Submatrix.ofData (MatrixData.make 2 2)).clear
          (initHeap 2 (fun _ _ => 0) (fun _ _ => 0)))) :=
  ⟨(claimC4 1 0 _ _ _ _ _ (by decide)).1 (Or.inr ⟨0, by decide⟩),
    (claimC4 1 1 _ _ _ _ _ (by decide)).2 (by
      rintro (h1 | ⟨k, hk⟩)
      · exact absurd h1 (by decide)
      · have hk2 : (2 : ℤ) = 2 * k + 1 := hk
        omega)⟩

end BaseCase

section Termination

theorem isSome_bind_of {α β : Type} (o : Option α) (f : α → Option β)
    (h1 : o.isSome = true) (h2 : ∀ a, (f a).isSome = true) : (o.bind f).isSome = true := by
  cases o with
  | none => simp at h1
  | some a => simpa using h2 a

theorem combine_isSome (rec : Submatrix → Submatrix → Submatrix → Submatrix → Heap → Option Heap)
    (A B C S : Submatrix) (h : Heap)
    (hrec : ∀ X Y h2, (rec X Y (S.sub 0 0) (S.sub 0 1) h2).isSome = true) :
    (strassen_combine rec A B C S h).isSome = true := by
  simp only [strassen_combine]
  apply isSome_bind_of _ _ (hrec _ _ _)
  intro h3
  apply isSome_bind_of _ _ (hrec _ _ _)
  intro h7
  apply isSome_bind_of _ _ (hrec _ _ _)
  intro h11
  apply isSome_bind_of _ _ (hrec _ _ _)
  intro h15
  apply isSome_bind_of _ _ (hrec _ _ _)
  intro h19
  apply isSome_bind_of _ _ (hrec _ _ _)
  intro h24
  apply isSome_bind_of _ _ (hrec _ _ _)
  intro h28
  rfl

/-- With cutoff at least 1 the fueled recursion returns a result whenever the
fuel exceeds the side. -/
theorem rec_isSome (cutoff : ℤ) (hcut : 1 ≤ cutoff) :
    ∀ (fuel : ℕ) (A B C S : Submatrix) (h : Heap), S.dimension = C.dimension →
      0 ≤ C.dimension → C.dimension.toNat < fuel →
      (strassen_mul_rec cutoff fuel A B C S h).isSome = true := by
  intro fuel
  induction fuel with
  | zero =>
    intro A B C S h hSC hd hf
    exact absurd hf (by omega)
  | succ n ih =>
    intro A B C S h hSC hd hf
    rw [strassen_mul_rec]
    by_cases hbase : C.dimension.tmod 2 = 1 ∨ C.dimension ≤ cutoff
    · rw [if_pos hbase]
      rfl
    · rw [if_neg hbase]
      push_neg at hbase
      have hd2 : 2 ≤ C.dimension := by omega
      have hlt : ceil_divide C.dimension < C.dimension := ceil_divide_lt hd2
      have hnn : 0 ≤ ceil_divide C.dimension := ceil_divide_nonneg (by omega)
      apply combine_isSome
      intro X Y h2
      apply ih
      · show ceil_divide S.dimension = ceil_divide S.dimension
        rfl
      · show 0 ≤ ceil_divide S.dimension
        rw [hSC]; exact hnn
      · show (ceil_divide S.dimension).toNat < n
        rw [hSC]; omega

/-- Claim C9: with cutoff at least 1 the recursion terminates; each
non-terminal call strictly shrinks the side via ceil_divide, so any fuel
beyond the side suffices to produce a result. -/
theorem claimC9 (cutoff : ℤ) (hcut : 1 ≤ cutoff) :
    ∀ (fuel : ℕ) (A B C S : Submatrix) (h : Heap), S.dimension = C.dimension →
      0 ≤ C.dimension → C.dimension.toNat < fuel →
      (strassen_mul_rec cutoff fuel A B C S h).isSome = true :=
  rec_isSome cutoff hcut

/-- Witness for C9: the 2 by 2 run with cutoff 1 and fuel 3 returns a result. -/
theorem claimC9_w :
    (strassen_mul_rec 1 3 (Submatrix.ofData (MatrixData.make 0 2))
      (Submatrix.ofData (MatrixData.make 1 2)) (Submatrix.ofData (MatrixData.make 2 2))
      (Submatrix.ofData (MatrixData.make 3 2))
      (initHeap 2 (fun _ _ => 0) (fun _ _ => 0))).isSome = true :=
  claimC9 1 (by decide) 3 _ _ _ _ _ (by decide) (by decide) (by decide)

end Termination

section RectBasics

theorem realrect_in_bounds {c : Submatrix} (hc : RealRect c) {x y : ℤ}
    (hx0 : 0 ≤ x) (hx : x < c.dimension) (hy0 : 0 ≤ y) (hy : y < c.dimension) :
    c.in_bounds x y := by
  obtain ⟨hd, hi, hj, hiD, hjD, hsz⟩ := hc
  refine ⟨⟨by omega, by omega, ?_⟩, hx0, hx, hy0, hy⟩
  rw [hsz]
  have hD0 : 0 < c.data.dimension := by omega
  have h1 : x + c.i ≤ c.data.dimension - 1 := by omega
  have h2 : y + c.j ≤ c.data.dimension - 1 := by omega
  have h3 : c.data.dimension * (y + c.j) ≤ c.data.dimension * (c.data.dimension - 1) :=
    mul_le_mul_of_nonneg_left h2 (by omega)
  nlinarith

theorem rect_read {c : Submatrix} (hc : RealRect c) (h : Heap) {x y : ℤ}
    (hx0 : 0 ≤ x) (hx : x < c.dimension) (hy0 : 0 ≤ y) (hy : y < c.dimension) :
    c.read h x y = h c.data.ref (c.flat x y) :=
  if_pos (realrect_in_bounds hc hx0 hx hy0 hy)

theorem write_eq (s : Submatrix) (h : Heap) (x y v : ℤ) (r : ℕ) (idx : ℤ) :
    s.write h x y v r idx =
      if s.in_bounds x y ∧ r = s.data.ref ∧ idx = s.flat x y then v else h r idx := by
  unfold Submatrix.write updateHeap
  by_cases hib : s.in_bounds x y
  · rw [if_pos hib]
    show (if r = s.data.ref ∧ idx = s.flat x y then v else h r idx) = _
    by_cases hri : r = s.data.ref ∧ idx = s.flat x y
    · rw [if_pos hri, if_pos ⟨hib, hri.1, hri.2⟩]
    · rw [if_neg hri, if_neg fun hc => hri ⟨hc.2.1, hc.2.2⟩]
  · rw [if_neg hib, if_neg fun hc => hib hc.1]

theorem rect_flat_inj {c : Submatrix} (hc : RealRect c) {x y u v : ℤ}
    (hx0 : 0 ≤ x) (hx : x < c.dimension) (hy0 : 0 ≤ y) (hy : y < c.dimension)
    (hu0 : 0 ≤ u) (hu : u < c.dimension) (hv0 : 0 ≤ v) (hv : v < c.dimension)
    (heq : c.flat x y = c.flat u v) : x = u ∧ y = v := by
  obtain ⟨hd, hi, hj, hiD, hjD, hsz⟩ := hc
  have hD0 : 0 < c.data.dimension := by omega
  unfold Submatrix.flat at heq
  have h1 : (x + c.i) % c.data.dimension = x + c.i :=
    Int.emod_eq_of_lt (by omega) (by omega)
  have h2 : (u + c.i) % c.data.dimension = u + c.i :=
    Int.emod_eq_of_lt (by omega) (by omega)
  have e1 : x + c.i = u + c.i := by
    have hmod := congrArg (fun t => t % c.data.dimension) heq
    simpa [Int.add_mul_emod_self_left, h1, h2] using hmod
  have e3 : c.data.dimension * (y + c.j) = c.data.dimension * (v + c.j) := by
    linarith [heq, e1]
  have e4 : y + c.j = v + c.j := mul_left_cancel₀ (ne_of_gt hD0) e3
  omega

theorem read_foot_sub_foot (s : Submatrix) {r : ℕ} {idx : ℤ} (h : InReadFoot s r idx) :
    InFoot s r idx := by
  obtain ⟨hr, x, y, hib, hidx⟩ := h
  exact ⟨hr, x, y, hib.2.1, hib.2.2.1, hib.2.2.2.1, hib.2.2.2.2, hidx⟩

theorem read_agree {v : Submatrix} {h h2 : Heap}
    (hag : ∀ r idx, InReadFoot v r idx → h2 r idx = h r idx) (x y : ℤ) :
    v.read h2 x y = v.read h x y := by
  unfold Submatrix.read
  split_ifs with hib
  · exact hag _ _ ⟨rfl, x, y, hib, rfl⟩
  · rfl

theorem read_agree_of_outside {a c : Submatrix} {h h2 : Heap} (HA : ReadsOutside a c)
    (hag : ∀ r idx, ¬ InFoot c r idx → h2 r idx = h r idx) (x y : ℤ) :
    a.read h2 x y = a.read h x y :=
  read_agree (fun r idx hrf => hag r idx (HA r idx hrf)) x y

end RectBasics

section CellFold

/-- The agreement condition available to one loop iteration writing cell
(x, y): the running heap matches the reference heap everywhere except possibly
at rectangle cells of c other than (x, y). -/
def AgreeExceptOthers (c : Submatrix) (h0 h1 : Heap) (x y : ℤ) : Prop :=
  ∀ r idx,
    (r ≠ c.data.ref ∨ ∀ u v : ℤ, 0 ≤ u → u < c.dimension → 0 ≤ v → v < c.dimension →
      ¬ (u = x ∧ v = y) → idx ≠ c.flat u v) → h1 r idx = h0 r idx

theorem agree_of_not_infoot {c : Submatrix} {h0 h1 : Heap} {x y : ℤ}
    (hcond : AgreeExceptOthers c h0 h1 x y) {r : ℕ} {idx : ℤ} (hni : ¬ InFoot c r idx) :
    h1 r idx = h0 r idx := by
  apply hcond
  by_cases hr : r = c.data.ref
  · exact Or.inr fun u v hu0 hu hv0 hv _ hidx => hni ⟨hr, u, v, hu0, hu, hv0, hv, hidx⟩
  · exact Or.inl hr

theorem agree_at_own {c : Submatrix} (hc : RealRect c) {h0 h1 : Heap} {x y : ℤ}
    (hx0 : 0 ≤ x) (hx : x < c.dimension) (hy0 : 0 ≤ y) (hy : y < c.dimension)
    (hcond : AgreeExceptOthers c h0 h1 x y) :
    h1 c.data.ref (c.flat x y) = h0 c.data.ref (c.flat x y) := by
  apply hcond
  refine Or.inr fun u v hu0 hu hv0 hv hne hidx => hne ?_
  have := rect_flat_inj hc hx0 hx hy0 hy hu0 hu hv0 hv hidx
  exact ⟨this.1.symm, this.2.symm⟩

theorem read_agree_of_cond {a c : Submatrix} {h0 h1 : Heap} {x y : ℤ}
    (HA : ReadsOutside a c) (hcond : AgreeExceptOthers c h0 h1 x y) (p q : ℤ) :
    a.read h1 p q = a.read h0 p q :=
  read_agree (fun r idx hrf => agree_of_not_infoot hcond (HA r idx hrf)) p q

theorem self_read_agree_of_cond {c : Submatrix} (hc : RealRect c) {h0 h1 : Heap} {x y : ℤ}
    (hx0 : 0 ≤ x) (hx : x < c.dimension) (hy0 : 0 ≤ y) (hy : y < c.dimension)
    (hcond : AgreeExceptOthers c h0 h1 x y) :
    c.read h1 x y = c.read h0 x y := by
  rw [rect_read hc _ hx0 hx hy0 hy, rect_read hc _ hx0 hx hy0 hy]
  exact agree_at_own hc hx0 hx hy0 hy hcond

/-- The workhorse: a fold over a duplicate-free list of rectangle cells of c,
where each iteration (under the running agreement condition) writes its cell
with a fixed value. The final heap holds the value at every listed cell, is
unchanged off the rectangle footprint, and is unchanged at unlisted cells. -/
theorem cellFold_go (c : Submatrix) (hc : RealRect c) (h0 : Heap) (val : ℤ → ℤ → ℤ)
    (step : Heap → ℤ × ℤ → Heap) :
    ∀ cells : List (ℤ × ℤ),
      (∀ p ∈ cells, 0 ≤ p.1 ∧ p.1 < c.dimension ∧ 0 ≤ p.2 ∧ p.2 < c.dimension) →
      cells.Nodup →
      (∀ (h1 : Heap) (p : ℤ × ℤ), p ∈ cells → AgreeExceptOthers c h0 h1 p.1 p.2 →
        step h1 p = c.write h1 p.1 p.2 (val p.1 p.2)) →
      ∀ h1 : Heap,
        (∀ r idx, ¬ InFoot c r idx → h1 r idx = h0 r idx) →
        (∀ p ∈ cells, h1 c.data.ref (c.flat p.1 p.2) = h0 c.data.ref (c.flat p.1 p.2)) →
        (∀ p ∈ cells, (cells.foldl step h1) c.data.ref (c.flat p.1 p.2) = val p.1 p.2) ∧
        (∀ r idx, ¬ InFoot c r idx → (cells.foldl step h1) r idx = h1 r idx) ∧
        (∀ u v : ℤ, 0 ≤ u → u < c.dimension → 0 ≤ v → v < c.dimension → (u, v) ∉ cells →
          (cells.foldl step h1) c.data.ref (c.flat u v) = h1 c.data.ref (c.flat u v)) := by
  intro cells
  induction cells with
  | nil =>
    intro _ _ _ h1 _ _
    exact ⟨fun p hp => absurd hp (List.not_mem_nil p), fun r idx _ => rfl,
      fun u v _ _ _ _ _ => rfl⟩
  | cons p rest ih =>
    intro hsub hnd hstep h1 hag1 hag2
    have hpb := hsub p (List.mem_cons_self p rest)
    have hpr : p ∉ rest := (List.nodup_cons.mp hnd).1
    have hcond : AgreeExceptOthers c h0 h1 p.1 p.2 := by
      intro r idx hor
      rcases hor with hr | havoid
      · exact hag1 r idx fun hif => hr hif.1
      · by_cases hex : ∃ u v : ℤ, 0 ≤ u ∧ u < c.dimension ∧ 0 ≤ v ∧ v < c.dimension ∧
            idx = c.flat u v
        · obtain ⟨u, v, hu0, hu, hv0, hv, hidx⟩ := hex
          have huv : u = p.1 ∧ v = p.2 := by
            by_contra hne
            exact havoid u v hu0 hu hv0 hv hne hidx
          by_cases hr : r = c.data.ref
          · have : idx = c.flat p.1 p.2 := by rw [hidx, huv.1, huv.2]
            rw [hr, this]
            exact hag2 p (List.mem_cons_self p rest)
          · exact hag1 r idx fun hif => hr hif.1
        · exact hag1 r idx fun hif => hex ⟨hif.2.choose, hif.2.choose_spec.choose,
            hif.2.choose_spec.choose_spec.1, hif.2.choose_spec.choose_spec.2.1,
            hif.2.choose_spec.choose_spec.2.2.1, hif.2.choose_spec.choose_spec.2.2.2.1,
            hif.2.choose_spec.choose_spec.2.2.2.2⟩
    have hib : c.in_bounds p.1 p.2 :=
      realrect_in_bounds hc hpb.1 hpb.2.1 hpb.2.2.1 hpb.2.2.2
    have hstep1 : step h1 p = c.write h1 p.1 p.2 (val p.1 p.2) :=
      hstep h1 p (List.mem_cons_self p rest) hcond
    have h2eq : ∀ r idx, step h1 p r idx =
        if r = c.data.ref ∧ idx = c.flat p.1 p.2 then val p.1 p.2 else h1 r idx := by
      intro r idx
      rw [hstep1, write_eq]
      by_cases hri : r = c.data.ref ∧ idx = c.flat p.1 p.2
      · rw [if_pos ⟨hib, hri.1, hri.2⟩, if_pos hri]
      · rw [if_neg fun hc => hri ⟨hc.2.1, hc.2.2⟩, if_neg hri]
    have hag1' : ∀ r idx, ¬ InFoot c r idx → step h1 p r idx = h0 r idx := by
      intro r idx hni
      rw [h2eq]
      rw [if_neg]
      · exact hag1 r idx hni
      · rintro ⟨hr, hidx⟩
        exact hni ⟨hr, p.1, p.2, hpb.1, hpb.2.1, hpb.2.2.1, hpb.2.2.2, hidx⟩
    have hag2' : ∀ q ∈ rest,
        step h1 p c.data.ref (c.flat q.1 q.2) = h0 c.data.ref (c.flat q.1 q.2) := by
      intro q hq
      have hqb := hsub q (List.mem_cons_of_mem p hq)
      rw [h2eq]
      rw [if_neg]
      · exact hag2 q (List.mem_cons_of_mem p hq)
      · rintro ⟨-, hidx⟩
        have := rect_flat_inj hc hqb.1 hqb.2.1 hqb.2.2.1 hqb.2.2.2
          hpb.1 hpb.2.1 hpb.2.2.1 hpb.2.2.2 hidx
        refine hpr ?_
        have hq1 : q = p := by
          obtain ⟨e1, e2⟩ := this
          obtain ⟨q1, q2⟩ := q
          obtain ⟨p1, p2⟩ := p
          simp_all
        rwa [hq1] at hq
    have hsub' : ∀ q ∈ rest, 0 ≤ q.1 ∧ q.1 < c.dimension ∧ 0 ≤ q.2 ∧ q.2 < c.dimension :=
      fun q hq => hsub q (List.mem_cons_of_mem p hq)
    have hstep' : ∀ (hh : Heap) (q : ℤ × ℤ), q ∈ rest → AgreeExceptOthers c h0 hh q.1 q.2 →
        step hh q = c.write hh q.1 q.2 (val q.1 q.2) :=
      fun hh q hq => hstep hh q (List.mem_cons_of_mem p hq)
    obtain ⟨ihA, ihB, ihC⟩ := ih hsub' (List.nodup_cons.mp hnd).2 hstep' (step h1 p) hag1' hag2'
    rw [List.foldl_cons]
    refine ⟨?_, ?_, ?_⟩
    · intro q hq
      rcases List.mem_cons.mp hq with hq1 | hq2
      · subst hq1
        rw [ihC q.1 q.2 hpb.1 hpb.2.1 hpb.2.2.1 hpb.2.2.2 (by simpa using hpr), h2eq,
          if_pos ⟨rfl, rfl⟩]
      · exact ihA q hq2
    · intro r idx hni
      have hcneg : ¬ (r = c.data.ref ∧ idx = c.flat p.1 p.2) := by
        rintro ⟨hr, hidx⟩
        exact hni ⟨hr, p.1, p.2, hpb.1, hpb.2.1, hpb.2.2.1, hpb.2.2.2, hidx⟩
      rw [ihB r idx hni, h2eq, if_neg hcneg]
    · intro u v hu0 hu hv0 hv hmem
      have hmem' : (u, v) ∉ rest := fun hx => hmem (List.mem_cons_of_mem p hx)
      have hcneg : ¬ (c.data.ref = c.data.ref ∧ c.flat u v = c.flat p.1 p.2) := by
        rintro ⟨-, hidx⟩
        have := rect_flat_inj hc hu0 hu hv0 hv hpb.1 hpb.2.1 hpb.2.2.1 hpb.2.2.2 hidx
        refine hmem ?_
        rw [this.1, this.2]
        exact List.mem_cons_self p rest
      rw [ihC u v hu0 hu hv0 hv hmem', h2eq, if_neg hcneg]
end CellFold

section CellLists

theorem foldl_flatMap_eq {α β γ : Type} (l : List α) (f : α → List β) (g : γ → β → γ)
    (init : γ) :
    (l.flatMap f).foldl g init = l.foldl (fun acc a => (f a).foldl g acc) init := by
  induction l generalizing init with
  | nil => rfl
  | cons a l ih => simp [List.flatMap_cons, List.foldl_append, ih]

theorem cellList_mem (n : ℤ) (p : ℤ × ℤ) :
    p ∈ cellList n ↔ 0 ≤ p.1 ∧ p.1 < n ∧ 0 ≤ p.2 ∧ p.2 < n := by
  unfold cellList
  rw [List.mem_flatMap]
  constructor
  · rintro ⟨j, hj, hmem⟩
    rw [List.mem_map] at hmem
    obtain ⟨i, hi, hpe⟩ := hmem
    rw [List.mem_range] at hj hi
    subst hpe
    refine ⟨?_, ?_, ?_, ?_⟩
    · show (0 : ℤ) ≤ (i : ℤ)
      omega
    · show (i : ℤ) < n
      omega
    · show (0 : ℤ) ≤ (j : ℤ)
      omega
    · show (j : ℤ) < n
      omega
  · intro hb
    refine ⟨p.2.toNat, ?_, ?_⟩
    · rw [List.mem_range]
      omega
    · rw [List.mem_map]
      refine ⟨p.1.toNat, ?_, ?_⟩
      · rw [List.mem_range]
        omega
      · obtain ⟨p1, p2⟩ := p
        dsimp only at hb ⊢
        rw [Prod.mk.injEq]
        constructor <;> omega

theorem cellList_nodup (n : ℤ) : (cellList n).Nodup := by
  unfold cellList
  rw [List.nodup_flatMap]
  constructor
  · intro j hj
    refine List.Nodup.map ?_ (List.nodup_range _)
    intro i1 i2 he
    have := congrArg Prod.fst he
    dsimp only at this
    omega
  · have hp : List.Pairwise (· < ·) (List.range n.toNat) := List.pairwise_lt_range _
    apply hp.imp
    intro j1 j2 hlt a ha1 ha2
    rw [List.mem_map] at ha1 ha2
    obtain ⟨i1, hi1, he1⟩ := ha1
    obtain ⟨i2, hi2, he2⟩ := ha2
    have := congrArg Prod.snd (he1.trans he2.symm)
    dsimp only at this
    omega

theorem rowCells_mem (i n : ℤ) (p : ℤ × ℤ) :
    p ∈ rowCells i n ↔ p.1 = i ∧ 0 ≤ p.2 ∧ p.2 < n := by
  unfold rowCells
  rw [List.mem_map]
  constructor
  · rintro ⟨j, hj, hpe⟩
    rw [List.mem_range] at hj
    subst hpe
    refine ⟨rfl, ?_, ?_⟩
    · show (0 : ℤ) ≤ (j : ℤ)
      omega
    · show (j : ℤ) < n
      omega
  · intro hb
    refine ⟨p.2.toNat, ?_, ?_⟩
    · rw [List.mem_range]
      omega
    · obtain ⟨p1, p2⟩ := p
      dsimp only at hb ⊢
      rw [Prod.mk.injEq]
      constructor <;> omega

theorem rowCells_nodup (i n : ℤ) : (rowCells i n).Nodup := by
  unfold rowCells
  refine List.Nodup.map ?_ (List.nodup_range _)
  intro j1 j2 he
  have := congrArg Prod.snd he
  dsimp only at this
  omega

end CellLists

section OpSpecs

theorem sum_eq_fold (a b c : Submatrix) (h : Heap) :
    sum a b c h = (cellList c.dimension).foldl
      (fun hh p => c.write hh p.1 p.2 (a.read hh p.1 p.2 + b.read hh p.1 p.2)) h := by
  unfold sum cellList
  rw [foldl_flatMap_eq]
  simp only [List.foldl_map]

theorem sub_eq_fold (a b c : Submatrix) (h : Heap) :
    sub a b c h = (cellList c.dimension).foldl
      (fun hh p => c.write hh p.1 p.2 (a.read hh p.1 p.2 - b.read hh p.1 p.2)) h := by
  unfold sub cellList
  rw [foldl_flatMap_eq]
  simp only [List.foldl_map]

theorem clear_eq_fold (c : Submatrix) (h : Heap) :
    c.clear h = (cellList c.dimension).foldl (fun hh p => c.write hh p.1 p.2 0) h := by
  unfold Submatrix.clear cellList
  rw [foldl_flatMap_eq]
  simp only [List.foldl_map]

theorem sum_spec (a b c : Submatrix) (h : Heap) (hc : RealRect c)
    (HA : a = c ∨ ReadsOutside a c) (HB : b = c ∨ ReadsOutside b c) :
    (∀ x y : ℤ, 0 ≤ x → x < c.dimension → 0 ≤ y → y < c.dimension →
      sum a b c h c.data.ref (c.flat x y) = a.read h x y + b.read h x y) ∧
    (∀ r idx, ¬ InFoot c r idx → sum a b c h r idx = h r idx) := by
  have key := cellFold_go c hc h (fun x y => a.read h x y + b.read h x y)
    (fun hh p => c.write hh p.1 p.2 (a.read hh p.1 p.2 + b.read hh p.1 p.2))
    (cellList c.dimension)
    (fun p hp => (cellList_mem _ p).mp hp)
    (cellList_nodup _)
    (by
      intro h1 p hp hcond
      have hpb := (cellList_mem _ p).mp hp
      have hA : a.read h1 p.1 p.2 = a.read h p.1 p.2 := by
        rcases HA with rfl | HA
        · exact self_read_agree_of_cond hc hpb.1 hpb.2.1 hpb.2.2.1 hpb.2.2.2 hcond
        · exact read_agree_of_cond HA hcond p.1 p.2
      have hB : b.read h1 p.1 p.2 = b.read h p.1 p.2 := by
        rcases HB with rfl | HB
        · exact self_read_agree_of_cond hc hpb.1 hpb.2.1 hpb.2.2.1 hpb.2.2.2 hcond
        · exact read_agree_of_cond HB hcond p.1 p.2
      dsimp only
      rw [hA, hB])
    h (fun _ _ _ => rfl) (fun _ _ => rfl)
  obtain ⟨kA, kB, kC⟩ := key
  refine ⟨fun x y hx0 hx hy0 hy => ?_, fun r idx hni => ?_⟩
  · rw [sum_eq_fold]
    exact kA (x, y) ((cellList_mem _ _).mpr ⟨hx0, hx, hy0, hy⟩)
  · rw [sum_eq_fold]
    exact kB r idx hni

theorem sub_spec (a b c : Submatrix) (h : Heap) (hc : RealRect c)
    (HA : a = c ∨ ReadsOutside a c) (HB : b = c ∨ ReadsOutside b c) :
    (∀ x y : ℤ, 0 ≤ x → x < c.dimension → 0 ≤ y → y < c.dimension →
      sub a b c h c.data.ref (c.flat x y) = a.read h x y - b.read h x y) ∧
    (∀ r idx, ¬ InFoot c r idx → sub a b c h r idx = h r idx) := by
  have key := cellFold_go c hc h (fun x y => a.read h x y - b.read h x y)
    (fun hh p => c.write hh p.1 p.2 (a.read hh p.1 p.2 - b.read hh p.1 p.2))
    (cellList c.dimension)
    (fun p hp => (cellList_mem _ p).mp hp)
    (cellList_nodup _)
    (by
      intro h1 p hp hcond
      have hpb := (cellList_mem _ p).mp hp
      have hA : a.read h1 p.1 p.2 = a.read h p.1 p.2 := by
        rcases HA with rfl | HA
        · exact self_read_agree_of_cond hc hpb.1 hpb.2.1 hpb.2.2.1 hpb.2.2.2 hcond
        · exact read_agree_of_cond HA hcond p.1 p.2
      have hB : b.read h1 p.1 p.2 = b.read h p.1 p.2 := by
        rcases HB with rfl | HB
        · exact self_read_agree_of_cond hc hpb.1 hpb.2.1 hpb.2.2.1 hpb.2.2.2 hcond
        · exact read_agree_of_cond HB hcond p.1 p.2
      dsimp only
      rw [hA, hB])
    h (fun _ _ _ => rfl) (fun _ _ => rfl)
  obtain ⟨kA, kB, kC⟩ := key
  refine ⟨fun x y hx0 hx hy0 hy => ?_, fun r idx hni => ?_⟩
  · rw [sub_eq_fold]
    exact kA (x, y) ((cellList_mem _ _).mpr ⟨hx0, hx, hy0, hy⟩)
  · rw [sub_eq_fold]
    exact kB r idx hni

theorem clear_spec (c : Submatrix) (h : Heap) (hc : RealRect c) :
    (∀ x y : ℤ, 0 ≤ x → x < c.dimension → 0 ≤ y → y < c.dimension →
      c.clear h c.data.ref (c.flat x y) = 0) ∧
    (∀ r idx, ¬ InFoot c r idx → c.clear h r idx = h r idx) := by
  have key := cellFold_go c hc h (fun _ _ => 0)
    (fun hh p => c.write hh p.1 p.2 0)
    (cellList c.dimension)
    (fun p hp => (cellList_mem _ p).mp hp)
    (cellList_nodup _)
    (fun h1 p hp hcond => rfl)
    h (fun _ _ _ => rfl) (fun _ _ => rfl)
  obtain ⟨kA, kB, kC⟩ := key
  refine ⟨fun x y hx0 hx hy0 hy => ?_, fun r idx hni => ?_⟩
  · rw [clear_eq_fold]
    exact kA (x, y) ((cellList_mem _ _).mpr ⟨hx0, hx, hy0, hy⟩)
  · rw [clear_eq_fold]
    exact kB r idx hni

end OpSpecs

section LinearSpec

theorem linRowFold_eq (b c : Submatrix) (i k r : ℤ) (h : Heap) :
    linRowFold b c i k r h = (rowCells i c.dimension).foldl
      (fun hh p => c.write hh p.1 p.2 (c.read hh p.1 p.2 + r * b.read hh k p.2)) h := by
  unfold linRowFold rowCells
  rw [List.foldl_map]

theorem linRow_spec (b c : Submatrix) (hc : RealRect c) (h : Heap) (HB : ReadsOutside b c)
    (i k r : ℤ) (hi0 : 0 ≤ i) (hi : i < c.dimension) :
    (∀ y : ℤ, 0 ≤ y → y < c.dimension →
      linRowFold b c i k r h c.data.ref (c.flat i y) = c.read h i y + r * b.read h k y) ∧
    (∀ rr idx, ¬ InFoot c rr idx → linRowFold b c i k r h rr idx = h rr idx) ∧
    (∀ u v : ℤ, 0 ≤ u → u < c.dimension → 0 ≤ v → v < c.dimension → u ≠ i →
      linRowFold b c i k r h c.data.ref (c.flat u v) = h c.data.ref (c.flat u v)) := by
  have key := cellFold_go c hc h (fun x y => c.read h x y + r * b.read h k y)
    (fun hh p => c.write hh p.1 p.2 (c.read hh p.1 p.2 + r * b.read hh k p.2))
    (rowCells i c.dimension)
    (fun p hp => by
      have := (rowCells_mem _ _ p).mp hp
      exact ⟨this.1 ▸ hi0, this.1 ▸ hi, this.2.1, this.2.2⟩)
    (rowCells_nodup _ _)
    (by
      intro h1 p hp hcond
      have hpm := (rowCells_mem _ _ p).mp hp
      have hC : c.read h1 p.1 p.2 = c.read h p.1 p.2 :=
        self_read_agree_of_cond hc (hpm.1 ▸ hi0) (hpm.1 ▸ hi) hpm.2.1 hpm.2.2 hcond
      have hB : b.read h1 k p.2 = b.read h k p.2 := read_agree_of_cond HB hcond k p.2
      dsimp only
      rw [hC, hB])
    h (fun _ _ _ => rfl) (fun _ _ => rfl)
  obtain ⟨kA, kB, kC⟩ := key
  rw [linRowFold_eq]
  refine ⟨fun y hy0 hy => ?_, kB, fun u v hu0 hu hv0 hv hne => ?_⟩
  · exact kA (i, y) ((rowCells_mem _ _ _).mpr ⟨rfl, hy0, hy⟩)
  · exact kC u v hu0 hu hv0 hv (fun hmem => hne ((rowCells_mem _ _ _).mp hmem).1)

theorem linPass_go (a b c : Submatrix) (hc : RealRect c) (h : Heap)
    (HA : ReadsOutside a c) (HB : ReadsOutside b c) (k : ℤ) :
    ∀ (rows : List ℕ) (h1 : Heap),
      (∀ i ∈ rows, (i : ℤ) < c.dimension) → rows.Nodup →
      (∀ r idx, ¬ InFoot c r idx → h1 r idx = h r idx) →
      (∀ i ∈ rows, ∀ y : ℤ, 0 ≤ y → y < c.dimension →
        h1 c.data.ref (c.flat (i : ℤ) y) = h c.data.ref (c.flat (i : ℤ) y)) →
      (∀ i ∈ rows, ∀ y : ℤ, 0 ≤ y → y < c.dimension →
        (rows.foldl (fun (hh : Heap) (i2 : ℕ) =>
            linRowFold b c (i2 : ℤ) k (a.read hh (i2 : ℤ) k) hh) h1)
          c.data.ref (c.flat (i : ℤ) y) =
          c.read h (i : ℤ) y + a.read h (i : ℤ) k * b.read h k y) ∧
      (∀ r idx, ¬ InFoot c r idx →
        (rows.foldl (fun (hh : Heap) (i2 : ℕ) =>
            linRowFold b c (i2 : ℤ) k (a.read hh (i2 : ℤ) k) hh) h1) r idx = h1 r idx) ∧
      (∀ u v : ℤ, 0 ≤ u → u < c.dimension → 0 ≤ v → v < c.dimension →
        (∀ i ∈ rows, u ≠ (i : ℤ)) →
        (rows.foldl (fun (hh : Heap) (i2 : ℕ) =>
            linRowFold b c (i2 : ℤ) k (a.read hh (i2 : ℤ) k) hh) h1)
          c.data.ref (c.flat u v) = h1 c.data.ref (c.flat u v)) := by
  intro rows
  induction rows with
  | nil =>
    intro h1 _ _ hag1 hag2
    exact ⟨fun i hi => absurd hi (List.not_mem_nil i), fun r idx _ => rfl,
      fun u v _ _ _ _ _ => rfl⟩
  | cons i rows ih =>
    intro h1 hrows hnd hag1 hag2
    have hi : (i : ℤ) < c.dimension := hrows i (List.mem_cons_self i rows)
    have hi0 : (0 : ℤ) ≤ (i : ℤ) := by omega
    have hr : a.read h1 (i : ℤ) k = a.read h (i : ℤ) k :=
      read_agree_of_outside HA hag1 (i : ℤ) k
    obtain ⟨rowA, rowB, rowC⟩ :=
      linRow_spec b c hc h1 HB (i : ℤ) k (a.read h1 (i : ℤ) k) hi0 hi
    have hbstable : ∀ y : ℤ, b.read h1 k y = b.read h k y := fun y =>
      read_agree_of_outside HB hag1 k y
    have hcellval : ∀ y : ℤ, 0 ≤ y → y < c.dimension →
        linRowFold b c (i : ℤ) k (a.read h1 (i : ℤ) k) h1 c.data.ref (c.flat (i : ℤ) y) =
          c.read h (i : ℤ) y + a.read h (i : ℤ) k * b.read h k y := by
      intro y hy0 hy
      rw [rowA y hy0 hy, hr, hbstable y]
      have e1 : c.read h1 (i : ℤ) y = c.read h (i : ℤ) y := by
        rw [rect_read hc _ hi0 hi hy0 hy, rect_read hc _ hi0 hi hy0 hy]
        exact hag2 i (List.mem_cons_self i rows) y hy0 hy
      rw [e1]
    have hag1' : ∀ r idx, ¬ InFoot c r idx →
        linRowFold b c (i : ℤ) k (a.read h1 (i : ℤ) k) h1 r idx = h r idx := by
      intro r idx hni
      rw [rowB r idx hni]
      exact hag1 r idx hni
    have hag2' : ∀ i2 ∈ rows, ∀ y : ℤ, 0 ≤ y → y < c.dimension →
        linRowFold b c (i : ℤ) k (a.read h1 (i : ℤ) k) h1 c.data.ref (c.flat (i2 : ℤ) y) =
          h c.data.ref (c.flat (i2 : ℤ) y) := by
      intro i2 hi2 y hy0 hy
      have hne : (i2 : ℤ) ≠ (i : ℤ) := by
        have : i2 ≠ i := by
          intro he
          exact (List.nodup_cons.mp hnd).1 (he ▸ hi2)
        omega
      have hlt := hrows i2 (List.mem_cons_of_mem i hi2)
      rw [rowC (i2 : ℤ) y (by omega) hlt hy0 hy hne]
      exact hag2 i2 (List.mem_cons_of_mem i hi2) y hy0 hy
    obtain ⟨ihA, ihB, ihC⟩ := ih
      (linRowFold b c (i : ℤ) k (a.read h1 (i : ℤ) k) h1)
      (fun i2 hi2 => hrows i2 (List.mem_cons_of_mem i hi2))
      (List.nodup_cons.mp hnd).2 hag1' hag2'
    rw [List.foldl_cons]
    refine ⟨?_, ?_, ?_⟩
    · intro i2 hi2 y hy0 hy
      rcases List.mem_cons.mp hi2 with he | hm
      · subst he
        have hnotin : ∀ i3 ∈ rows, (i2 : ℤ) ≠ (i3 : ℤ) := by
          intro i3 hi3
          have : i2 ≠ i3 := by
            intro he2
            exact (List.nodup_cons.mp hnd).1 (he2 ▸ hi3)
          omega
        rw [ihC (i2 : ℤ) y hi0 hi hy0 hy hnotin]
        exact hcellval y hy0 hy
      · exact ihA i2 hm y hy0 hy
    · intro r idx hni
      rw [ihB r idx hni, rowB r idx hni]
    · intro u v hu0 hu hv0 hv hall
      rw [ihC u v hu0 hu hv0 hv (fun i2 hi2 => hall i2 (List.mem_cons_of_mem i hi2)),
        rowC u v hu0 hu hv0 hv (hall i (List.mem_cons_self i rows))]

theorem linPassFold_spec (a b c : Submatrix) (hc : RealRect c) (h : Heap)
    (HA : ReadsOutside a c) (HB : ReadsOutside b c) (k : ℤ) :
    (∀ x y : ℤ, 0 ≤ x → x < c.dimension → 0 ≤ y → y < c.dimension →
      linPassFold a b c k h c.data.ref (c.flat x y) =
        c.read h x y + a.read h x k * b.read h k y) ∧
    (∀ r idx, ¬ InFoot c r idx → linPassFold a b c k h r idx = h r idx) := by
  obtain ⟨kA, kB, kC⟩ := linPass_go a b c hc h HA HB k (List.range c.dimension.toNat) h
    (fun i hi => by
      rw [List.mem_range] at hi
      omega)
    (List.nodup_range _) (fun _ _ _ => rfl) (fun _ _ _ _ _ => rfl)
  refine ⟨fun x y hx0 hx hy0 hy => ?_, kB⟩
  have hxm : x.toNat ∈ List.range c.dimension.toNat := by
    rw [List.mem_range]
    omega
  have hxe : ((x.toNat : ℤ)) = x := by omega
  have := kA x.toNat hxm y hy0 hy
  rw [hxe] at this
  exact this

theorem linear_mul_eq_passes (a b c : Submatrix) (h : Heap) :
    linear_mul a b c h = (List.range c.dimension.toNat).foldl
      (fun (hh : Heap) (k : ℕ) => linPassFold a b c (k : ℤ) hh) h := rfl

theorem linear_spec (a b c : Submatrix) (h : Heap) (hc : RealRect c)
    (HA : ReadsOutside a c) (HB : ReadsOutside b c) :
    (∀ x y : ℤ, 0 ≤ x → x < c.dimension → 0 ≤ y → y < c.dimension →
      linear_mul a b c h c.data.ref (c.flat x y) =
        c.read h x y + mmulF c.dimension (a.read h) (b.read h) x y) ∧
    (∀ r idx, ¬ InFoot c r idx → linear_mul a b c h r idx = h r idx) := by
  have go : ∀ t : ℕ,
      (∀ x y : ℤ, 0 ≤ x → x < c.dimension → 0 ≤ y → y < c.dimension →
        ((List.range t).foldl (fun (hh : Heap) (k : ℕ) => linPassFold a b c (k : ℤ) hh) h)
          c.data.ref (c.flat x y) =
          c.read h x y + ∑ k ∈ Finset.range t, a.read h x (k : ℤ) * b.read h (k : ℤ) y) ∧
      (∀ r idx, ¬ InFoot c r idx →
        ((List.range t).foldl (fun (hh : Heap) (k : ℕ) => linPassFold a b c (k : ℤ) hh) h)
          r idx = h r idx) := by
    intro t
    induction t with
    | zero =>
      refine ⟨fun x y hx0 hx hy0 hy => ?_, fun r idx _ => rfl⟩
      rw [rect_read hc h hx0 hx hy0 hy]
      simp
    | succ t iht =>
      obtain ⟨ihA, ihB⟩ := iht
      rw [List.range_succ]
      constructor
      · intro x y hx0 hx hy0 hy
        rw [List.foldl_append, List.foldl_cons, List.foldl_nil]
        obtain ⟨pA, pB⟩ := linPassFold_spec a b c hc
          ((List.range t).foldl (fun (hh : Heap) (k : ℕ) => linPassFold a b c (k : ℤ) hh) h)
          HA HB (t : ℤ)
        rw [pA x y hx0 hx hy0 hy]
        have ha : a.read ((List.range t).foldl
            (fun (hh : Heap) (k : ℕ) => linPassFold a b c (k : ℤ) hh) h) x (t : ℤ) =
            a.read h x (t : ℤ) :=
          read_agree_of_outside HA ihB x (t : ℤ)
        have hb : b.read ((List.range t).foldl
            (fun (hh : Heap) (k : ℕ) => linPassFold a b c (k : ℤ) hh) h) (t : ℤ) y =
            b.read h (t : ℤ) y :=
          read_agree_of_outside HB ihB (t : ℤ) y
        have hcread : Submatrix.read c ((List.range t).foldl
            (fun (hh : Heap) (k : ℕ) => linPassFold a b c (k : ℤ) hh) h) x y =
            c.read h x y + ∑ k ∈ Finset.range t, a.read h x (k : ℤ) * b.read h (k : ℤ) y := by
          rw [rect_read hc _ hx0 hx hy0 hy]
          exact ihA x y hx0 hx hy0 hy
        rw [ha, hb, hcread, Finset.sum_range_succ]
        ring
      · intro r idx hni
        rw [List.foldl_append, List.foldl_cons, List.foldl_nil]
        obtain ⟨pA, pB⟩ := linPassFold_spec a b c hc
          ((List.range t).foldl (fun (hh : Heap) (k : ℕ) => linPassFold a b c (k : ℤ) hh) h)
          HA HB (t : ℤ)
        rw [pB r idx hni]
        exact ihB r idx hni
  obtain ⟨gA, gB⟩ := go c.dimension.toNat
  rw [linear_mul_eq_passes]
  exact ⟨gA, gB⟩

end LinearSpec

section OutsideHelpers

theorem reads_outside_of_ref_ne (a c : Submatrix) (hne : a.data.ref ≠ c.data.ref) :
    ReadsOutside a c :=
  fun r idx hra hfc => hne (hra.1 ▸ hfc.1)

theorem reads_outside_of_footdisj (a c : Submatrix) (hd : FootDisj a c) : ReadsOutside a c :=
  fun r idx hra hfc => hd r idx (read_foot_sub_foot a hra) hfc

theorem rect_read_zero_origin (s : Submatrix) (hs : RealRect s) (h : Heap) {x y : ℤ}
    (hi : s.i = 0) (hj : s.j = 0) (hx0 : 0 ≤ x) (hx : x < s.dimension) (hy0 : 0 ≤ y)
    (hy : y < s.dimension) :
    s.read h x y = s.data.get h x y := by
  rw [rect_read hs h hx0 hx hy0 hy]
  unfold Submatrix.flat MatrixData.get
  have e : (x + s.i) + s.data.dimension * (y + s.j) = x + s.data.dimension * y := by
    rw [hi, hj]; ring
  rw [e]

end OutsideHelpers

section ClaimC2

/-- Counterexample to C2 as stated: the view over a 2 by 2 buffer with logical
dimension 1 addresses local cell (1, 0), whose buffer coordinates (1, 0) lie
inside the buffer; yet the read yields 0 instead of the buffer value 7, and a
write of 9 is discarded, because the access also fails the local dimension
check that the claim omits. -/
theorem claimC2_counterexample :
    ((0 : ℤ) ≤ 1 + 0 ∧ (1 : ℤ) + 0 < 2 ∧ (0 : ℤ) ≤ 0 + 0 ∧ (0 : ℤ) + 0 < 2) ∧
    Submatrix.read { data := MatrixData.make 0 2, i := 0, j := 0, dimension := 1 }
      (fun r idx => if r = 0 ∧ idx = 1 then 7 else 0) 1 0 = 0 ∧
    MatrixData.get (MatrixData.make 0 2)
      (fun r idx => if r = 0 ∧ idx = 1 then 7 else 0) 1 0 = 7 ∧
    Submatrix.write { data := MatrixData.make 0 2, i := 0, j := 0, dimension := 1 }
      (fun r idx => if r = 0 ∧ idx = 1 then 7 else 0) 1 0 9 0 1 = 7 := by
  decide

/-- Amended C2: an access through a View reaches the backing Buffer exactly
when the local coordinates lie inside the logical dimension of the view AND
the shifted coordinates pass the buffer check (nonnegative components and flat
index below the storage size); every other read yields 0 and every other write
is discarded. For a view that is a genuine in-bounds rectangle the condition
reduces to the local-coordinate check alone. -/
theorem claimC2 (s : Submatrix) (h : Heap) (x y : ℤ) :
    (s.read h x y =
      if (0 ≤ x ∧ x < s.dimension ∧ 0 ≤ y ∧ y < s.dimension) ∧
          0 ≤ x + s.i ∧ 0 ≤ y + s.j ∧ (x + s.i) + s.data.dimension * (y + s.j) < s.data.size
        then s.data.get h (x + s.i) (y + s.j) else 0) ∧
    (∀ v : ℤ, s.write h x y v =
      if (0 ≤ x ∧ x < s.dimension ∧ 0 ≤ y ∧ y < s.dimension) ∧
          0 ≤ x + s.i ∧ 0 ≤ y + s.j ∧ (x + s.i) + s.data.dimension * (y + s.j) < s.data.size
        then updateHeap h s.data.ref ((x + s.i) + s.data.dimension * (y + s.j)) v else h) ∧
    (RealRect s →
      s.read h x y =
        if 0 ≤ x ∧ x < s.dimension ∧ 0 ≤ y ∧ y < s.dimension
          then s.data.get h (x + s.i) (y + s.j) else 0) := by
  refine ⟨?_, ?_, ?_⟩
  · unfold Submatrix.read
    by_cases hib : s.in_bounds x y
    · rw [if_pos hib, if_pos ⟨hib.2, hib.1.1, hib.1.2.1, hib.1.2.2⟩]
      rfl
    · rw [if_neg hib, if_neg (fun hc => hib ⟨⟨hc.2.1, hc.2.2.1, hc.2.2.2⟩, hc.1⟩)]
  · intro v
    unfold Submatrix.write
    by_cases hib : s.in_bounds x y
    · rw [if_pos hib, if_pos ⟨hib.2, hib.1.1, hib.1.2.1, hib.1.2.2⟩]
      rfl
    · rw [if_neg hib, if_neg (fun hc => hib ⟨⟨hc.2.1, hc.2.2.1, hc.2.2.2⟩, hc.1⟩)]
  · intro hrr
    by_cases hloc : 0 ≤ x ∧ x < s.dimension ∧ 0 ≤ y ∧ y < s.dimension
    · rw [if_pos hloc, rect_read hrr h hloc.1 hloc.2.1 hloc.2.2.1 hloc.2.2.2]
      rfl
    · rw [if_neg hloc]
      unfold Submatrix.read
      rw [if_neg (fun hib => hloc hib.2)]

/-- Witness for the amended C2 at a concrete 2 by 2 full view, cell (1, 1). -/
theorem claimC2_w :
    (Submatrix.read (Submatrix.ofData (MatrixData.make 0 2)) (fun _ _ => 4) 1 1 =
      if ((0 : ℤ) ≤ 1 ∧ (1 : ℤ) < (Submatrix.ofData (MatrixData.make 0 2)).dimension ∧
            (0 : ℤ) ≤ 1 ∧ (1 : ℤ) < (Submatrix.ofData (MatrixData.make 0 2)).dimension) ∧
          (0 : ℤ) ≤ 1 + (Submatrix.ofData (MatrixData.make 0 2)).i ∧
          (0 : ℤ) ≤ 1 + (Submatrix.ofData (MatrixData.make 0 2)).j ∧
          (1 + (Submatrix.ofData (MatrixData.make 0 2)).i) +
              (Submatrix.ofData (MatrixData.make 0 2)).data.dimension *
                (1 + (Submatrix.ofData (MatrixData.make 0 2)).j) <
            (Submatrix.ofData (MatrixData.make 0 2)).data.size
        then MatrixData.get (Submatrix.ofData (MatrixData.make 0 2)).data (fun _ _ => 4)
          (1 + (Submatrix.ofData (MatrixData.make 0 2)).i)
          (1 + (Submatrix.ofData (MatrixData.make 0 2)).j)
        else 0) ∧
    (RealRect (Submatrix.ofData (MatrixData.make 0 2)) →
      Submatrix.read (Submatrix.ofData (MatrixData.make 0 2)) (fun _ _ => 4) 1 1 =
        if (0 : ℤ) ≤ 1 ∧ (1 : ℤ) < (Submatrix.ofData (MatrixData.make 0 2)).dimension ∧
            (0 : ℤ) ≤ 1 ∧ (1 : ℤ) < (Submatrix.ofData (MatrixData.make 0 2)).dimension
          then MatrixData.get (Submatrix.ofData (MatrixData.make 0 2)).data (fun _ _ => 4)
            (1 + (Submatrix.ofData (MatrixData.make 0 2)).i)
            (1 + (Submatrix.ofData (MatrixData.make 0 2)).j)
          else 0) :=
  ⟨(claimC2 (Submatrix.ofData (MatrixData.make 0 2)) (fun _ _ => 4) 1 1).1,
    (claimC2 (Submatrix.ofData (MatrixData.make 0 2)) (fun _ _ => 4) 1 1).2.2⟩

end ClaimC2

section ClaimC5

/-- Counterexample to C5 as stated: with an output View of side 2 whose
backing buffer is only 1 by 1, and all-ones 2 by 2 inputs, the cell (1, 1)
violates the claimed equation: the linear multiplier discards the write, so
the cell still reads 0 while the claimed sum is 2. -/
theorem claimC5_counterexample :
    ¬ (Submatrix.read { data := MatrixData.make 2 1, i := 0, j := 0, dimension := 2 }
        (linear_mul (Submatrix.ofData (MatrixData.make 0 2))
          (Submatrix.ofData (MatrixData.make 1 2))
          { data := MatrixData.make 2 1, i := 0, j := 0, dimension := 2 }
          (fun r idx => if (r = 0 ∨ r = 1) ∧ 0 ≤ idx ∧ idx < 4 then 1 else 0)) 1 1 =
      Submatrix.read { data := MatrixData.make 2 1, i := 0, j := 0, dimension := 2 }
        (fun r idx => if (r = 0 ∨ r = 1) ∧ 0 ≤ idx ∧ idx < 4 then 1 else 0) 1 1 +
      mmulF 2
        (Submatrix.read (Submatrix.ofData (MatrixData.make 0 2))
          (fun r idx => if (r = 0 ∨ r = 1) ∧ 0 ≤ idx ∧ idx < 4 then 1 else 0))
        (Submatrix.read (Submatrix.ofData (MatrixData.make 1 2))
          (fun r idx => if (r = 0 ∨ r = 1) ∧ 0 ≤ idx ∧ idx < 4 then 1 else 0)) 1 1) := by
  decide

/-- Amended C5: the accumulation law C_after = C_before + sum of A(i,k)*B(k,j)
holds at every cell of the output View when the output is a genuine in-bounds
rectangle and reads of the two operand Views never touch its footprint; with C
cleared beforehand this gives exactly the matrix product. -/
theorem claimC5 (a b c : Submatrix) (h : Heap) (hc : RealRect c)
    (HA : ReadsOutside a c) (HB : ReadsOutside b c) :
    ∀ x y : ℤ, 0 ≤ x → x < c.dimension → 0 ≤ y → y < c.dimension →
      c.read (linear_mul a b c h) x y =
        c.read h x y + mmulF c.dimension (a.read h) (b.read h) x y := by
  intro x y hx0 hx hy0 hy
  rw [rect_read hc _ hx0 hx hy0 hy]
  exact (linear_spec a b c h hc HA HB).1 x y hx0 hx hy0 hy

/-- Witness for the amended C5: 1 by 1 views over distinct buffers. -/
theorem claimC5_w :
    Submatrix.read (Submatrix.ofData (MatrixData.make 2 1))
      (linear_mul (Submatrix.ofData (MatrixData.make 0 1))
        (Submatrix.ofData (MatrixData.make 1 1)) (Submatrix.ofData (MatrixData.make 2 1))
        (fun _ _ => 2)) 0 0 =
    Submatrix.read (Submatrix.ofData (MatrixData.make 2 1)) (fun _ _ => 2) 0 0 +
      mmulF 1 (Submatrix.read (Submatrix.ofData (MatrixData.make 0 1)) (fun _ _ => 2))
        (Submatrix.read (Submatrix.ofData (MatrixData.make 1 1)) (fun _ _ => 2)) 0 0 :=
  claimC5 (Submatrix.ofData (MatrixData.make 0 1)) (Submatrix.ofData (MatrixData.make 1 1))
    (Submatrix.ofData (MatrixData.make 2 1)) (fun _ _ => 2) (by decide)
    (reads_outside_of_ref_ne _ _ (by decide)) (reads_outside_of_ref_ne _ _ (by decide))
    0 0 (by decide) (by decide) (by decide) (by decide)

end ClaimC5

section ClaimC10

/-- Counterexample to C10 as stated: two views of equal dimension 1 whose view
cells differ (9 versus 0), yet operator== returns true, because it compares
the backing buffers from their top-left corners and ignores the view origin
(1, 0) of the left view. -/
theorem claimC10_counterexample :
    Submatrix.eqOp { data := MatrixData.make 0 2, i := 1, j := 0, dimension := 1 }
      (fun r idx => if r = 0 ∧ idx = 1 then 9 else 0)
      (Submatrix.ofData (MatrixData.make 1 1)) = true ∧
    Submatrix.read { data := MatrixData.make 0 2, i := 1, j := 0, dimension := 1 }
      (fun r idx => if r = 0 ∧ idx = 1 then 9 else 0) 0 0 = 9 ∧
    Submatrix.read (Submatrix.ofData (MatrixData.make 1 1))
      (fun r idx => if r = 0 ∧ idx = 1 then 9 else 0) 0 0 = 0 := by
  decide

/-- Amended C10: operator== returns true iff the dimensions agree and the two
backing buffers coincide on the top-left dimension-sized square (origins are
ignored). For the Verifier's configuration, where both views have zero
origins and are genuine rectangles, this is exactly elementwise equality of
the two views over the compared region. -/
theorem claimC10 (h : Heap) (s t : Submatrix) :
    (s.eqOp h t = true ↔ s.dimension = t.dimension ∧
      ∀ x y : ℤ, 0 ≤ x → x < t.dimension → 0 ≤ y → y < t.dimension →
        s.data.get h x y = t.data.get h x y) ∧
    (s.i = 0 → s.j = 0 → t.i = 0 → t.j = 0 → RealRect s → RealRect t →
      s.dimension = t.dimension →
      (s.eqOp h t = true ↔
        ∀ x y : ℤ, 0 ≤ x → x < t.dimension → 0 ≤ y → y < t.dimension →
          s.read h x y = t.read h x y)) := by
  have part1 : s.eqOp h t = true ↔ s.dimension = t.dimension ∧
      ∀ x y : ℤ, 0 ≤ x → x < t.dimension → 0 ≤ y → y < t.dimension →
        s.data.get h x y = t.data.get h x y := by
    unfold Submatrix.eqOp
    by_cases hd : s.dimension = t.dimension
    · rw [if_neg (by simp [hd])]
      rw [List.all_eq_true]
      constructor
      · intro hall
        refine ⟨hd, fun x y hx0 hx hy0 hy => ?_⟩
        have h1 := hall x.toNat (by rw [List.mem_range]; omega)
        rw [List.all_eq_true] at h1
        have h2 := h1 y.toNat (by rw [List.mem_range]; omega)
        rw [beq_iff_eq] at h2
        have ex : ((x.toNat : ℤ)) = x := by omega
        have ey : ((y.toNat : ℤ)) = y := by omega
        rwa [ex, ey] at h2
      · rintro ⟨-, hall⟩ x hx
        rw [List.mem_range] at hx
        rw [List.all_eq_true]
        intro y hy
        rw [List.mem_range] at hy
        rw [beq_iff_eq]
        exact hall (x : ℤ) (y : ℤ) (by omega) (by omega) (by omega) (by omega)
    · rw [if_pos hd]
      constructor
      · intro habs
        exact absurd habs (by simp)
      · rintro ⟨hdd, -⟩
        exact absurd hdd hd
  refine ⟨part1, ?_⟩
  intro hsi hsj hti htj hrs hrt hd
  rw [part1]
  constructor
  · rintro ⟨-, hall⟩ x y hx0 hx hy0 hy
    rw [rect_read_zero_origin s hrs h hsi hsj hx0 (by omega) hy0 (by omega),
      rect_read_zero_origin t hrt h hti htj hx0 hx hy0 hy]
    exact hall x y hx0 hx hy0 hy
  · intro hall
    refine ⟨hd, fun x y hx0 hx hy0 hy => ?_⟩
    have := hall x y hx0 hx hy0 hy
    rwa [rect_read_zero_origin s hrs h hsi hsj hx0 (by omega) hy0 (by omega),
      rect_read_zero_origin t hrt h hti htj hx0 hx hy0 hy] at this

/-- Witness for the amended C10: two 1 by 1 full views over a constant heap
compare equal. -/
theorem claimC10_w :
    Submatrix.eqOp (Submatrix.ofData (MatrixData.make 0 1)) (fun _ _ => 3)
      (Submatrix.ofData (MatrixData.make 1 1)) = true :=
  (claimC10 (fun _ _ => 3) (Submatrix.ofData (MatrixData.make 0 1))
    (Submatrix.ofData (MatrixData.make 1 1))).1.mpr ⟨rfl, fun _ _ _ _ _ _ => rfl⟩

end ClaimC10

section RefFrames

theorem foldl_frame {α : Type} (P : ℕ → ℤ → Prop) (l : List α) (step : Heap → α → Heap)
    (hstep : ∀ h a r idx, P r idx → step h a r idx = h r idx) :
    ∀ (h : Heap) (r : ℕ) (idx : ℤ), P r idx → (l.foldl step h) r idx = h r idx := by
  induction l with
  | nil => intro h r idx _; rfl
  | cons a l ih =>
    intro h r idx hp
    rw [List.foldl_cons, ih (step h a) r idx hp, hstep h a r idx hp]

theorem write_ref_frame (s : Submatrix) (h : Heap) (x y v : ℤ) (r : ℕ) (idx : ℤ)
    (hr : r ≠ s.data.ref) : s.write h x y v r idx = h r idx := by
  rw [write_eq, if_neg (fun hc => hr hc.2.1)]

theorem sum_ref_frame (a b c : Submatrix) (h : Heap) (r : ℕ) (idx : ℤ)
    (hr : r ≠ c.data.ref) : sum a b c h r idx = h r idx := by
  unfold sum
  refine foldl_frame (fun r2 _ => r2 ≠ c.data.ref) _ _ ?_ h r idx hr
  intro h1 j r2 idx2 hr2
  refine foldl_frame (fun r3 _ => r3 ≠ c.data.ref) _ _ ?_ h1 r2 idx2 hr2
  intro h2 i r3 idx3 hr3
  exact write_ref_frame c h2 _ _ _ r3 idx3 hr3

theorem sub_ref_frame (a b c : Submatrix) (h : Heap) (r : ℕ) (idx : ℤ)
    (hr : r ≠ c.data.ref) : sub a b c h r idx = h r idx := by
  unfold sub
  refine foldl_frame (fun r2 _ => r2 ≠ c.data.ref) _ _ ?_ h r idx hr
  intro h1 j r2 idx2 hr2
  refine foldl_frame (fun r3 _ => r3 ≠ c.data.ref) _ _ ?_ h1 r2 idx2 hr2
  intro h2 i r3 idx3 hr3
  exact write_ref_frame c h2 _ _ _ r3 idx3 hr3

theorem clear_ref_frame (c : Submatrix) (h : Heap) (r : ℕ) (idx : ℤ)
    (hr : r ≠ c.data.ref) : c.clear h r idx = h r idx := by
  unfold Submatrix.clear
  refine foldl_frame (fun r2 _ => r2 ≠ c.data.ref) _ _ ?_ h r idx hr
  intro h1 j r2 idx2 hr2
  refine foldl_frame (fun r3 _ => r3 ≠ c.data.ref) _ _ ?_ h1 r2 idx2 hr2
  intro h2 i r3 idx3 hr3
  exact write_ref_frame c h2 _ _ _ r3 idx3 hr3

theorem linear_ref_frame (a b c : Submatrix) (h : Heap) (r : ℕ) (idx : ℤ)
    (hr : r ≠ c.data.ref) : linear_mul a b c h r idx = h r idx := by
  unfold linear_mul
  refine foldl_frame (fun r2 _ => r2 ≠ c.data.ref) _ _ ?_ h r idx hr
  intro h1 k r2 idx2 hr2
  refine foldl_frame (fun r3 _ => r3 ≠ c.data.ref) _ _ ?_ h1 r2 idx2 hr2
  intro h2 i r3 idx3 hr3
  refine foldl_frame (fun r4 _ => r4 ≠ c.data.ref) _ _ ?_ h2 r3 idx3 hr3
  intro h3 j r4 idx4 hr4
  exact write_ref_frame c h3 _ _ _ r4 idx4 hr4

theorem combine_frame (rec : Submatrix → Submatrix → Submatrix → Submatrix → Heap → Option Heap)
    (A B C S : Submatrix) (h hOut : Heap)
    (hrec : ∀ X Y h1 h2, rec X Y (S.sub 0 0) (S.sub 0 1) h1 = some h2 →
      ∀ r idx, r ≠ S.data.ref → h2 r idx = h1 r idx)
    (hcomb : strassen_combine rec A B C S h = some hOut) :
    ∀ r idx, r ≠ C.data.ref → r ≠ S.data.ref → hOut r idx = h r idx := by
  intro r idx hrC hrS
  simp only [strassen_combine, Option.bind_eq_some] at hcomb
  obtain ⟨h3, e3, h7, e7, h11, e11, h15, e15, h19, e19, h24, e24, h28, e28, efin⟩ := hcomb
  have efin2 : sum (C.sub 0 0) (S.sub 0 0) (C.sub 0 0) h28 = hOut := by
    simpa using efin
  rw [← efin2,
    sum_ref_frame (C.sub 0 0) (S.sub 0 0) (C.sub 0 0) h28 r idx hrC,
    hrec _ _ _ _ e28 r idx hrS,
    sum_ref_frame (B.sub 1 0) (B.sub 1 1) (S.sub 1 1) _ r idx hrS,
    sub_ref_frame (A.sub 0 1) (A.sub 1 1) (S.sub 1 0) _ r idx hrS,
    sum_ref_frame (C.sub 1 1) (S.sub 0 0) (C.sub 1 1) h24 r idx hrC,
    hrec _ _ _ _ e24 r idx hrS,
    sum_ref_frame (B.sub 0 0) (B.sub 0 1) (S.sub 1 1) _ r idx hrS,
    sub_ref_frame (A.sub 1 0) (A.sub 0 0) (S.sub 1 0) _ r idx hrS,
    sum_ref_frame (C.sub 0 1) (S.sub 0 0) (C.sub 0 1) _ r idx hrC,
    sub_ref_frame (C.sub 0 0) (S.sub 0 0) (C.sub 0 0) h19 r idx hrC,
    hrec _ _ _ _ e19 r idx hrS,
    sum_ref_frame (A.sub 0 0) (A.sub 0 1) (S.sub 1 0) _ r idx hrS,
    sum_ref_frame (C.sub 1 0) (S.sub 0 0) (C.sub 1 0) _ r idx hrC,
    sum_ref_frame (C.sub 0 0) (S.sub 0 0) (C.sub 0 0) h15 r idx hrC,
    hrec _ _ _ _ e15 r idx hrS,
    sub_ref_frame (B.sub 1 0) (B.sub 0 0) (S.sub 1 0) _ r idx hrS,
    sum_ref_frame (C.sub 1 1) (S.sub 0 0) (C.sub 1 1) _ r idx hrC,
    sum_ref_frame (C.sub 0 1) (S.sub 0 0) (C.sub 0 1) h11 r idx hrC,
    hrec _ _ _ _ e11 r idx hrS,
    sub_ref_frame (B.sub 0 1) (B.sub 1 1) (S.sub 1 0) _ r idx hrS,
    sub_ref_frame (C.sub 1 1) (S.sub 0 0) (C.sub 1 1) _ r idx hrC,
    sum_ref_frame (C.sub 1 0) (S.sub 0 0) (C.sub 1 0) h7 r idx hrC,
    hrec _ _ _ _ e7 r idx hrS,
    sum_ref_frame (A.sub 1 0) (A.sub 1 1) (S.sub 1 0) _ r idx hrS,
    sum_ref_frame (C.sub 1 1) (S.sub 0 0) (C.sub 1 1) _ r idx hrC,
    sum_ref_frame (C.sub 0 0) (S.sub 0 0) (C.sub 0 0) h3 r idx hrC,
    hrec _ _ _ _ e3 r idx hrS,
    sum_ref_frame (B.sub 0 0) (B.sub 1 1) (S.sub 1 1) _ r idx hrS,
    sum_ref_frame (A.sub 0 0) (A.sub 1 1) (S.sub 1 0) h r idx hrS]

theorem strassen_rec_frame (cutoff : ℤ) :
    ∀ (fuel : ℕ) (A B C S : Submatrix) (h hOut : Heap),
      strassen_mul_rec cutoff fuel A B C S h = some hOut →
      ∀ r idx, r ≠ C.data.ref → r ≠ S.data.ref → hOut r idx = h r idx := by
  intro fuel
  induction fuel with
  | zero =>
    intro A B C S h hOut he
    exact absurd he (by simp [strassen_mul_rec])
  | succ n ih =>
    intro A B C S h hOut he r idx hrC hrS
    rw [strassen_mul_rec] at he
    by_cases hbase : C.dimension.tmod 2 = 1 ∨ C.dimension ≤ cutoff
    · rw [if_pos hbase, Option.some.injEq] at he
      rw [← he, linear_ref_frame _ _ _ _ _ _ hrC, clear_ref_frame _ _ _ _ hrC]
    · rw [if_neg hbase] at he
      have hstep := combine_frame (strassen_mul_rec cutoff n) A B C S (C.clear h) hOut
        (fun X Y h1 h2 he2 r2 idx2 hr2 => ih X Y (S.sub 0 0) (S.sub 0 1) h1 h2 he2 r2 idx2 hr2 hr2)
        he r idx hrC hrS
      rw [hstep, clear_ref_frame _ _ _ _ hrC]

/-- Claim C8: the Strassen path of main never writes the input buffers: for
every N and cutoff at least 1 it returns a heap in which buffer 0 still holds
A and buffer 1 still holds B, exactly as initialized. -/
theorem claimC8 (N cutoff : ℤ) (A B : ℤ → ℤ → ℤ) (hN : 1 ≤ N) (hcut : 1 ≤ cutoff) :
    ∃ PH : ℤ × Heap, strassen_multiply_heap N cutoff A B = some PH ∧
      (∀ idx, PH.2 0 idx = initStore N A idx) ∧
      (∀ idx, PH.2 1 idx = initStore N B idx) := by
  obtain ⟨k, hk, hle, hall⟩ := padding_loop_spec cutoff hcut N.toNat N 0 le_rfl
  have hPs : padding_size N.toNat N cutoff = some (halveIter k N * 2 ^ k) := by
    simp [padding_size, hk]
  have h1 := halveIter_pos k N hN
  have h2 : (0 : ℤ) < 2 ^ k := by positivity
  have hP1 : 1 ≤ halveIter k N * 2 ^ k := by nlinarith
  have hsome := rec_isSome cutoff hcut (((halveIter k N * 2 ^ k)).toNat + 1)
    { data := MatrixData.make 0 N, i := 0, j := 0, dimension := halveIter k N * 2 ^ k }
    { data := MatrixData.make 1 N, i := 0, j := 0, dimension := halveIter k N * 2 ^ k }
    (Submatrix.ofData (MatrixData.make 2 (halveIter k N * 2 ^ k)))
    (Submatrix.ofData (MatrixData.make 3 (halveIter k N * 2 ^ k)))
    (fun r idx => if r = 3 then 0 else initHeap N A B r idx)
    rfl (by show (0 : ℤ) ≤ halveIter k N * 2 ^ k; omega)
    (by show (halveIter k N * 2 ^ k).toNat < (halveIter k N * 2 ^ k).toNat + 1; omega)
  obtain ⟨hF, hFeq⟩ := Option.isSome_iff_exists.mp hsome
  have hmul : strassen_mul (Submatrix.ofData (MatrixData.make 0 N))
      (Submatrix.ofData (MatrixData.make 1 N))
      (Submatrix.ofData (MatrixData.make 2 (halveIter k N * 2 ^ k))) cutoff 3
      ((halveIter k N * 2 ^ k).toNat + 1) (initHeap N A B) = some hF := hFeq
  have hframe := strassen_rec_frame cutoff (((halveIter k N * 2 ^ k)).toNat + 1)
    { data := MatrixData.make 0 N, i := 0, j := 0, dimension := halveIter k N * 2 ^ k }
    { data := MatrixData.make 1 N, i := 0, j := 0, dimension := halveIter k N * 2 ^ k }
    (Submatrix.ofData (MatrixData.make 2 (halveIter k N * 2 ^ k)))
    (Submatrix.ofData (MatrixData.make 3 (halveIter k N * 2 ^ k)))
    (fun r idx => if r = 3 then 0 else initHeap N A B r idx) hF hFeq
  refine ⟨(halveIter k N * 2 ^ k, hF), ?_, fun idx => ?_, fun idx => ?_⟩
  · unfold strassen_multiply_heap
    rw [hPs, Option.some_bind, hmul]
    rfl
  · exact (hframe 0 idx (by show (0 : ℕ) ≠ 2; omega) (by show (0 : ℕ) ≠ 3; omega)).trans rfl
  · exact (hframe 1 idx (by show (1 : ℕ) ≠ 2; omega) (by show (1 : ℕ) ≠ 3; omega)).trans rfl

/-- Witness for C8 at N = 1, cutoff = 1. -/
theorem claimC8_w :
    ∃ PH : ℤ × Heap, strassen_multiply_heap 1 1 (fun _ _ => 6) (fun _ _ => 7) = some PH ∧
      (∀ idx, PH.2 0 idx = initStore 1 (fun _ _ => 6) idx) ∧
      (∀ idx, PH.2 1 idx = initStore 1 (fun _ _ => 7) idx) :=
  claimC8 1 1 (fun _ _ => 6) (fun _ _ => 7) (by decide) (by decide)

end RefFrames

section QuadrantKit

theorem sub_flat (s : Submatrix) (qx qy x y : ℤ) :
    (s.sub qx qy).flat x y =
      s.flat (x + qx * ceil_divide s.dimension) (y + qy * ceil_divide s.dimension) := by
  unfold Submatrix.flat Submatrix.sub
  ring

theorem data_in_bounds_shift (md : MatrixData) {u1 u2 v1 v2 : ℤ} (h1 : u1 = u2) (h2 : v1 = v2) :
    md.in_bounds u1 v1 ↔ md.in_bounds u2 v2 := by rw [h1, h2]

theorem sub_realrect {s : Submatrix} (hs : RealRect s) (heven : s.dimension.tmod 2 = 0)
    {qx qy : ℤ} (hqx : qx = 0 ∨ qx = 1) (hqy : qy = 0 ∨ qy = 1) :
    RealRect (s.sub qx qy) := by
  obtain ⟨hd, hi, hj, hiD, hjD, hsz⟩ := hs
  have h2m := two_mul_ceil_divide_of_even heven
  have hm0 := ceil_divide_nonneg hd
  rcases hqx with rfl | rfl <;> rcases hqy with rfl | rfl <;>
    exact ⟨hm0, by show (0 : ℤ) ≤ s.i + _ * ceil_divide s.dimension; omega,
      by show (0 : ℤ) ≤ s.j + _ * ceil_divide s.dimension; omega,
      by show s.i + _ * ceil_divide s.dimension + ceil_divide s.dimension ≤ s.data.dimension; omega,
      by show s.j + _ * ceil_divide s.dimension + ceil_divide s.dimension ≤ s.data.dimension; omega,
      hsz⟩

theorem sub_foot_subset {s : Submatrix} (heven : s.dimension.tmod 2 = 0) (hd0 : 0 ≤ s.dimension)
    {qx qy : ℤ} (hqx : qx = 0 ∨ qx = 1) (hqy : qy = 0 ∨ qy = 1) {r : ℕ} {idx : ℤ}
    (hin : InFoot (s.sub qx qy) r idx) : InFoot s r idx := by
  obtain ⟨hr, x, y, hx0, hx, hy0, hy, hidx⟩ := hin
  rw [sub_flat] at hidx
  have hdim : (s.sub qx qy).dimension = ceil_divide s.dimension := rfl
  rw [hdim] at hx hy
  have h2m := two_mul_ceil_divide_of_even heven
  have hm0 := ceil_divide_nonneg hd0
  refine ⟨hr, x + qx * ceil_divide s.dimension, y + qy * ceil_divide s.dimension,
    ?_, ?_, ?_, ?_, hidx⟩ <;> rcases hqx with rfl | rfl <;> rcases hqy with rfl | rfl <;> omega

theorem sub_readfoot_subset {s : Submatrix} (heven : s.dimension.tmod 2 = 0)
    (hd0 : 0 ≤ s.dimension) {qx qy : ℤ} (hqx : qx = 0 ∨ qx = 1) (hqy : qy = 0 ∨ qy = 1)
    {r : ℕ} {idx : ℤ} (hin : InReadFoot (s.sub qx qy) r idx) : InReadFoot s r idx := by
  obtain ⟨hr, x, y, hib, hidx⟩ := hin
  rw [sub_flat] at hidx
  have h2m := two_mul_ceil_divide_of_even heven
  have hm0 := ceil_divide_nonneg hd0
  obtain ⟨hdata, hl1, hl2, hl3, hl4⟩ := hib
  have hdim : (s.sub qx qy).dimension = ceil_divide s.dimension := rfl
  rw [hdim] at hl2 hl4
  refine ⟨hr, x + qx * ceil_divide s.dimension, y + qy * ceil_divide s.dimension,
    ⟨?_, ?_⟩, hidx⟩
  · exact (data_in_bounds_shift s.data
      (by show x + (s.i + qx * ceil_divide s.dimension) = _; ring)
      (by show y + (s.j + qy * ceil_divide s.dimension) = _; ring)).mp hdata
  · refine ⟨?_, ?_, ?_, ?_⟩ <;> rcases hqx with rfl | rfl <;> rcases hqy with rfl | rfl <;> omega

theorem sub_in_bounds_iff {s : Submatrix} (heven : s.dimension.tmod 2 = 0)
    (hd0 : 0 ≤ s.dimension) {qx qy : ℤ} (hqx : qx = 0 ∨ qx = 1) (hqy : qy = 0 ∨ qy = 1)
    {x y : ℤ} (hx0 : 0 ≤ x) (hx : x < ceil_divide s.dimension) (hy0 : 0 ≤ y)
    (hy : y < ceil_divide s.dimension) :
    (s.sub qx qy).in_bounds x y ↔
      s.in_bounds (x + qx * ceil_divide s.dimension) (y + qy * ceil_divide s.dimension) := by
  have h2m := two_mul_ceil_divide_of_even heven
  have hm0 := ceil_divide_nonneg hd0
  unfold Submatrix.in_bounds
  constructor
  · rintro ⟨hdata, -⟩
    refine ⟨(data_in_bounds_shift s.data
      (by show x + (s.i + qx * ceil_divide s.dimension) = _; ring)
      (by show y + (s.j + qy * ceil_divide s.dimension) = _; ring)).mp hdata, ?_⟩
    refine ⟨?_, ?_, ?_, ?_⟩ <;> rcases hqx with rfl | rfl <;> rcases hqy with rfl | rfl <;> omega
  · rintro ⟨hdata, -⟩
    refine ⟨(data_in_bounds_shift s.data
      (by show x + (s.i + qx * ceil_divide s.dimension) = _; ring)
      (by show y + (s.j + qy * ceil_divide s.dimension) = _; ring)).mpr hdata, ?_⟩
    exact ⟨hx0, hx, hy0, hy⟩

theorem sub_read_eq {s : Submatrix} (heven : s.dimension.tmod 2 = 0) (hd0 : 0 ≤ s.dimension)
    {qx qy : ℤ} (hqx : qx = 0 ∨ qx = 1) (hqy : qy = 0 ∨ qy = 1) (h : Heap) {x y : ℤ}
    (hx0 : 0 ≤ x) (hx : x < ceil_divide s.dimension) (hy0 : 0 ≤ y)
    (hy : y < ceil_divide s.dimension) :
    (s.sub qx qy).read h x y =
      s.read h (x + qx * ceil_divide s.dimension) (y + qy * ceil_divide s.dimension) := by
  unfold Submatrix.read
  by_cases hib : (s.sub qx qy).in_bounds x y
  · rw [if_pos hib, if_pos ((sub_in_bounds_iff heven hd0 hqx hqy hx0 hx hy0 hy).mp hib),
      sub_flat]
    rfl
  · rw [if_neg hib,
      if_neg (fun hc => hib ((sub_in_bounds_iff heven hd0 hqx hqy hx0 hx hy0 hy).mpr hc))]

theorem sub_footdisj {s : Submatrix} (hs : RealRect s) (heven : s.dimension.tmod 2 = 0)
    {qx qy qx2 qy2 : ℤ} (hqx : qx = 0 ∨ qx = 1) (hqy : qy = 0 ∨ qy = 1)
    (hqx2 : qx2 = 0 ∨ qx2 = 1) (hqy2 : qy2 = 0 ∨ qy2 = 1)
    (hne : ¬ (qx = qx2 ∧ qy = qy2)) :
    FootDisj (s.sub qx qy) (s.sub qx2 qy2) := by
  intro r idx h1 h2
  obtain ⟨hr1, x, y, hx0, hx, hy0, hy, hidx1⟩ := h1
  obtain ⟨hr2, u, v, hu0, hu, hv0, hv, hidx2⟩ := h2
  rw [sub_flat] at hidx1 hidx2
  have hdim1 : (s.sub qx qy).dimension = ceil_divide s.dimension := rfl
  have hdim2 : (s.sub qx2 qy2).dimension = ceil_divide s.dimension := rfl
  rw [hdim1] at hx hy
  rw [hdim2] at hu hv
  have h2m := two_mul_ceil_divide_of_even heven
  have hm0 := ceil_divide_nonneg hs.1
  have heq : s.flat (x + qx * ceil_divide s.dimension) (y + qy * ceil_divide s.dimension) =
      s.flat (u + qx2 * ceil_divide s.dimension) (v + qy2 * ceil_divide s.dimension) := by
    rw [← hidx1, ← hidx2]
  have hinj := rect_flat_inj hs
    (by rcases hqx with rfl | rfl <;> omega) (by rcases hqx with rfl | rfl <;> omega)
    (by rcases hqy with rfl | rfl <;> omega) (by rcases hqy with rfl | rfl <;> omega)
    (by rcases hqx2 with rfl | rfl <;> omega) (by rcases hqx2 with rfl | rfl <;> omega)
    (by rcases hqy2 with rfl | rfl <;> omega) (by rcases hqy2 with rfl | rfl <;> omega)
    heq
  rcases hqx with rfl | rfl <;> rcases hqx2 with rfl | rfl <;>
    rcases hqy with rfl | rfl <;> rcases hqy2 with rfl | rfl <;>
    first
      | exact hne ⟨rfl, rfl⟩
      | omega

theorem footdisj_symm {s t : Submatrix} (h : FootDisj s t) : FootDisj t s :=
  fun r idx h1 h2 => h r idx h2 h1

theorem footdisj_mono {Q T Q2 T2 : Submatrix} (h : FootDisj Q2 T2)
    (hq : ∀ r idx, InFoot Q r idx → InFoot Q2 r idx)
    (ht : ∀ r idx, InFoot T r idx → InFoot T2 r idx) : FootDisj Q T :=
  fun r idx h1 h2 => h r idx (hq _ _ h1) (ht _ _ h2)

theorem reads_outside_of_subset_read {X2 X T : Submatrix}
    (hsub : ∀ r idx, InReadFoot X2 r idx → InReadFoot X r idx)
    (hout : ReadsOutside X T) : ReadsOutside X2 T :=
  fun r idx hr => hout r idx (hsub r idx hr)

theorem reads_outside_of_subset_target {X T2 T : Submatrix} (hout : ReadsOutside X T)
    (hsub : ∀ r idx, InFoot T2 r idx → InFoot T r idx) : ReadsOutside X T2 :=
  fun r idx hr hT2 => hout r idx hr (hsub r idx hT2)

theorem cell_preserved {T Q : Submatrix} (hd : FootDisj Q T) {x y : ℤ}
    (hx0 : 0 ≤ x) (hx : x < Q.dimension) (hy0 : 0 ≤ y) (hy : y < Q.dimension)
    {h h2 : Heap} (hframe : ∀ r idx, ¬ InFoot T r idx → h2 r idx = h r idx) :
    h2 Q.data.ref (Q.flat x y) = h Q.data.ref (Q.flat x y) :=
  hframe _ _ (fun hin => hd _ _ ⟨rfl, x, y, hx0, hx, hy0, hy, rfl⟩ hin)

theorem cell_preserved2 {T1 T2 Q : Submatrix} (hd1 : FootDisj Q T1) (hd2 : FootDisj Q T2)
    {x y : ℤ} (hx0 : 0 ≤ x) (hx : x < Q.dimension) (hy0 : 0 ≤ y) (hy : y < Q.dimension)
    {h h2 : Heap}
    (hframe : ∀ r idx, ¬ InFoot T1 r idx → ¬ InFoot T2 r idx → h2 r idx = h r idx) :
    h2 Q.data.ref (Q.flat x y) = h Q.data.ref (Q.flat x y) :=
  hframe _ _ (fun hin => hd1 _ _ ⟨rfl, x, y, hx0, hx, hy0, hy, rfl⟩ hin)
    (fun hin => hd2 _ _ ⟨rfl, x, y, hx0, hx, hy0, hy, rfl⟩ hin)

theorem read_stable_pair {V C S : Submatrix} (hvc : ReadsOutside V C) (hvs : ReadsOutside V S)
    {h0 ht : Heap}
    (hagree : ∀ r idx, ¬ InFoot C r idx → ¬ InFoot S r idx → ht r idx = h0 r idx)
    (x y : ℤ) : V.read ht x y = V.read h0 x y :=
  read_agree (fun r idx hrf => hagree r idx (hvc r idx hrf) (hvs r idx hrf)) x y

theorem mmulF_congr (m : ℤ) (f f2 g g2 : ℤ → ℤ → ℤ) (x y : ℤ)
    (hf : ∀ k : ℤ, 0 ≤ k → k < m → f x k = f2 x k)
    (hg : ∀ k : ℤ, 0 ≤ k → k < m → g k y = g2 k y) :
    mmulF m f g x y = mmulF m f2 g2 x y := by
  unfold mmulF
  refine Finset.sum_congr rfl fun k hk => ?_
  rw [Finset.mem_range] at hk
  rw [hf (k : ℤ) (by omega) (by omega), hg (k : ℤ) (by omega) (by omega)]

end QuadrantKit

section BlockAlgebra

theorem flat_congr (s : Submatrix) {x1 x2 y1 y2 : ℤ} (hx : x1 = x2) (hy : y1 = y2) :
    s.flat x1 y1 = s.flat x2 y2 := by rw [hx, hy]

theorem read_congr (s : Submatrix) (h : Heap) {x1 x2 y1 y2 : ℤ} (hx : x1 = x2) (hy : y1 = y2) :
    s.read h x1 y1 = s.read h x2 y2 := by rw [hx, hy]

theorem sum_range_add_split (f : ℕ → ℤ) (a b : ℕ) :
    ∑ k ∈ Finset.range (a + b), f k =
      (∑ k ∈ Finset.range a, f k) + ∑ k ∈ Finset.range b, f (a + k) := by
  induction b with
  | zero => simp
  | succ n ih =>
    rw [Nat.add_succ, Finset.sum_range_succ, Finset.sum_range_succ, ih]
    ring

theorem mmulF_block_split {d m : ℤ} (hm : 2 * m = d) (hm0 : 0 ≤ m) (f g : ℤ → ℤ → ℤ)
    (x y : ℤ) :
    mmulF d f g x y =
      (∑ k ∈ Finset.range m.toNat, f x (k : ℤ) * g (k : ℤ) y) +
      ∑ k ∈ Finset.range m.toNat, f x (m + (k : ℤ)) * g (m + (k : ℤ)) y := by
  unfold mmulF
  have hd : d.toNat = m.toNat + m.toNat := by omega
  rw [hd, sum_range_add_split]
  congr 1
  refine Finset.sum_congr rfl fun k hk => ?_
  rw [Finset.mem_range] at hk
  have he : ((m.toNat + k : ℕ) : ℤ) = m + (k : ℤ) := by omega
  rw [he]

theorem sum_comb_ppmp (n : ℕ) (F1 F2 F3 F4 G1 G2 : ℕ → ℤ)
    (hpt : ∀ k, k < n → F1 k + F2 k - F3 k + F4 k = G1 k + G2 k) :
    (∑ k ∈ Finset.range n, F1 k) + (∑ k ∈ Finset.range n, F2 k) -
      (∑ k ∈ Finset.range n, F3 k) + (∑ k ∈ Finset.range n, F4 k) =
    (∑ k ∈ Finset.range n, G1 k) + (∑ k ∈ Finset.range n, G2 k) := by
  induction n with
  | zero => simp
  | succ n ih =>
    simp only [Finset.sum_range_succ]
    have h1 := hpt n (by omega)
    have h2 := ih (fun k hk => hpt k (by omega))
    omega

theorem sum_comb_pmpp (n : ℕ) (F1 F2 F3 F4 G1 G2 : ℕ → ℤ)
    (hpt : ∀ k, k < n → F1 k - F2 k + F3 k + F4 k = G1 k + G2 k) :
    (∑ k ∈ Finset.range n, F1 k) - (∑ k ∈ Finset.range n, F2 k) +
      (∑ k ∈ Finset.range n, F3 k) + (∑ k ∈ Finset.range n, F4 k) =
    (∑ k ∈ Finset.range n, G1 k) + (∑ k ∈ Finset.range n, G2 k) := by
  induction n with
  | zero => simp
  | succ n ih =>
    simp only [Finset.sum_range_succ]
    have h1 := hpt n (by omega)
    have h2 := ih (fun k hk => hpt k (by omega))
    omega

theorem sum_comb_pp (n : ℕ) (F1 F2 G1 G2 : ℕ → ℤ)
    (hpt : ∀ k, k < n → F1 k + F2 k = G1 k + G2 k) :
    (∑ k ∈ Finset.range n, F1 k) + (∑ k ∈ Finset.range n, F2 k) =
    (∑ k ∈ Finset.range n, G1 k) + (∑ k ∈ Finset.range n, G2 k) := by
  induction n with
  | zero => simp
  | succ n ih =>
    simp only [Finset.sum_range_succ]
    have h1 := hpt n (by omega)
    have h2 := ih (fun k hk => hpt k (by omega))
    omega

end BlockAlgebra

section MainCorrect

/-- Partial correctness of one strassen_combine layer: assuming the recursive
calls compute exact products into the M quadrant of the scratch view and only
touch the M and spare quadrants, the combined result adds the exact product of
the operand views to the previous content of the output view, and nothing
outside the output and scratch footprints changes. -/
theorem combine_correct (rec : Submatrix → Submatrix → Submatrix → Submatrix → Heap → Option Heap)
    (A B C S : Submatrix) (h hOut : Heap) (hconf : Config A B C S)
    (heven : C.dimension.tmod 2 = 0)
    (hrec : ∀ X Y h1 h2, Config X Y (S.sub 0 0) (S.sub 0 1) →
      rec X Y (S.sub 0 0) (S.sub 0 1) h1 = some h2 →
      (∀ x y : ℤ, 0 ≤ x → x < (S.sub 0 0).dimension → 0 ≤ y → y < (S.sub 0 0).dimension →
        h2 (S.sub 0 0).data.ref ((S.sub 0 0).flat x y) =
          mmulF (S.sub 0 0).dimension (X.read h1) (Y.read h1) x y) ∧
      (∀ r idx, ¬ InFoot (S.sub 0 0) r idx → ¬ InFoot (S.sub 0 1) r idx → h2 r idx = h1 r idx))
    (hcomb : strassen_combine rec A B C S h = some hOut) :
    (∀ x y : ℤ, 0 ≤ x → x < C.dimension → 0 ≤ y → y < C.dimension →
      hOut C.data.ref (C.flat x y) =
        h C.data.ref (C.flat x y) + mmulF C.dimension (A.read h) (B.read h) x y) ∧
    (∀ r idx, ¬ InFoot C r idx → ¬ InFoot S r idx → hOut r idx = h r idx) := by
  obtain ⟨hAd, hBd, hSd, hrC, hrS, hdCS, hAC, hAS, hBC, hBS⟩ := hconf
  set m := ceil_divide C.dimension with hm
  have hd0 : 0 ≤ C.dimension := hrC.1
  have h2m : 2 * m = C.dimension := two_mul_ceil_divide_of_even heven
  have hm0 : (0 : ℤ) ≤ m := ceil_divide_nonneg hd0
  have hevenS : S.dimension.tmod 2 = 0 := by rw [hSd]; exact heven
  have hevenA : A.dimension.tmod 2 = 0 := by rw [hAd]; exact heven
  have hevenB : B.dimension.tmod 2 = 0 := by rw [hBd]; exact heven
  have hd0S : 0 ≤ S.dimension := by rw [hSd]; exact hd0
  have hd0A : 0 ≤ A.dimension := by rw [hAd]; exact hd0
  have hd0B : 0 ≤ B.dimension := by rw [hBd]; exact hd0
  have hmS : ceil_divide S.dimension = m := by rw [hSd]
  have hmA : ceil_divide A.dimension = m := by rw [hAd]
  have hmB : ceil_divide B.dimension = m := by rw [hBd]
  have z0 : (0 : ℤ) = 0 ∨ (0 : ℤ) = 1 := Or.inl rfl
  have z1 : (1 : ℤ) = 0 ∨ (1 : ℤ) = 1 := Or.inr rfl
  have hQC : ∀ qx qy : ℤ, (C.sub qx qy).dimension = m := fun _ _ => hm.symm
  have hQS : ∀ qx qy : ℤ, (S.sub qx qy).dimension = m := fun _ _ => hmS
  have hQA : ∀ qx qy : ℤ, (A.sub qx qy).dimension = m := fun _ _ => hmA
  have hQB : ∀ qx qy : ℤ, (B.sub qx qy).dimension = m := fun _ _ => hmB
  have rC : ∀ qx qy : ℤ, (qx = 0 ∨ qx = 1) → (qy = 0 ∨ qy = 1) → RealRect (C.sub qx qy) :=
    fun _ _ b1 b2 => sub_realrect hrC heven b1 b2
  have rS : ∀ qx qy : ℤ, (qx = 0 ∨ qx = 1) → (qy = 0 ∨ qy = 1) → RealRect (S.sub qx qy) :=
    fun _ _ b1 b2 => sub_realrect hrS hevenS b1 b2
  have fsubC : ∀ qx qy : ℤ, (qx = 0 ∨ qx = 1) → (qy = 0 ∨ qy = 1) →
      ∀ r idx, InFoot (C.sub qx qy) r idx → InFoot C r idx :=
    fun _ _ b1 b2 _ _ hin => sub_foot_subset heven hd0 b1 b2 hin
  have fsubS : ∀ qx qy : ℤ, (qx = 0 ∨ qx = 1) → (qy = 0 ∨ qy = 1) →
      ∀ r idx, InFoot (S.sub qx qy) r idx → InFoot S r idx :=
    fun _ _ b1 b2 _ _ hin => sub_foot_subset hevenS hd0S b1 b2 hin
  have dS : ∀ qx qy qx2 qy2 : ℤ, (qx = 0 ∨ qx = 1) → (qy = 0 ∨ qy = 1) →
      (qx2 = 0 ∨ qx2 = 1) → (qy2 = 0 ∨ qy2 = 1) → ¬ (qx = qx2 ∧ qy = qy2) →
      FootDisj (S.sub qx qy) (S.sub qx2 qy2) :=
    fun _ _ _ _ b1 b2 b3 b4 hne => sub_footdisj hrS hevenS b1 b2 b3 b4 hne
  have dC : ∀ qx qy qx2 qy2 : ℤ, (qx = 0 ∨ qx = 1) → (qy = 0 ∨ qy = 1) →
      (qx2 = 0 ∨ qx2 = 1) → (qy2 = 0 ∨ qy2 = 1) → ¬ (qx = qx2 ∧ qy = qy2) →
      FootDisj (C.sub qx qy) (C.sub qx2 qy2) :=
    fun _ _ _ _ b1 b2 b3 b4 hne => sub_footdisj hrC heven b1 b2 b3 b4 hne
  have dCS : ∀ qx qy : ℤ, (qx = 0 ∨ qx = 1) → (qy = 0 ∨ qy = 1) →
      ∀ qx2 qy2 : ℤ, (qx2 = 0 ∨ qx2 = 1) → (qy2 = 0 ∨ qy2 = 1) →
      FootDisj (C.sub qx qy) (S.sub qx2 qy2) :=
    fun qx qy b1 b2 qx2 qy2 b3 b4 =>
      footdisj_mono hdCS (fsubC qx qy b1 b2) (fsubS qx2 qy2 b3 b4)
  have dSC : ∀ qx qy : ℤ, (qx = 0 ∨ qx = 1) → (qy = 0 ∨ qy = 1) →
      ∀ qx2 qy2 : ℤ, (qx2 = 0 ∨ qx2 = 1) → (qy2 = 0 ∨ qy2 = 1) →
      FootDisj (S.sub qx qy) (C.sub qx2 qy2) :=
    fun qx qy b1 b2 qx2 qy2 b3 b4 => footdisj_symm (dCS qx2 qy2 b3 b4 qx qy b1 b2)
  have roAC : ∀ qx qy : ℤ, (qx = 0 ∨ qx = 1) → (qy = 0 ∨ qy = 1) →
      ReadsOutside (A.sub qx qy) C :=
    fun _ _ b1 b2 => reads_outside_of_subset_read
      (fun _ _ hin => sub_readfoot_subset hevenA hd0A b1 b2 hin) hAC
  have roAS : ∀ qx qy : ℤ, (qx = 0 ∨ qx = 1) → (qy = 0 ∨ qy = 1) →
      ReadsOutside (A.sub qx qy) S :=
    fun _ _ b1 b2 => reads_outside_of_subset_read
      (fun _ _ hin => sub_readfoot_subset hevenA hd0A b1 b2 hin) hAS
  have roBC : ∀ qx qy : ℤ, (qx = 0 ∨ qx = 1) → (qy = 0 ∨ qy = 1) →
      ReadsOutside (B.sub qx qy) C :=
    fun _ _ b1 b2 => reads_outside_of_subset_read
      (fun _ _ hin => sub_readfoot_subset hevenB hd0B b1 b2 hin) hBC
  have roBS : ∀ qx qy : ℤ, (qx = 0 ∨ qx = 1) → (qy = 0 ∨ qy = 1) →
      ReadsOutside (B.sub qx qy) S :=
    fun _ _ b1 b2 => reads_outside_of_subset_read
      (fun _ _ hin => sub_readfoot_subset hevenB hd0B b1 b2 hin) hBS
  have roAq : ∀ qx qy : ℤ, (qx = 0 ∨ qx = 1) → (qy = 0 ∨ qy = 1) →
      ∀ qx2 qy2 : ℤ, (qx2 = 0 ∨ qx2 = 1) → (qy2 = 0 ∨ qy2 = 1) →
      ReadsOutside (A.sub qx qy) (S.sub qx2 qy2) :=
    fun qx qy b1 b2 qx2 qy2 b3 b4 =>
      reads_outside_of_subset_target (roAS qx qy b1 b2) (fsubS qx2 qy2 b3 b4)
  have roBq : ∀ qx qy : ℤ, (qx = 0 ∨ qx = 1) → (qy = 0 ∨ qy = 1) →
      ∀ qx2 qy2 : ℤ, (qx2 = 0 ∨ qx2 = 1) → (qy2 = 0 ∨ qy2 = 1) →
      ReadsOutside (B.sub qx qy) (S.sub qx2 qy2) :=
    fun qx qy b1 b2 qx2 qy2 b3 b4 =>
      reads_outside_of_subset_target (roBS qx qy b1 b2) (fsubS qx2 qy2 b3 b4)
  have roSq : ∀ qx qy qx2 qy2 : ℤ, (qx = 0 ∨ qx = 1) → (qy = 0 ∨ qy = 1) →
      (qx2 = 0 ∨ qx2 = 1) → (qy2 = 0 ∨ qy2 = 1) → ¬ (qx = qx2 ∧ qy = qy2) →
      ReadsOutside (S.sub qx qy) (S.sub qx2 qy2) :=
    fun qx qy qx2 qy2 b1 b2 b3 b4 hne =>
      reads_outside_of_footdisj _ _ (dS qx qy qx2 qy2 b1 b2 b3 b4 hne)
  have roSC : ∀ qx qy : ℤ, (qx = 0 ∨ qx = 1) → (qy = 0 ∨ qy = 1) →
      ∀ qx2 qy2 : ℤ, (qx2 = 0 ∨ qx2 = 1) → (qy2 = 0 ∨ qy2 = 1) →
      ReadsOutside (S.sub qx qy) (C.sub qx2 qy2) :=
    fun qx qy b1 b2 qx2 qy2 b3 b4 =>
      reads_outside_of_footdisj _ _ (dSC qx qy b1 b2 qx2 qy2 b3 b4)
  have presC : ∀ qx qy : ℤ, ∀ {T : Submatrix}, FootDisj (C.sub qx qy) T →
      ∀ {ha hb : Heap}, (∀ r idx, ¬ InFoot T r idx → hb r idx = ha r idx) →
      ∀ x y : ℤ, 0 ≤ x → x < m → 0 ≤ y → y < m →
        hb (C.sub qx qy).data.ref ((C.sub qx qy).flat x y) =
          ha (C.sub qx qy).data.ref ((C.sub qx qy).flat x y) :=
    fun qx qy _ hd _ _ hf x y hx0 hx hy0 hy =>
      cell_preserved hd hx0 (by rw [hQC]; exact hx) hy0 (by rw [hQC]; exact hy) hf
  have presS : ∀ qx qy : ℤ, ∀ {T : Submatrix}, FootDisj (S.sub qx qy) T →
      ∀ {ha hb : Heap}, (∀ r idx, ¬ InFoot T r idx → hb r idx = ha r idx) →
      ∀ x y : ℤ, 0 ≤ x → x < m → 0 ≤ y → y < m →
        hb (S.sub qx qy).data.ref ((S.sub qx qy).flat x y) =
          ha (S.sub qx qy).data.ref ((S.sub qx qy).flat x y) :=
    fun qx qy _ hd _ _ hf x y hx0 hx hy0 hy =>
      cell_preserved hd hx0 (by rw [hQS]; exact hx) hy0 (by rw [hQS]; exact hy) hf
  have presCrec : ∀ qx qy : ℤ, (qx = 0 ∨ qx = 1) → (qy = 0 ∨ qy = 1) →
      ∀ {ha hb : Heap},
      (∀ r idx, ¬ InFoot (S.sub 0 0) r idx → ¬ InFoot (S.sub 0 1) r idx → hb r idx = ha r idx) →
      ∀ x y : ℤ, 0 ≤ x → x < m → 0 ≤ y → y < m →
        hb (C.sub qx qy).data.ref ((C.sub qx qy).flat x y) =
          ha (C.sub qx qy).data.ref ((C.sub qx qy).flat x y) :=
    fun qx qy b1 b2 _ _ hf x y hx0 hx hy0 hy =>
      cell_preserved2 (dCS qx qy b1 b2 0 0 z0 z0) (dCS qx qy b1 b2 0 1 z0 z1)
        hx0 (by rw [hQC]; exact hx) hy0 (by rw [hQC]; exact hy) hf
  have hA00M : (A.sub 0 0).dimension = (S.sub 0 0).dimension := (hQA 0 0).trans (hQS 0 0).symm
  have hA11M : (A.sub 1 1).dimension = (S.sub 0 0).dimension := (hQA 1 1).trans (hQS 0 0).symm
  have hB00M : (B.sub 0 0).dimension = (S.sub 0 0).dimension := (hQB 0 0).trans (hQS 0 0).symm
  have hB11M : (B.sub 1 1).dimension = (S.sub 0 0).dimension := (hQB 1 1).trans (hQS 0 0).symm
  have conf1 : Config (S.sub 1 0) (S.sub 1 1) (S.sub 0 0) (S.sub 0 1) :=
    ⟨rfl, rfl, rfl, rS 0 0 z0 z0, rS 0 1 z0 z1, dS 0 0 0 1 z0 z0 z0 z1 (by decide),
      roSq 1 0 0 0 z1 z0 z0 z0 (by decide), roSq 1 0 0 1 z1 z0 z0 z1 (by decide),
      roSq 1 1 0 0 z1 z1 z0 z0 (by decide), roSq 1 1 0 1 z1 z1 z0 z1 (by decide)⟩
  have conf2 : Config (S.sub 1 0) (B.sub 0 0) (S.sub 0 0) (S.sub 0 1) :=
    ⟨rfl, hB00M, rfl, rS 0 0 z0 z0, rS 0 1 z0 z1, dS 0 0 0 1 z0 z0 z0 z1 (by decide),
      roSq 1 0 0 0 z1 z0 z0 z0 (by decide), roSq 1 0 0 1 z1 z0 z0 z1 (by decide),
      roBq 0 0 z0 z0 0 0 z0 z0, roBq 0 0 z0 z0 0 1 z0 z1⟩
  have conf3 : Config (A.sub 0 0) (S.sub 1 0) (S.sub 0 0) (S.sub 0 1) :=
    ⟨hA00M, rfl, rfl, rS 0 0 z0 z0, rS 0 1 z0 z1, dS 0 0 0 1 z0 z0 z0 z1 (by decide),
      roAq 0 0 z0 z0 0 0 z0 z0, roAq 0 0 z0 z0 0 1 z0 z1,
      roSq 1 0 0 0 z1 z0 z0 z0 (by decide), roSq 1 0 0 1 z1 z0 z0 z1 (by decide)⟩
  have conf4 : Config (A.sub 1 1) (S.sub 1 0) (S.sub 0 0) (S.sub 0 1) :=
    ⟨hA11M, rfl, rfl, rS 0 0 z0 z0, rS 0 1 z0 z1, dS 0 0 0 1 z0 z0 z0 z1 (by decide),
      roAq 1 1 z1 z1 0 0 z0 z0, roAq 1 1 z1 z1 0 1 z0 z1,
      roSq 1 0 0 0 z1 z0 z0 z0 (by decide), roSq 1 0 0 1 z1 z0 z0 z1 (by decide)⟩
  have conf5 : Config (S.sub 1 0) (B.sub 1 1) (S.sub 0 0) (S.sub 0 1) :=
    ⟨rfl, hB11M, rfl, rS 0 0 z0 z0, rS 0 1 z0 z1, dS 0 0 0 1 z0 z0 z0 z1 (by decide),
      roSq 1 0 0 0 z1 z0 z0 z0 (by decide), roSq 1 0 0 1 z1 z0 z0 z1 (by decide),
      roBq 1 1 z1 z1 0 0 z0 z0, roBq 1 1 z1 z1 0 1 z0 z1⟩
  simp only [strassen_combine, Option.bind_eq_some] at hcomb
  obtain ⟨h3, e3, h7, e7, h11, e11, h15, e15, h19, e19, h24, e24, h28, e28, efin⟩ := hcomb
  have efin2 : sum (C.sub 0 0) (S.sub 0 0) (C.sub 0 0) h28 = hOut := by
    simpa using efin
  set g1 := sum (A.sub 0 0) (A.sub 1 1) (S.sub 1 0) h with hg1
  set g2 := sum (B.sub 0 0) (B.sub 1 1) (S.sub 1 1) g1 with hg2
  set g4 := sum (C.sub 0 0) (S.sub 0 0) (C.sub 0 0) h3 with hg4
  set g5 := sum (C.sub 1 1) (S.sub 0 0) (C.sub 1 1) g4 with hg5
  set g6 := sum (A.sub 1 0) (A.sub 1 1) (S.sub 1 0) g5 with hg6
  set g8 := sum (C.sub 1 0) (S.sub 0 0) (C.sub 1 0) h7 with hg8
  set g9 := sub (C.sub 1 1) (S.sub 0 0) (C.sub 1 1) g8 with hg9
  set g10 := sub (B.sub 0 1) (B.sub 1 1) (S.sub 1 0) g9 with hg10
  set g12 := sum (C.sub 0 1) (S.sub 0 0) (C.sub 0 1) h11 with hg12
  set g13 := sum (C.sub 1 1) (S.sub 0 0) (C.sub 1 1) g12 with hg13
  set g14 := sub (B.sub 1 0) (B.sub 0 0) (S.sub 1 0) g13 with hg14
  set g16 := sum (C.sub 0 0) (S.sub 0 0) (C.sub 0 0) h15 with hg16
  set g17 := sum (C.sub 1 0) (S.sub 0 0) (C.sub 1 0) g16 with hg17
  set g18 := sum (A.sub 0 0) (A.sub 0 1) (S.sub 1 0) g17 with hg18
  set g20 := sub (C.sub 0 0) (S.sub 0 0) (C.sub 0 0) h19 with hg20
  set g21 := sum (C.sub 0 1) (S.sub 0 0) (C.sub 0 1) g20 with hg21
  set g22 := sub (A.sub 1 0) (A.sub 0 0) (S.sub 1 0) g21 with hg22
  set g23 := sum (B.sub 0 0) (B.sub 0 1) (S.sub 1 1) g22 with hg23
  set g25 := sum (C.sub 1 1) (S.sub 0 0) (C.sub 1 1) h24 with hg25
  set g26 := sub (A.sub 0 1) (A.sub 1 1) (S.sub 1 0) g25 with hg26
  set g27 := sum (B.sub 1 0) (B.sub 1 1) (S.sub 1 1) g26 with hg27
  obtain ⟨Mc3, Mf3⟩ := hrec (S.sub 1 0) (S.sub 1 1) g2 h3 conf1 e3
  obtain ⟨Mc7, Mf7⟩ := hrec (S.sub 1 0) (B.sub 0 0) g6 h7 conf2 e7
  obtain ⟨Mc11, Mf11⟩ := hrec (A.sub 0 0) (S.sub 1 0) g10 h11 conf3 e11
  obtain ⟨Mc15, Mf15⟩ := hrec (A.sub 1 1) (S.sub 1 0) g14 h15 conf4 e15
  obtain ⟨Mc19, Mf19⟩ := hrec (S.sub 1 0) (B.sub 1 1) g18 h19 conf5 e19
  obtain ⟨Mc24, Mf24⟩ := hrec (S.sub 1 0) (S.sub 1 1) g23 h24 conf1 e24
  obtain ⟨Mc28, Mf28⟩ := hrec (S.sub 1 0) (S.sub 1 1) g27 h28 conf1 e28
  have sp1 := sum_spec (A.sub 0 0) (A.sub 1 1) (S.sub 1 0) h (rS 1 0 z1 z0)
    (Or.inr (roAq 0 0 z0 z0 1 0 z1 z0)) (Or.inr (roAq 1 1 z1 z1 1 0 z1 z0))
  have sp2 := sum_spec (B.sub 0 0) (B.sub 1 1) (S.sub 1 1) g1 (rS 1 1 z1 z1)
    (Or.inr (roBq 0 0 z0 z0 1 1 z1 z1)) (Or.inr (roBq 1 1 z1 z1 1 1 z1 z1))
  have sp4 := sum_spec (C.sub 0 0) (S.sub 0 0) (C.sub 0 0) h3 (rC 0 0 z0 z0)
    (Or.inl rfl) (Or.inr (roSC 0 0 z0 z0 0 0 z0 z0))
  have sp5 := sum_spec (C.sub 1 1) (S.sub 0 0) (C.sub 1 1) g4 (rC 1 1 z1 z1)
    (Or.inl rfl) (Or.inr (roSC 0 0 z0 z0 1 1 z1 z1))
  have sp6 := sum_spec (A.sub 1 0) (A.sub 1 1) (S.sub 1 0) g5 (rS 1 0 z1 z0)
    (Or.inr (roAq 1 0 z1 z0 1 0 z1 z0)) (Or.inr (roAq 1 1 z1 z1 1 0 z1 z0))
  have sp8 := sum_spec (C.sub 1 0) (S.sub 0 0) (C.sub 1 0) h7 (rC 1 0 z1 z0)
    (Or.inl rfl) (Or.inr (roSC 0 0 z0 z0 1 0 z1 z0))
  have sp9 := sub_spec (C.sub 1 1) (S.sub 0 0) (C.sub 1 1) g8 (rC 1 1 z1 z1)
    (Or.inl rfl) (Or.inr (roSC 0 0 z0 z0 1 1 z1 z1))
  have sp10 := sub_spec (B.sub 0 1) (B.sub 1 1) (S.sub 1 0) g9 (rS 1 0 z1 z0)
    (Or.inr (roBq 0 1 z0 z1 1 0 z1 z0)) (Or.inr (roBq 1 1 z1 z1 1 0 z1 z0))
  have sp12 := sum_spec (C.sub 0 1) (S.sub 0 0) (C.sub 0 1) h11 (rC 0 1 z0 z1)
    (Or.inl rfl) (Or.inr (roSC 0 0 z0 z0 0 1 z0 z1))
  have sp13 := sum_spec (C.sub 1 1) (S.sub 0 0) (C.sub 1 1) g12 (rC 1 1 z1 z1)
    (Or.inl rfl) (Or.inr (roSC 0 0 z0 z0 1 1 z1 z1))
  have sp14 := sub_spec (B.sub 1 0) (B.sub 0 0) (S.sub 1 0) g13 (rS 1 0 z1 z0)
    (Or.inr (roBq 1 0 z1 z0 1 0 z1 z0)) (Or.inr (roBq 0 0 z0 z0 1 0 z1 z0))
  have sp16 := sum_spec (C.sub 0 0) (S.sub 0 0) (C.sub 0 0) h15 (rC 0 0 z0 z0)
    (Or.inl rfl) (Or.inr (roSC 0 0 z0 z0 0 0 z0 z0))
  have sp17 := sum_spec (C.sub 1 0) (S.sub 0 0) (C.sub 1 0) g16 (rC 1 0 z1 z0)
    (Or.inl rfl) (Or.inr (roSC 0 0 z0 z0 1 0 z1 z0))
  have sp18 := sum_spec (A.sub 0 0) (A.sub 0 1) (S.sub 1 0) g17 (rS 1 0 z1 z0)
    (Or.inr (roAq 0 0 z0 z0 1 0 z1 z0)) (Or.inr (roAq 0 1 z0 z1 1 0 z1 z0))
  have sp20 := sub_spec (C.sub 0 0) (S.sub 0 0) (C.sub 0 0) h19 (rC 0 0 z0 z0)
    (Or.inl rfl) (Or.inr (roSC 0 0 z0 z0 0 0 z0 z0))
  have sp21 := sum_spec (C.sub 0 1) (S.sub 0 0) (C.sub 0 1) g20 (rC 0 1 z0 z1)
    (Or.inl rfl) (Or.inr (roSC 0 0 z0 z0 0 1 z0 z1))
  have sp22 := sub_spec (A.sub 1 0) (A.sub 0 0) (S.sub 1 0) g21 (rS 1 0 z1 z0)
    (Or.inr (roAq 1 0 z1 z0 1 0 z1 z0)) (Or.inr (roAq 0 0 z0 z0 1 0 z1 z0))
  have sp23 := sum_spec (B.sub 0 0) (B.sub 0 1) (S.sub 1 1) g22 (rS 1 1 z1 z1)
    (Or.inr (roBq 0 0 z0 z0 1 1 z1 z1)) (Or.inr (roBq 0 1 z0 z1 1 1 z1 z1))
  have sp25 := sum_spec (C.sub 1 1) (S.sub 0 0) (C.sub 1 1) h24 (rC 1 1 z1 z1)
    (Or.inl rfl) (Or.inr (roSC 0 0 z0 z0 1 1 z1 z1))
  have sp26 := sub_spec (A.sub 0 1) (A.sub 1 1) (S.sub 1 0) g25 (rS 1 0 z1 z0)
    (Or.inr (roAq 0 1 z0 z1 1 0 z1 z0)) (Or.inr (roAq 1 1 z1 z1 1 0 z1 z0))
  have sp27 := sum_spec (B.sub 1 0) (B.sub 1 1) (S.sub 1 1) g26 (rS 1 1 z1 z1)
    (Or.inr (roBq 1 0 z1 z0 1 1 z1 z1)) (Or.inr (roBq 1 1 z1 z1 1 1 z1 z1))
  have spOut := sum_spec (C.sub 0 0) (S.sub 0 0) (C.sub 0 0) h28 (rC 0 0 z0 z0)
    (Or.inl rfl) (Or.inr (roSC 0 0 z0 z0 0 0 z0 z0))
  have v1 : ∀ x y : ℤ, 0 ≤ x → x < m → 0 ≤ y → y < m →
      g1 (S.sub 1 0).data.ref ((S.sub 1 0).flat x y) =
        (A.sub 0 0).read h x y + (A.sub 1 1).read h x y := by
    intro x y hx0 hx hy0 hy
    rw [hg1]
    exact sp1.1 x y hx0 (by rw [hQS]; exact hx) hy0 (by rw [hQS]; exact hy)
  have f1 : ∀ r idx, ¬ InFoot (S.sub 1 0) r idx → g1 r idx = h r idx := by
    rw [hg1]; exact sp1.2
  have v2 : ∀ x y : ℤ, 0 ≤ x → x < m → 0 ≤ y → y < m →
      g2 (S.sub 1 1).data.ref ((S.sub 1 1).flat x y) =
        (B.sub 0 0).read g1 x y + (B.sub 1 1).read g1 x y := by
    intro x y hx0 hx hy0 hy
    rw [hg2]
    exact sp2.1 x y hx0 (by rw [hQS]; exact hx) hy0 (by rw [hQS]; exact hy)
  have f2 : ∀ r idx, ¬ InFoot (S.sub 1 1) r idx → g2 r idx = g1 r idx := by
    rw [hg2]; exact sp2.2
  have v4 : ∀ x y : ℤ, 0 ≤ x → x < m → 0 ≤ y → y < m →
      g4 (C.sub 0 0).data.ref ((C.sub 0 0).flat x y) =
        (C.sub 0 0).read h3 x y + (S.sub 0 0).read h3 x y := by
    intro x y hx0 hx hy0 hy
    rw [hg4]
    exact sp4.1 x y hx0 (by rw [hQC]; exact hx) hy0 (by rw [hQC]; exact hy)
  have f4 : ∀ r idx, ¬ InFoot (C.sub 0 0) r idx → g4 r idx = h3 r idx := by
    rw [hg4]; exact sp4.2
  have v5 : ∀ x y : ℤ, 0 ≤ x → x < m → 0 ≤ y → y < m →
      g5 (C.sub 1 1).data.ref ((C.sub 1 1).flat x y) =
        (C.sub 1 1).read g4 x y + (S.sub 0 0).read g4 x y := by
    intro x y hx0 hx hy0 hy
    rw [hg5]
    exact sp5.1 x y hx0 (by rw [hQC]; exact hx) hy0 (by rw [hQC]; exact hy)
  have f5 : ∀ r idx, ¬ InFoot (C.sub 1 1) r idx → g5 r idx = g4 r idx := by
    rw [hg5]; exact sp5.2
  have v6 : ∀ x y : ℤ, 0 ≤ x → x < m → 0 ≤ y → y < m →
      g6 (S.sub 1 0).data.ref ((S.sub 1 0).flat x y) =
        (A.sub 1 0).read g5 x y + (A.sub 1 1).read g5 x y := by
    intro x y hx0 hx hy0 hy
    rw [hg6]
    exact sp6.1 x y hx0 (by rw [hQS]; exact hx) hy0 (by rw [hQS]; exact hy)
  have f6 : ∀ r idx, ¬ InFoot (S.sub 1 0) r idx → g6 r idx = g5 r idx := by
    rw [hg6]; exact sp6.2
  have v8 : ∀ x y : ℤ, 0 ≤ x → x < m → 0 ≤ y → y < m →
      g8 (C.sub 1 0).data.ref ((C.sub 1 0).flat x y) =
        (C.sub 1 0).read h7 x y + (S.sub 0 0).read h7 x y := by
    intro x y hx0 hx hy0 hy
    rw [hg8]
    exact sp8.1 x y hx0 (by rw [hQC]; exact hx) hy0 (by rw [hQC]; exact hy)
  have f8 : ∀ r idx, ¬ InFoot (C.sub 1 0) r idx → g8 r idx = h7 r idx := by
    rw [hg8]; exact sp8.2
  have v9 : ∀ x y : ℤ, 0 ≤ x → x < m → 0 ≤ y → y < m →
      g9 (C.sub 1 1).data.ref ((C.sub 1 1).flat x y) =
        (C.sub 1 1).read g8 x y - (S.sub 0 0).read g8 x y := by
    intro x y hx0 hx hy0 hy
    rw [hg9]
    exact sp9.1 x y hx0 (by rw [hQC]; exact hx) hy0 (by rw [hQC]; exact hy)
  have f9 : ∀ r idx, ¬ InFoot (C.sub 1 1) r idx → g9 r idx = g8 r idx := by
    rw [hg9]; exact sp9.2
  have v10 : ∀ x y : ℤ, 0 ≤ x → x < m → 0 ≤ y → y < m →
      g10 (S.sub 1 0).data.ref ((S.sub 1 0).flat x y) =
        (B.sub 0 1).read g9 x y - (B.sub 1 1).read g9 x y := by
    intro x y hx0 hx hy0 hy
    rw [hg10]
    exact sp10.1 x y hx0 (by rw [hQS]; exact hx) hy0 (by rw [hQS]; exact hy)
  have f10 : ∀ r idx, ¬ InFoot (S.sub 1 0) r idx → g10 r idx = g9 r idx := by
    rw [hg10]; exact sp10.2
  have v12 : ∀ x y : ℤ, 0 ≤ x → x < m → 0 ≤ y → y < m →
      g12 (C.sub 0 1).data.ref ((C.sub 0 1).flat x y) =
        (C.sub 0 1).read h11 x y + (S.sub 0 0).read h11 x y := by
    intro x y hx0 hx hy0 hy
    rw [hg12]
    exact sp12.1 x y hx0 (by rw [hQC]; exact hx) hy0 (by rw [hQC]; exact hy)
  have f12 : ∀ r idx, ¬ InFoot (C.sub 0 1) r idx → g12 r idx = h11 r idx := by
    rw [hg12]; exact sp12.2
  have v13 : ∀ x y : ℤ, 0 ≤ x → x < m → 0 ≤ y → y < m →
      g13 (C.sub 1 1).data.ref ((C.sub 1 1).flat x y) =
        (C.sub 1 1).read g12 x y + (S.sub 0 0).read g12 x y := by
    intro x y hx0 hx hy0 hy
    rw [hg13]
    exact sp13.1 x y hx0 (by rw [hQC]; exact hx) hy0 (by rw [hQC]; exact hy)
  have f13 : ∀ r idx, ¬ InFoot (C.sub 1 1) r idx → g13 r idx = g12 r idx := by
    rw [hg13]; exact sp13.2
  have v14 : ∀ x y : ℤ, 0 ≤ x → x < m → 0 ≤ y → y < m →
      g14 (S.sub 1 0).data.ref ((S.sub 1 0).flat x y) =
        (B.sub 1 0).read g13 x y - (B.sub 0 0).read g13 x y := by
    intro x y hx0 hx hy0 hy
    rw [hg14]
    exact sp14.1 x y hx0 (by rw [hQS]; exact hx) hy0 (by rw [hQS]; exact hy)
  have f14 : ∀ r idx, ¬ InFoot (S.sub 1 0) r idx → g14 r idx = g13 r idx := by
    rw [hg14]; exact sp14.2
  have v16 : ∀ x y : ℤ, 0 ≤ x → x < m → 0 ≤ y → y < m →
      g16 (C.sub 0 0).data.ref ((C.sub 0 0).flat x y) =
        (C.sub 0 0).read h15 x y + (S.sub 0 0).read h15 x y := by
    intro x y hx0 hx hy0 hy
    rw [hg16]
    exact sp16.1 x y hx0 (by rw [hQC]; exact hx) hy0 (by rw [hQC]; exact hy)
  have f16 : ∀ r idx, ¬ InFoot (C.sub 0 0) r idx → g16 r idx = h15 r idx := by
    rw [hg16]; exact sp16.2
  have v17 : ∀ x y : ℤ, 0 ≤ x → x < m → 0 ≤ y → y < m →
      g17 (C.sub 1 0).data.ref ((C.sub 1 0).flat x y) =
        (C.sub 1 0).read g16 x y + (S.sub 0 0).read g16 x y := by
    intro x y hx0 hx hy0 hy
    rw [hg17]
    exact sp17.1 x y hx0 (by rw [hQC]; exact hx) hy0 (by rw [hQC]; exact hy)
  have f17 : ∀ r idx, ¬ InFoot (C.sub 1 0) r idx → g17 r idx = g16 r idx := by
    rw [hg17]; exact sp17.2
  have v18 : ∀ x y : ℤ, 0 ≤ x → x < m → 0 ≤ y → y < m →
      g18 (S.sub 1 0).data.ref ((S.sub 1 0).flat x y) =
        (A.sub 0 0).read g17 x y + (A.sub 0 1).read g17 x y := by
    intro x y hx0 hx hy0 hy
    rw [hg18]
    exact sp18.1 x y hx0 (by rw [hQS]; exact hx) hy0 (by rw [hQS]; exact hy)
  have f18 : ∀ r idx, ¬ InFoot (S.sub 1 0) r idx → g18 r idx = g17 r idx := by
    rw [hg18]; exact sp18.2
  have v20 : ∀ x y : ℤ, 0 ≤ x → x < m → 0 ≤ y → y < m →
      g20 (C.sub 0 0).data.ref ((C.sub 0 0).flat x y) =
        (C.sub 0 0).read h19 x y - (S.sub 0 0).read h19 x y := by
    intro x y hx0 hx hy0 hy
    rw [hg20]
    exact sp20.1 x y hx0 (by rw [hQC]; exact hx) hy0 (by rw [hQC]; exact hy)
  have f20 : ∀ r idx, ¬ InFoot (C.sub 0 0) r idx → g20 r idx = h19 r idx := by
    rw [hg20]; exact sp20.2
  have v21 : ∀ x y : ℤ, 0 ≤ x → x < m → 0 ≤ y → y < m →
      g21 (C.sub 0 1).data.ref ((C.sub 0 1).flat x y) =
        (C.sub 0 1).read g20 x y + (S.sub 0 0).read g20 x y := by
    intro x y hx0 hx hy0 hy
    rw [hg21]
    exact sp21.1 x y hx0 (by rw [hQC]; exact hx) hy0 (by rw [hQC]; exact hy)
  have f21 : ∀ r idx, ¬ InFoot (C.sub 0 1) r idx → g21 r idx = g20 r idx := by
    rw [hg21]; exact sp21.2
  have v22 : ∀ x y : ℤ, 0 ≤ x → x < m → 0 ≤ y → y < m →
      g22 (S.sub 1 0).data.ref ((S.sub 1 0).flat x y) =
        (A.sub 1 0).read g21 x y - (A.sub 0 0).read g21 x y := by
    intro x y hx0 hx hy0 hy
    rw [hg22]
    exact sp22.1 x y hx0 (by rw [hQS]; exact hx) hy0 (by rw [hQS]; exact hy)
  have f22 : ∀ r idx, ¬ InFoot (S.sub 1 0) r idx → g22 r idx = g21 r idx := by
    rw [hg22]; exact sp22.2
  have v23 : ∀ x y : ℤ, 0 ≤ x → x < m → 0 ≤ y → y < m →
      g23 (S.sub 1 1).data.ref ((S.sub 1 1).flat x y) =
        (B.sub 0 0).read g22 x y + (B.sub 0 1).read g22 x y := by
    intro x y hx0 hx hy0 hy
    rw [hg23]
    exact sp23.1 x y hx0 (by rw [hQS]; exact hx) hy0 (by rw [hQS]; exact hy)
  have f23 : ∀ r idx, ¬ InFoot (S.sub 1 1) r idx → g23 r idx = g22 r idx := by
    rw [hg23]; exact sp23.2
  have v25 : ∀ x y : ℤ, 0 ≤ x → x < m → 0 ≤ y → y < m →
      g25 (C.sub 1 1).data.ref ((C.sub 1 1).flat x y) =
        (C.sub 1 1).read h24 x y + (S.sub 0 0).read h24 x y := by
    intro x y hx0 hx hy0 hy
    rw [hg25]
    exact sp25.1 x y hx0 (by rw [hQC]; exact hx) hy0 (by rw [hQC]; exact hy)
  have f25 : ∀ r idx, ¬ InFoot (C.sub 1 1) r idx → g25 r idx = h24 r idx := by
    rw [hg25]; exact sp25.2
  have v26 : ∀ x y : ℤ, 0 ≤ x → x < m → 0 ≤ y → y < m →
      g26 (S.sub 1 0).data.ref ((S.sub 1 0).flat x y) =
        (A.sub 0 1).read g25 x y - (A.sub 1 1).read g25 x y := by
    intro x y hx0 hx hy0 hy
    rw [hg26]
    exact sp26.1 x y hx0 (by rw [hQS]; exact hx) hy0 (by rw [hQS]; exact hy)
  have f26 : ∀ r idx, ¬ InFoot (S.sub 1 0) r idx → g26 r idx = g25 r idx := by
    rw [hg26]; exact sp26.2
  have v27 : ∀ x y : ℤ, 0 ≤ x → x < m → 0 ≤ y → y < m →
      g27 (S.sub 1 1).data.ref ((S.sub 1 1).flat x y) =
        (B.sub 1 0).read g26 x y + (B.sub 1 1).read g26 x y := by
    intro x y hx0 hx hy0 hy
    rw [hg27]
    exact sp27.1 x y hx0 (by rw [hQS]; exact hx) hy0 (by rw [hQS]; exact hy)
  have f27 : ∀ r idx, ¬ InFoot (S.sub 1 1) r idx → g27 r idx = g26 r idx := by
    rw [hg27]; exact sp27.2
  have vOut : ∀ x y : ℤ, 0 ≤ x → x < m → 0 ≤ y → y < m →
      hOut (C.sub 0 0).data.ref ((C.sub 0 0).flat x y) =
        (C.sub 0 0).read h28 x y + (S.sub 0 0).read h28 x y := by
    intro x y hx0 hx hy0 hy
    rw [← efin2]
    exact spOut.1 x y hx0 (by rw [hQC]; exact hx) hy0 (by rw [hQC]; exact hy)
  have fOut : ∀ r idx, ¬ InFoot (C.sub 0 0) r idx → hOut r idx = h28 r idx := by
    rw [← efin2]; exact spOut.2
  have W1 : ∀ r idx, ¬ InFoot C r idx → ¬ InFoot S r idx → g1 r idx = h r idx :=
    fun r idx _ hs => f1 r idx (fun hin => hs (fsubS 1 0 z1 z0 r idx hin))
  have W2 : ∀ r idx, ¬ InFoot C r idx → ¬ InFoot S r idx → g2 r idx = h r idx :=
    fun r idx hc hs =>
      (f2 r idx (fun hin => hs (fsubS 1 1 z1 z1 r idx hin))).trans (W1 r idx hc hs)
  have W3 : ∀ r idx, ¬ InFoot C r idx → ¬ InFoot S r idx → h3 r idx = h r idx :=
    fun r idx hc hs =>
      (Mf3 r idx (fun hin => hs (fsubS 0 0 z0 z0 r idx hin))
        (fun hin => hs (fsubS 0 1 z0 z1 r idx hin))).trans (W2 r idx hc hs)
  have W4 : ∀ r idx, ¬ InFoot C r idx → ¬ InFoot S r idx → g4 r idx = h r idx :=
    fun r idx hc hs =>
      (f4 r idx (fun hin => hc (fsubC 0 0 z0 z0 r idx hin))).trans (W3 r idx hc hs)
  have W5 : ∀ r idx, ¬ InFoot C r idx → ¬ InFoot S r idx → g5 r idx = h r idx :=
    fun r idx hc hs =>
      (f5 r idx (fun hin => hc (fsubC 1 1 z1 z1 r idx hin))).trans (W4 r idx hc hs)
  have W6 : ∀ r idx, ¬ InFoot C r idx → ¬ InFoot S r idx → g6 r idx = h r idx :=
    fun r idx hc hs =>
      (f6 r idx (fun hin => hs (fsubS 1 0 z1 z0 r idx hin))).trans (W5 r idx hc hs)
  have W7 : ∀ r idx, ¬ InFoot C r idx → ¬ InFoot S r idx → h7 r idx = h r idx :=
    fun r idx hc hs =>
      (Mf7 r idx (fun hin => hs (fsubS 0 0 z0 z0 r idx hin))
        (fun hin => hs (fsubS 0 1 z0 z1 r idx hin))).trans (W6 r idx hc hs)
  have W8 : ∀ r idx, ¬ InFoot C r idx → ¬ InFoot S r idx → g8 r idx = h r idx :=
    fun r idx hc hs =>
      (f8 r idx (fun hin => hc (fsubC 1 0 z1 z0 r idx hin))).trans (W7 r idx hc hs)
  have W9 : ∀ r idx, ¬ InFoot C r idx → ¬ InFoot S r idx → g9 r idx = h r idx :=
    fun r idx hc hs =>
      (f9 r idx (fun hin => hc (fsubC 1 1 z1 z1 r idx hin))).trans (W8 r idx hc hs)
  have W10 : ∀ r idx, ¬ InFoot C r idx → ¬ InFoot S r idx → g10 r idx = h r idx :=
    fun r idx hc hs =>
      (f10 r idx (fun hin => hs (fsubS 1 0 z1 z0 r idx hin))).trans (W9 r idx hc hs)
  have W11 : ∀ r idx, ¬ InFoot C r idx → ¬ InFoot S r idx → h11 r idx = h r idx :=
    fun r idx hc hs =>
      (Mf11 r idx (fun hin => hs (fsubS 0 0 z0 z0 r idx hin))
        (fun hin => hs (fsubS 0 1 z0 z1 r idx hin))).trans (W10 r idx hc hs)
  have W12 : ∀ r idx, ¬ InFoot C r idx → ¬ InFoot S r idx → g12 r idx = h r idx :=
    fun r idx hc hs =>
      (f12 r idx (fun hin => hc (fsubC 0 1 z0 z1 r idx hin))).trans (W11 r idx hc hs)
  have W13 : ∀ r idx, ¬ InFoot C r idx → ¬ InFoot S r idx → g13 r idx = h r idx :=
    fun r idx hc hs =>
      (f13 r idx (fun hin => hc (fsubC 1 1 z1 z1 r idx hin))).trans (W12 r idx hc hs)
  have W14 : ∀ r idx, ¬ InFoot C r idx → ¬ InFoot S r idx → g14 r idx = h r idx :=
    fun r idx hc hs =>
      (f14 r idx (fun hin => hs (fsubS 1 0 z1 z0 r idx hin))).trans (W13 r idx hc hs)
  have W15 : ∀ r idx, ¬ InFoot C r idx → ¬ InFoot S r idx → h15 r idx = h r idx :=
    fun r idx hc hs =>
      (Mf15 r idx (fun hin => hs (fsubS 0 0 z0 z0 r idx hin))
        (fun hin => hs (fsubS 0 1 z0 z1 r idx hin))).trans (W14 r idx hc hs)
  have W16 : ∀ r idx, ¬ InFoot C r idx → ¬ InFoot S r idx → g16 r idx = h r idx :=
    fun r idx hc hs =>
      (f16 r idx (fun hin => hc (fsubC 0 0 z0 z0 r idx hin))).trans (W15 r idx hc hs)
  have W17 : ∀ r idx, ¬ InFoot C r idx → ¬ InFoot S r idx → g17 r idx = h r idx :=
    fun r idx hc hs =>
      (f17 r idx (fun hin => hc (fsubC 1 0 z1 z0 r idx hin))).trans (W16 r idx hc hs)
  have W18 : ∀ r idx, ¬ InFoot C r idx → ¬ InFoot S r idx → g18 r idx = h r idx :=
    fun r idx hc hs =>
      (f18 r idx (fun hin => hs (fsubS 1 0 z1 z0 r idx hin))).trans (W17 r idx hc hs)
  have W19 : ∀ r idx, ¬ InFoot C r idx → ¬ InFoot S r idx → h19 r idx = h r idx :=
    fun r idx hc hs =>
      (Mf19 r idx (fun hin => hs (fsubS 0 0 z0 z0 r idx hin))
        (fun hin => hs (fsubS 0 1 z0 z1 r idx hin))).trans (W18 r idx hc hs)
  have W20 : ∀ r idx, ¬ InFoot C r idx → ¬ InFoot S r idx → g20 r idx = h r idx :=
    fun r idx hc hs =>
      (f20 r idx (fun hin => hc (fsubC 0 0 z0 z0 r idx hin))).trans (W19 r idx hc hs)
  have W21 : ∀ r idx, ¬ InFoot C r idx → ¬ InFoot S r idx → g21 r idx = h r idx :=
    fun r idx hc hs =>
      (f21 r idx (fun hin => hc (fsubC 0 1 z0 z1 r idx hin))).trans (W20 r idx hc hs)
  have W22 : ∀ r idx, ¬ InFoot C r idx → ¬ InFoot S r idx → g22 r idx = h r idx :=
    fun r idx hc hs =>
      (f22 r idx (fun hin => hs (fsubS 1 0 z1 z0 r idx hin))).trans (W21 r idx hc hs)
  have W23 : ∀ r idx, ¬ InFoot C r idx → ¬ InFoot S r idx → g23 r idx = h r idx :=
    fun r idx hc hs =>
      (f23 r idx (fun hin => hs (fsubS 1 1 z1 z1 r idx hin))).trans (W22 r idx hc hs)
  have W24 : ∀ r idx, ¬ InFoot C r idx → ¬ InFoot S r idx → h24 r idx = h r idx :=
    fun r idx hc hs =>
      (Mf24 r idx (fun hin => hs (fsubS 0 0 z0 z0 r idx hin))
        (fun hin => hs (fsubS 0 1 z0 z1 r idx hin))).trans (W23 r idx hc hs)
  have W25 : ∀ r idx, ¬ InFoot C r idx → ¬ InFoot S r idx → g25 r idx = h r idx :=
    fun r idx hc hs =>
      (f25 r idx (fun hin => hc (fsubC 1 1 z1 z1 r idx hin))).trans (W24 r idx hc hs)
  have W26 : ∀ r idx, ¬ InFoot C r idx → ¬ InFoot S r idx → g26 r idx = h r idx :=
    fun r idx hc hs =>
      (f26 r idx (fun hin => hs (fsubS 1 0 z1 z0 r idx hin))).trans (W25 r idx hc hs)
  have W27 : ∀ r idx, ¬ InFoot C r idx → ¬ InFoot S r idx → g27 r idx = h r idx :=
    fun r idx hc hs =>
      (f27 r idx (fun hin => hs (fsubS 1 1 z1 z1 r idx hin))).trans (W26 r idx hc hs)
  have W28 : ∀ r idx, ¬ InFoot C r idx → ¬ InFoot S r idx → h28 r idx = h r idx :=
    fun r idx hc hs =>
      (Mf28 r idx (fun hin => hs (fsubS 0 0 z0 z0 r idx hin))
        (fun hin => hs (fsubS 0 1 z0 z1 r idx hin))).trans (W27 r idx hc hs)
  have WOut : ∀ r idx, ¬ InFoot C r idx → ¬ InFoot S r idx → hOut r idx = h r idx :=
    fun r idx hc hs =>
      (fOut r idx (fun hin => hc (fsubC 0 0 z0 z0 r idx hin))).trans (W28 r idx hc hs)
  set M1v := mmulF m (fun u v => (A.sub 0 0).read h u v + (A.sub 1 1).read h u v)
    (fun u v => (B.sub 0 0).read h u v + (B.sub 1 1).read h u v) with hM1v
  set M2v := mmulF m (fun u v => (A.sub 1 0).read h u v + (A.sub 1 1).read h u v)
    (fun u v => (B.sub 0 0).read h u v) with hM2v
  set M3v := mmulF m (fun u v => (A.sub 0 0).read h u v)
    (fun u v => (B.sub 0 1).read h u v - (B.sub 1 1).read h u v) with hM3v
  set M4v := mmulF m (fun u v => (A.sub 1 1).read h u v)
    (fun u v => (B.sub 1 0).read h u v - (B.sub 0 0).read h u v) with hM4v
  set M5v := mmulF m (fun u v => (A.sub 0 0).read h u v + (A.sub 0 1).read h u v)
    (fun u v => (B.sub 1 1).read h u v) with hM5v
  set M6v := mmulF m (fun u v => (A.sub 1 0).read h u v - (A.sub 0 0).read h u v)
    (fun u v => (B.sub 0 0).read h u v + (B.sub 0 1).read h u v) with hM6v
  set M7v := mmulF m (fun u v => (A.sub 0 1).read h u v - (A.sub 1 1).read h u v)
    (fun u v => (B.sub 1 0).read h u v + (B.sub 1 1).read h u v) with hM7v
  have Mval3 : ∀ x y : ℤ, 0 ≤ x → x < m → 0 ≤ y → y < m →
      h3 (S.sub 0 0).data.ref ((S.sub 0 0).flat x y) = M1v x y := by
    intro x y hx0 hx hy0 hy
    have hc := Mc3 x y hx0 (by rw [hQS]; exact hx) hy0 (by rw [hQS]; exact hy)
    rw [hQS 0 0] at hc
    rw [hc, hM1v]
    apply mmulF_congr
    · intro k hk0 hk
      show (S.sub 1 0).read g2 x k = (A.sub 0 0).read h x k + (A.sub 1 1).read h x k
      rw [rect_read (rS 1 0 z1 z0) g2 hx0 (by rw [hQS]; exact hx) hk0 (by rw [hQS]; exact hk),
        presS 1 0 (dS 1 0 1 1 z1 z0 z1 z1 (by decide)) f2 x k hx0 hx hk0 hk]
      exact v1 x k hx0 hx hk0 hk
    · intro k hk0 hk
      show (S.sub 1 1).read g2 k y = (B.sub 0 0).read h k y + (B.sub 1 1).read h k y
      rw [rect_read (rS 1 1 z1 z1) g2 hk0 (by rw [hQS]; exact hk) hy0 (by rw [hQS]; exact hy),
        v2 k y hk0 hk hy0 hy,
        read_stable_pair (roBC 0 0 z0 z0) (roBS 0 0 z0 z0) W1 k y,
        read_stable_pair (roBC 1 1 z1 z1) (roBS 1 1 z1 z1) W1 k y]
  have Mval7 : ∀ x y : ℤ, 0 ≤ x → x < m → 0 ≤ y → y < m →
      h7 (S.sub 0 0).data.ref ((S.sub 0 0).flat x y) = M2v x y := by
    intro x y hx0 hx hy0 hy
    have hc := Mc7 x y hx0 (by rw [hQS]; exact hx) hy0 (by rw [hQS]; exact hy)
    rw [hQS 0 0] at hc
    rw [hc, hM2v]
    apply mmulF_congr
    · intro k hk0 hk
      show (S.sub 1 0).read g6 x k = (A.sub 1 0).read h x k + (A.sub 1 1).read h x k
      rw [rect_read (rS 1 0 z1 z0) g6 hx0 (by rw [hQS]; exact hx) hk0 (by rw [hQS]; exact hk),
        v6 x k hx0 hx hk0 hk,
        read_stable_pair (roAC 1 0 z1 z0) (roAS 1 0 z1 z0) W5 x k,
        read_stable_pair (roAC 1 1 z1 z1) (roAS 1 1 z1 z1) W5 x k]
    · intro k hk0 hk
      show (B.sub 0 0).read g6 k y = (B.sub 0 0).read h k y
      exact read_stable_pair (roBC 0 0 z0 z0) (roBS 0 0 z0 z0) W6 k y
  have Mval11 : ∀ x y : ℤ, 0 ≤ x → x < m → 0 ≤ y → y < m →
      h11 (S.sub 0 0).data.ref ((S.sub 0 0).flat x y) = M3v x y := by
    intro x y hx0 hx hy0 hy
    have hc := Mc11 x y hx0 (by rw [hQS]; exact hx) hy0 (by rw [hQS]; exact hy)
    rw [hQS 0 0] at hc
    rw [hc, hM3v]
    apply mmulF_congr
    · intro k hk0 hk
      show (A.sub 0 0).read g10 x k = (A.sub 0 0).read h x k
      exact read_stable_pair (roAC 0 0 z0 z0) (roAS 0 0 z0 z0) W10 x k
    · intro k hk0 hk
      show (S.sub 1 0).read g10 k y = (B.sub 0 1).read h k y - (B.sub 1 1).read h k y
      rw [rect_read (rS 1 0 z1 z0) g10 hk0 (by rw [hQS]; exact hk) hy0 (by rw [hQS]; exact hy),
        v10 k y hk0 hk hy0 hy,
        read_stable_pair (roBC 0 1 z0 z1) (roBS 0 1 z0 z1) W9 k y,
        read_stable_pair (roBC 1 1 z1 z1) (roBS 1 1 z1 z1) W9 k y]
  have Mval15 : ∀ x y : ℤ, 0 ≤ x → x < m → 0 ≤ y → y < m →
      h15 (S.sub 0 0).data.ref ((S.sub 0 0).flat x y) = M4v x y := by
    intro x y hx0 hx hy0 hy
    have hc := Mc15 x y hx0 (by rw [hQS]; exact hx) hy0 (by rw [hQS]; exact hy)
    rw [hQS 0 0] at hc
    rw [hc, hM4v]
    apply mmulF_congr
    · intro k hk0 hk
      show (A.sub 1 1).read g14 x k = (A.sub 1 1).read h x k
      exact read_stable_pair (roAC 1 1 z1 z1) (roAS 1 1 z1 z1) W14 x k
    · intro k hk0 hk
      show (S.sub 1 0).read g14 k y = (B.sub 1 0).read h k y - (B.sub 0 0).read h k y
      rw [rect_read (rS 1 0 z1 z0) g14 hk0 (by rw [hQS]; exact hk) hy0 (by rw [hQS]; exact hy),
        v14 k y hk0 hk hy0 hy,
        read_stable_pair (roBC 1 0 z1 z0) (roBS 1 0 z1 z0) W13 k y,
        read_stable_pair (roBC 0 0 z0 z0) (roBS 0 0 z0 z0) W13 k y]
  have Mval19 : ∀ x y : ℤ, 0 ≤ x → x < m → 0 ≤ y → y < m →
      h19 (S.sub 0 0).data.ref ((S.sub 0 0).flat x y) = M5v x y := by
    intro x y hx0 hx hy0 hy
    have hc := Mc19 x y hx0 (by rw [hQS]; exact hx) hy0 (by rw [hQS]; exact hy)
    rw [hQS 0 0] at hc
    rw [hc, hM5v]
    apply mmulF_congr
    · intro k hk0 hk
      show (S.sub 1 0).read g18 x k = (A.sub 0 0).read h x k + (A.sub 0 1).read h x k
      rw [rect_read (rS 1 0 z1 z0) g18 hx0 (by rw [hQS]; exact hx) hk0 (by rw [hQS]; exact hk),
        v18 x k hx0 hx hk0 hk,
        read_stable_pair (roAC 0 0 z0 z0) (roAS 0 0 z0 z0) W17 x k,
        read_stable_pair (roAC 0 1 z0 z1) (roAS 0 1 z0 z1) W17 x k]
    · intro k hk0 hk
      show (B.sub 1 1).read g18 k y = (B.sub 1 1).read h k y
      exact read_stable_pair (roBC 1 1 z1 z1) (roBS 1 1 z1 z1) W18 k y
  have Mval24 : ∀ x y : ℤ, 0 ≤ x → x < m → 0 ≤ y → y < m →
      h24 (S.sub 0 0).data.ref ((S.sub 0 0).flat x y) = M6v x y := by
    intro x y hx0 hx hy0 hy
    have hc := Mc24 x y hx0 (by rw [hQS]; exact hx) hy0 (by rw [hQS]; exact hy)
    rw [hQS 0 0] at hc
    rw [hc, hM6v]
    apply mmulF_congr
    · intro k hk0 hk
      show (S.sub 1 0).read g23 x k = (A.sub 1 0).read h x k - (A.sub 0 0).read h x k
      rw [rect_read (rS 1 0 z1 z0) g23 hx0 (by rw [hQS]; exact hx) hk0 (by rw [hQS]; exact hk),
        presS 1 0 (dS 1 0 1 1 z1 z0 z1 z1 (by decide)) f23 x k hx0 hx hk0 hk,
        v22 x k hx0 hx hk0 hk,
        read_stable_pair (roAC 1 0 z1 z0) (roAS 1 0 z1 z0) W21 x k,
        read_stable_pair (roAC 0 0 z0 z0) (roAS 0 0 z0 z0) W21 x k]
    · intro k hk0 hk
      show (S.sub 1 1).read g23 k y = (B.sub 0 0).read h k y + (B.sub 0 1).read h k y
      rw [rect_read (rS 1 1 z1 z1) g23 hk0 (by rw [hQS]; exact hk) hy0 (by rw [hQS]; exact hy),
        v23 k y hk0 hk hy0 hy,
        read_stable_pair (roBC 0 0 z0 z0) (roBS 0 0 z0 z0) W22 k y,
        read_stable_pair (roBC 0 1 z0 z1) (roBS 0 1 z0 z1) W22 k y]
  have Mval28 : ∀ x y : ℤ, 0 ≤ x → x < m → 0 ≤ y → y < m →
      h28 (S.sub 0 0).data.ref ((S.sub 0 0).flat x y) = M7v x y := by
    intro x y hx0 hx hy0 hy
    have hc := Mc28 x y hx0 (by rw [hQS]; exact hx) hy0 (by rw [hQS]; exact hy)
    rw [hQS 0 0] at hc
    rw [hc, hM7v]
    apply mmulF_congr
    · intro k hk0 hk
      show (S.sub 1 0).read g27 x k = (A.sub 0 1).read h x k - (A.sub 1 1).read h x k
      rw [rect_read (rS 1 0 z1 z0) g27 hx0 (by rw [hQS]; exact hx) hk0 (by rw [hQS]; exact hk),
        presS 1 0 (dS 1 0 1 1 z1 z0 z1 z1 (by decide)) f27 x k hx0 hx hk0 hk,
        v26 x k hx0 hx hk0 hk,
        read_stable_pair (roAC 0 1 z0 z1) (roAS 0 1 z0 z1) W25 x k,
        read_stable_pair (roAC 1 1 z1 z1) (roAS 1 1 z1 z1) W25 x k]
    · intro k hk0 hk
      show (S.sub 1 1).read g27 k y = (B.sub 1 0).read h k y + (B.sub 1 1).read h k y
      rw [rect_read (rS 1 1 z1 z1) g27 hk0 (by rw [hQS]; exact hk) hy0 (by rw [hQS]; exact hy),
        v27 k y hk0 hk hy0 hy,
        read_stable_pair (roBC 1 0 z1 z0) (roBS 1 0 z1 z0) W26 k y,
        read_stable_pair (roBC 1 1 z1 z1) (roBS 1 1 z1 z1) W26 k y]
  have qa : ∀ qx qy : ℤ, (qx = 0 ∨ qx = 1) → (qy = 0 ∨ qy = 1) → ∀ u v : ℤ,
      0 ≤ u → u < m → 0 ≤ v → v < m →
      (A.sub qx qy).read h u v = A.read h (u + qx * m) (v + qy * m) := by
    intro qx qy b1 b2 u v hu0 hu hv0 hv
    rw [sub_read_eq hevenA hd0A b1 b2 h hu0 (by rw [hmA]; exact hu) hv0 (by rw [hmA]; exact hv),
      hmA]
  have qb : ∀ qx qy : ℤ, (qx = 0 ∨ qx = 1) → (qy = 0 ∨ qy = 1) → ∀ u v : ℤ,
      0 ≤ u → u < m → 0 ≤ v → v < m →
      (B.sub qx qy).read h u v = B.read h (u + qx * m) (v + qy * m) := by
    intro qx qy b1 b2 u v hu0 hu hv0 hv
    rw [sub_read_eq hevenB hd0B b1 b2 h hu0 (by rw [hmB]; exact hu) hv0 (by rw [hmB]; exact hv),
      hmB]
  have qa00 : ∀ u v : ℤ, 0 ≤ u → u < m → 0 ≤ v → v < m →
      (A.sub 0 0).read h u v = A.read h u v :=
    fun u v hu0 hu hv0 hv =>
      (qa 0 0 z0 z0 u v hu0 hu hv0 hv).trans (read_congr A h (by ring) (by ring))
  have qa01 : ∀ u v : ℤ, 0 ≤ u → u < m → 0 ≤ v → v < m →
      (A.sub 0 1).read h u v = A.read h u (m + v) :=
    fun u v hu0 hu hv0 hv =>
      (qa 0 1 z0 z1 u v hu0 hu hv0 hv).trans (read_congr A h (by ring) (by ring))
  have qa10 : ∀ u v : ℤ, 0 ≤ u → u < m → 0 ≤ v → v < m →
      (A.sub 1 0).read h u v = A.read h (m + u) v :=
    fun u v hu0 hu hv0 hv =>
      (qa 1 0 z1 z0 u v hu0 hu hv0 hv).trans (read_congr A h (by ring) (by ring))
  have qa11 : ∀ u v : ℤ, 0 ≤ u → u < m → 0 ≤ v → v < m →
      (A.sub 1 1).read h u v = A.read h (m + u) (m + v) :=
    fun u v hu0 hu hv0 hv =>
      (qa 1 1 z1 z1 u v hu0 hu hv0 hv).trans (read_congr A h (by ring) (by ring))
  have qb00 : ∀ u v : ℤ, 0 ≤ u → u < m → 0 ≤ v → v < m →
      (B.sub 0 0).read h u v = B.read h u v :=
    fun u v hu0 hu hv0 hv =>
      (qb 0 0 z0 z0 u v hu0 hu hv0 hv).trans (read_congr B h (by ring) (by ring))
  have qb01 : ∀ u v : ℤ, 0 ≤ u → u < m → 0 ≤ v → v < m →
      (B.sub 0 1).read h u v = B.read h u (m + v) :=
    fun u v hu0 hu hv0 hv =>
      (qb 0 1 z0 z1 u v hu0 hu hv0 hv).trans (read_congr B h (by ring) (by ring))
  have qb10 : ∀ u v : ℤ, 0 ≤ u → u < m → 0 ≤ v → v < m →
      (B.sub 1 0).read h u v = B.read h (m + u) v :=
    fun u v hu0 hu hv0 hv =>
      (qb 1 0 z1 z0 u v hu0 hu hv0 hv).trans (read_congr B h (by ring) (by ring))
  have qb11 : ∀ u v : ℤ, 0 ≤ u → u < m → 0 ≤ v → v < m →
      (B.sub 1 1).read h u v = B.read h (m + u) (m + v) :=
    fun u v hu0 hu hv0 hv =>
      (qb 1 1 z1 z1 u v hu0 hu hv0 hv).trans (read_congr B h (by ring) (by ring))
  have L00_h3 : ∀ x y : ℤ, 0 ≤ x → x < m → 0 ≤ y → y < m →
      h3 (C.sub 0 0).data.ref ((C.sub 0 0).flat x y) =
        h (C.sub 0 0).data.ref ((C.sub 0 0).flat x y) := by
    intro x y hx0 hx hy0 hy
    rw [presCrec 0 0 z0 z0 Mf3 x y hx0 hx hy0 hy,
      presC 0 0 (dCS 0 0 z0 z0 1 1 z1 z1) f2 x y hx0 hx hy0 hy,
      presC 0 0 (dCS 0 0 z0 z0 1 0 z1 z0) f1 x y hx0 hx hy0 hy]
  have L00_g4 : ∀ x y : ℤ, 0 ≤ x → x < m → 0 ≤ y → y < m →
      g4 (C.sub 0 0).data.ref ((C.sub 0 0).flat x y) =
        h (C.sub 0 0).data.ref ((C.sub 0 0).flat x y) + M1v x y := by
    intro x y hx0 hx hy0 hy
    rw [v4 x y hx0 hx hy0 hy,
      rect_read (rC 0 0 z0 z0) h3 hx0 (by rw [hQC]; exact hx) hy0 (by rw [hQC]; exact hy),
      rect_read (rS 0 0 z0 z0) h3 hx0 (by rw [hQS]; exact hx) hy0 (by rw [hQS]; exact hy),
      L00_h3 x y hx0 hx hy0 hy, Mval3 x y hx0 hx hy0 hy]
  have L00_h15 : ∀ x y : ℤ, 0 ≤ x → x < m → 0 ≤ y → y < m →
      h15 (C.sub 0 0).data.ref ((C.sub 0 0).flat x y) =
        h (C.sub 0 0).data.ref ((C.sub 0 0).flat x y) + M1v x y := by
    intro x y hx0 hx hy0 hy
    rw [presCrec 0 0 z0 z0 Mf15 x y hx0 hx hy0 hy,
      presC 0 0 (dCS 0 0 z0 z0 1 0 z1 z0) f14 x y hx0 hx hy0 hy,
      presC 0 0 (dC 0 0 1 1 z0 z0 z1 z1 (by decide)) f13 x y hx0 hx hy0 hy,
      presC 0 0 (dC 0 0 0 1 z0 z0 z0 z1 (by decide)) f12 x y hx0 hx hy0 hy,
      presCrec 0 0 z0 z0 Mf11 x y hx0 hx hy0 hy,
      presC 0 0 (dCS 0 0 z0 z0 1 0 z1 z0) f10 x y hx0 hx hy0 hy,
      presC 0 0 (dC 0 0 1 1 z0 z0 z1 z1 (by decide)) f9 x y hx0 hx hy0 hy,
      presC 0 0 (dC 0 0 1 0 z0 z0 z1 z0 (by decide)) f8 x y hx0 hx hy0 hy,
      presCrec 0 0 z0 z0 Mf7 x y hx0 hx hy0 hy,
      presC 0 0 (dCS 0 0 z0 z0 1 0 z1 z0) f6 x y hx0 hx hy0 hy,
      presC 0 0 (dC 0 0 1 1 z0 z0 z1 z1 (by decide)) f5 x y hx0 hx hy0 hy,
      L00_g4 x y hx0 hx hy0 hy]
  have L00_g16 : ∀ x y : ℤ, 0 ≤ x → x < m → 0 ≤ y → y < m →
      g16 (C.sub 0 0).data.ref ((C.sub 0 0).flat x y) =
        h (C.sub 0 0).data.ref ((C.sub 0 0).flat x y) + M1v x y + M4v x y := by
    intro x y hx0 hx hy0 hy
    rw [v16 x y hx0 hx hy0 hy,
      rect_read (rC 0 0 z0 z0) h15 hx0 (by rw [hQC]; exact hx) hy0 (by rw [hQC]; exact hy),
      rect_read (rS 0 0 z0 z0) h15 hx0 (by rw [hQS]; exact hx) hy0 (by rw [hQS]; exact hy),
      L00_h15 x y hx0 hx hy0 hy, Mval15 x y hx0 hx hy0 hy]
  have L00_h19 : ∀ x y : ℤ, 0 ≤ x → x < m → 0 ≤ y → y < m →
      h19 (C.sub 0 0).data.ref ((C.sub 0 0).flat x y) =
        h (C.sub 0 0).data.ref ((C.sub 0 0).flat x y) + M1v x y + M4v x y := by
    intro x y hx0 hx hy0 hy
    rw [presCrec 0 0 z0 z0 Mf19 x y hx0 hx hy0 hy,
      presC 0 0 (dCS 0 0 z0 z0 1 0 z1 z0) f18 x y hx0 hx hy0 hy,
      presC 0 0 (dC 0 0 1 0 z0 z0 z1 z0 (by decide)) f17 x y hx0 hx hy0 hy,
      L00_g16 x y hx0 hx hy0 hy]
  have L00_g20 : ∀ x y : ℤ, 0 ≤ x → x < m → 0 ≤ y → y < m →
      g20 (C.sub 0 0).data.ref ((C.sub 0 0).flat x y) =
        h (C.sub 0 0).data.ref ((C.sub 0 0).flat x y) + M1v x y + M4v x y - M5v x y := by
    intro x y hx0 hx hy0 hy
    rw [v20 x y hx0 hx hy0 hy,
      rect_read (rC 0 0 z0 z0) h19 hx0 (by rw [hQC]; exact hx) hy0 (by rw [hQC]; exact hy),
      rect_read (rS 0 0 z0 z0) h19 hx0 (by rw [hQS]; exact hx) hy0 (by rw [hQS]; exact hy),
      L00_h19 x y hx0 hx hy0 hy, Mval19 x y hx0 hx hy0 hy]
  have L00_h28 : ∀ x y : ℤ, 0 ≤ x → x < m → 0 ≤ y → y < m →
      h28 (C.sub 0 0).data.ref ((C.sub 0 0).flat x y) =
        h (C.sub 0 0).data.ref ((C.sub 0 0).flat x y) + M1v x y + M4v x y - M5v x y := by
    intro x y hx0 hx hy0 hy
    rw [presCrec 0 0 z0 z0 Mf28 x y hx0 hx hy0 hy,
      presC 0 0 (dCS 0 0 z0 z0 1 1 z1 z1) f27 x y hx0 hx hy0 hy,
      presC 0 0 (dCS 0 0 z0 z0 1 0 z1 z0) f26 x y hx0 hx hy0 hy,
      presC 0 0 (dC 0 0 1 1 z0 z0 z1 z1 (by decide)) f25 x y hx0 hx hy0 hy,
      presCrec 0 0 z0 z0 Mf24 x y hx0 hx hy0 hy,
      presC 0 0 (dCS 0 0 z0 z0 1 1 z1 z1) f23 x y hx0 hx hy0 hy,
      presC 0 0 (dCS 0 0 z0 z0 1 0 z1 z0) f22 x y hx0 hx hy0 hy,
      presC 0 0 (dC 0 0 0 1 z0 z0 z0 z1 (by decide)) f21 x y hx0 hx hy0 hy,
      L00_g20 x y hx0 hx hy0 hy]
  have L00_out : ∀ x y : ℤ, 0 ≤ x → x < m → 0 ≤ y → y < m →
      hOut (C.sub 0 0).data.ref ((C.sub 0 0).flat x y) =
        h (C.sub 0 0).data.ref ((C.sub 0 0).flat x y)
          + M1v x y + M4v x y - M5v x y + M7v x y := by
    intro x y hx0 hx hy0 hy
    rw [vOut x y hx0 hx hy0 hy,
      rect_read (rC 0 0 z0 z0) h28 hx0 (by rw [hQC]; exact hx) hy0 (by rw [hQC]; exact hy),
      rect_read (rS 0 0 z0 z0) h28 hx0 (by rw [hQS]; exact hx) hy0 (by rw [hQS]; exact hy),
      L00_h28 x y hx0 hx hy0 hy, Mval28 x y hx0 hx hy0 hy]
  have L01_h11 : ∀ x y : ℤ, 0 ≤ x → x < m → 0 ≤ y → y < m →
      h11 (C.sub 0 1).data.ref ((C.sub 0 1).flat x y) =
        h (C.sub 0 1).data.ref ((C.sub 0 1).flat x y) := by
    intro x y hx0 hx hy0 hy
    rw [presCrec 0 1 z0 z1 Mf11 x y hx0 hx hy0 hy,
      presC 0 1 (dCS 0 1 z0 z1 1 0 z1 z0) f10 x y hx0 hx hy0 hy,
      presC 0 1 (dC 0 1 1 1 z0 z1 z1 z1 (by decide)) f9 x y hx0 hx hy0 hy,
      presC 0 1 (dC 0 1 1 0 z0 z1 z1 z0 (by decide)) f8 x y hx0 hx hy0 hy,
      presCrec 0 1 z0 z1 Mf7 x y hx0 hx hy0 hy,
      presC 0 1 (dCS 0 1 z0 z1 1 0 z1 z0) f6 x y hx0 hx hy0 hy,
      presC 0 1 (dC 0 1 1 1 z0 z1 z1 z1 (by decide)) f5 x y hx0 hx hy0 hy,
      presC 0 1 (dC 0 1 0 0 z0 z1 z0 z0 (by decide)) f4 x y hx0 hx hy0 hy,
      presCrec 0 1 z0 z1 Mf3 x y hx0 hx hy0 hy,
      presC 0 1 (dCS 0 1 z0 z1 1 1 z1 z1) f2 x y hx0 hx hy0 hy,
      presC 0 1 (dCS 0 1 z0 z1 1 0 z1 z0) f1 x y hx0 hx hy0 hy]
  have L01_g12 : ∀ x y : ℤ, 0 ≤ x → x < m → 0 ≤ y → y < m →
      g12 (C.sub 0 1).data.ref ((C.sub 0 1).flat x y) =
        h (C.sub 0 1).data.ref ((C.sub 0 1).flat x y) + M3v x y := by
    intro x y hx0 hx hy0 hy
    rw [v12 x y hx0 hx hy0 hy,
      rect_read (rC 0 1 z0 z1) h11 hx0 (by rw [hQC]; exact hx) hy0 (by rw [hQC]; exact hy),
      rect_read (rS 0 0 z0 z0) h11 hx0 (by rw [hQS]; exact hx) hy0 (by rw [hQS]; exact hy),
      L01_h11 x y hx0 hx hy0 hy, Mval11 x y hx0 hx hy0 hy]
  have L01_g20 : ∀ x y : ℤ, 0 ≤ x → x < m → 0 ≤ y → y < m →
      g20 (C.sub 0 1).data.ref ((C.sub 0 1).flat x y) =
        h (C.sub 0 1).data.ref ((C.sub 0 1).flat x y) + M3v x y := by
    intro x y hx0 hx hy0 hy
    rw [presC 0 1 (dC 0 1 0 0 z0 z1 z0 z0 (by decide)) f20 x y hx0 hx hy0 hy,
      presCrec 0 1 z0 z1 Mf19 x y hx0 hx hy0 hy,
      presC 0 1 (dCS 0 1 z0 z1 1 0 z1 z0) f18 x y hx0 hx hy0 hy,
      presC 0 1 (dC 0 1 1 0 z0 z1 z1 z0 (by decide)) f17 x y hx0 hx hy0 hy,
      presC 0 1 (dC 0 1 0 0 z0 z1 z0 z0 (by decide)) f16 x y hx0 hx hy0 hy,
      presCrec 0 1 z0 z1 Mf15 x y hx0 hx hy0 hy,
      presC 0 1 (dCS 0 1 z0 z1 1 0 z1 z0) f14 x y hx0 hx hy0 hy,
      presC 0 1 (dC 0 1 1 1 z0 z1 z1 z1 (by decide)) f13 x y hx0 hx hy0 hy,
      L01_g12 x y hx0 hx hy0 hy]
  have L01_g21 : ∀ x y : ℤ, 0 ≤ x → x < m → 0 ≤ y → y < m →
      g21 (C.sub 0 1).data.ref ((C.sub 0 1).flat x y) =
        h (C.sub 0 1).data.ref ((C.sub 0 1).flat x y) + M3v x y + M5v x y := by
    intro x y hx0 hx hy0 hy
    rw [v21 x y hx0 hx hy0 hy,
      rect_read (rC 0 1 z0 z1) g20 hx0 (by rw [hQC]; exact hx) hy0 (by rw [hQC]; exact hy),
      rect_read (rS 0 0 z0 z0) g20 hx0 (by rw [hQS]; exact hx) hy0 (by rw [hQS]; exact hy),
      L01_g20 x y hx0 hx hy0 hy,
      presS 0 0 (dSC 0 0 z0 z0 0 0 z0 z0) f20 x y hx0 hx hy0 hy,
      Mval19 x y hx0 hx hy0 hy]
  have L01_out : ∀ x y : ℤ, 0 ≤ x → x < m → 0 ≤ y → y < m →
      hOut (C.sub 0 1).data.ref ((C.sub 0 1).flat x y) =
        h (C.sub 0 1).data.ref ((C.sub 0 1).flat x y) + M3v x y + M5v x y := by
    intro x y hx0 hx hy0 hy
    rw [presC 0 1 (dC 0 1 0 0 z0 z1 z0 z0 (by decide)) fOut x y hx0 hx hy0 hy,
      presCrec 0 1 z0 z1 Mf28 x y hx0 hx hy0 hy,
      presC 0 1 (dCS 0 1 z0 z1 1 1 z1 z1) f27 x y hx0 hx hy0 hy,
      presC 0 1 (dCS 0 1 z0 z1 1 0 z1 z0) f26 x y hx0 hx hy0 hy,
      presC 0 1 (dC 0 1 1 1 z0 z1 z1 z1 (by decide)) f25 x y hx0 hx hy0 hy,
      presCrec 0 1 z0 z1 Mf24 x y hx0 hx hy0 hy,
      presC 0 1 (dCS 0 1 z0 z1 1 1 z1 z1) f23 x y hx0 hx hy0 hy,
      presC 0 1 (dCS 0 1 z0 z1 1 0 z1 z0) f22 x y hx0 hx hy0 hy,
      L01_g21 x y hx0 hx hy0 hy]
  have L10_h7 : ∀ x y : ℤ, 0 ≤ x → x < m → 0 ≤ y → y < m →
      h7 (C.sub 1 0).data.ref ((C.sub 1 0).flat x y) =
        h (C.sub 1 0).data.ref ((C.sub 1 0).flat x y) := by
    intro x y hx0 hx hy0 hy
    rw [presCrec 1 0 z1 z0 Mf7 x y hx0 hx hy0 hy,
      presC 1 0 (dCS 1 0 z1 z0 1 0 z1 z0) f6 x y hx0 hx hy0 hy,
      presC 1 0 (dC 1 0 1 1 z1 z0 z1 z1 (by decide)) f5 x y hx0 hx hy0 hy,
      presC 1 0 (dC 1 0 0 0 z1 z0 z0 z0 (by decide)) f4 x y hx0 hx hy0 hy,
      presCrec 1 0 z1 z0 Mf3 x y hx0 hx hy0 hy,
      presC 1 0 (dCS 1 0 z1 z0 1 1 z1 z1) f2 x y hx0 hx hy0 hy,
      presC 1 0 (dCS 1 0 z1 z0 1 0 z1 z0) f1 x y hx0 hx hy0 hy]
  have L10_g8 : ∀ x y : ℤ, 0 ≤ x → x < m → 0 ≤ y → y < m →
      g8 (C.sub 1 0).data.ref ((C.sub 1 0).flat x y) =
        h (C.sub 1 0).data.ref ((C.sub 1 0).flat x y) + M2v x y := by
    intro x y hx0 hx hy0 hy
    rw [v8 x y hx0 hx hy0 hy,
      rect_read (rC 1 0 z1 z0) h7 hx0 (by rw [hQC]; exact hx) hy0 (by rw [hQC]; exact hy),
      rect_read (rS 0 0 z0 z0) h7 hx0 (by rw [hQS]; exact hx) hy0 (by rw [hQS]; exact hy),
      L10_h7 x y hx0 hx hy0 hy, Mval7 x y hx0 hx hy0 hy]
  have L10_g16 : ∀ x y : ℤ, 0 ≤ x → x < m → 0 ≤ y → y < m →
      g16 (C.sub 1 0).data.ref ((C.sub 1 0).flat x y) =
        h (C.sub 1 0).data.ref ((C.sub 1 0).flat x y) + M2v x y := by
    intro x y hx0 hx hy0 hy
    rw [presC 1 0 (dC 1 0 0 0 z1 z0 z0 z0 (by decide)) f16 x y hx0 hx hy0 hy,
      presCrec 1 0 z1 z0 Mf15 x y hx0 hx hy0 hy,
      presC 1 0 (dCS 1 0 z1 z0 1 0 z1 z0) f14 x y hx0 hx hy0 hy,
      presC 1 0 (dC 1 0 1 1 z1 z0 z1 z1 (by decide)) f13 x y hx0 hx hy0 hy,
      presC 1 0 (dC 1 0 0 1 z1 z0 z0 z1 (by decide)) f12 x y hx0 hx hy0 hy,
      presCrec 1 0 z1 z0 Mf11 x y hx0 hx hy0 hy,
      presC 1 0 (dCS 1 0 z1 z0 1 0 z1 z0) f10 x y hx0 hx hy0 hy,
      presC 1 0 (dC 1 0 1 1 z1 z0 z1 z1 (by decide)) f9 x y hx0 hx hy0 hy,
      L10_g8 x y hx0 hx hy0 hy]
  have L10_g17 : ∀ x y : ℤ, 0 ≤ x → x < m → 0 ≤ y → y < m →
      g17 (C.sub 1 0).data.ref ((C.sub 1 0).flat x y) =
        h (C.sub 1 0).data.ref ((C.sub 1 0).flat x y) + M2v x y + M4v x y := by
    intro x y hx0 hx hy0 hy
    rw [v17 x y hx0 hx hy0 hy,
      rect_read (rC 1 0 z1 z0) g16 hx0 (by rw [hQC]; exact hx) hy0 (by rw [hQC]; exact hy),
      rect_read (rS 0 0 z0 z0) g16 hx0 (by rw [hQS]; exact hx) hy0 (by rw [hQS]; exact hy),
      L10_g16 x y hx0 hx hy0 hy,
      presS 0 0 (dSC 0 0 z0 z0 0 0 z0 z0) f16 x y hx0 hx hy0 hy,
      Mval15 x y hx0 hx hy0 hy]
  have L10_out : ∀ x y : ℤ, 0 ≤ x → x < m → 0 ≤ y → y < m →
      hOut (C.sub 1 0).data.ref ((C.sub 1 0).flat x y) =
        h (C.sub 1 0).data.ref ((C.sub 1 0).flat x y) + M2v x y + M4v x y := by
    intro x y hx0 hx hy0 hy
    rw [presC 1 0 (dC 1 0 0 0 z1 z0 z0 z0 (by decide)) fOut x y hx0 hx hy0 hy,
      presCrec 1 0 z1 z0 Mf28 x y hx0 hx hy0 hy,
      presC 1 0 (dCS 1 0 z1 z0 1 1 z1 z1) f27 x y hx0 hx hy0 hy,
      presC 1 0 (dCS 1 0 z1 z0 1 0 z1 z0) f26 x y hx0 hx hy0 hy,
      presC 1 0 (dC 1 0 1 1 z1 z0 z1 z1 (by decide)) f25 x y hx0 hx hy0 hy,
      presCrec 1 0 z1 z0 Mf24 x y hx0 hx hy0 hy,
      presC 1 0 (dCS 1 0 z1 z0 1 1 z1 z1) f23 x y hx0 hx hy0 hy,
      presC 1 0 (dCS 1 0 z1 z0 1 0 z1 z0) f22 x y hx0 hx hy0 hy,
      presC 1 0 (dC 1 0 0 1 z1 z0 z0 z1 (by decide)) f21 x y hx0 hx hy0 hy,
      presC 1 0 (dC 1 0 0 0 z1 z0 z0 z0 (by decide)) f20 x y hx0 hx hy0 hy,
      presCrec 1 0 z1 z0 Mf19 x y hx0 hx hy0 hy,
      presC 1 0 (dCS 1 0 z1 z0 1 0 z1 z0) f18 x y hx0 hx hy0 hy,
      L10_g17 x y hx0 hx hy0 hy]
  have L11_h3 : ∀ x y : ℤ, 0 ≤ x → x < m → 0 ≤ y → y < m →
      h3 (C.sub 1 1).data.ref ((C.sub 1 1).flat x y) =
        h (C.sub 1 1).data.ref ((C.sub 1 1).flat x y) := by
    intro x y hx0 hx hy0 hy
    rw [presCrec 1 1 z1 z1 Mf3 x y hx0 hx hy0 hy,
      presC 1 1 (dCS 1 1 z1 z1 1 1 z1 z1) f2 x y hx0 hx hy0 hy,
      presC 1 1 (dCS 1 1 z1 z1 1 0 z1 z0) f1 x y hx0 hx hy0 hy]
  have L11_g5 : ∀ x y : ℤ, 0 ≤ x → x < m → 0 ≤ y → y < m →
      g5 (C.sub 1 1).data.ref ((C.sub 1 1).flat x y) =
        h (C.sub 1 1).data.ref ((C.sub 1 1).flat x y) + M1v x y := by
    intro x y hx0 hx hy0 hy
    rw [v5 x y hx0 hx hy0 hy,
      rect_read (rC 1 1 z1 z1) g4 hx0 (by rw [hQC]; exact hx) hy0 (by rw [hQC]; exact hy),
      rect_read (rS 0 0 z0 z0) g4 hx0 (by rw [hQS]; exact hx) hy0 (by rw [hQS]; exact hy),
      presC 1 1 (dC 1 1 0 0 z1 z1 z0 z0 (by decide)) f4 x y hx0 hx hy0 hy,
      L11_h3 x y hx0 hx hy0 hy,
      presS 0 0 (dSC 0 0 z0 z0 0 0 z0 z0) f4 x y hx0 hx hy0 hy,
      Mval3 x y hx0 hx hy0 hy]
  have L11_g9 : ∀ x y : ℤ, 0 ≤ x → x < m → 0 ≤ y → y < m →
      g9 (C.sub 1 1).data.ref ((C.sub 1 1).flat x y) =
        h (C.sub 1 1).data.ref ((C.sub 1 1).flat x y) + M1v x y - M2v x y := by
    intro x y hx0 hx hy0 hy
    rw [v9 x y hx0 hx hy0 hy,
      rect_read (rC 1 1 z1 z1) g8 hx0 (by rw [hQC]; exact hx) hy0 (by rw [hQC]; exact hy),
      rect_read (rS 0 0 z0 z0) g8 hx0 (by rw [hQS]; exact hx) hy0 (by rw [hQS]; exact hy),
      presC 1 1 (dC 1 1 1 0 z1 z1 z1 z0 (by decide)) f8 x y hx0 hx hy0 hy,
      presCrec 1 1 z1 z1 Mf7 x y hx0 hx hy0 hy,
      presC 1 1 (dCS 1 1 z1 z1 1 0 z1 z0) f6 x y hx0 hx hy0 hy,
      L11_g5 x y hx0 hx hy0 hy,
      presS 0 0 (dSC 0 0 z0 z0 1 0 z1 z0) f8 x y hx0 hx hy0 hy,
      Mval7 x y hx0 hx hy0 hy]
  have L11_g13 : ∀ x y : ℤ, 0 ≤ x → x < m → 0 ≤ y → y < m →
      g13 (C.sub 1 1).data.ref ((C.sub 1 1).flat x y) =
        h (C.sub 1 1).data.ref ((C.sub 1 1).flat x y) + M1v x y - M2v x y + M3v x y := by
    intro x y hx0 hx hy0 hy
    rw [v13 x y hx0 hx hy0 hy,
      rect_read (rC 1 1 z1 z1) g12 hx0 (by rw [hQC]; exact hx) hy0 (by rw [hQC]; exact hy),
      rect_read (rS 0 0 z0 z0) g12 hx0 (by rw [hQS]; exact hx) hy0 (by rw [hQS]; exact hy),
      presC 1 1 (dC 1 1 0 1 z1 z1 z0 z1 (by decide)) f12 x y hx0 hx hy0 hy,
      presCrec 1 1 z1 z1 Mf11 x y hx0 hx hy0 hy,
      presC 1 1 (dCS 1 1 z1 z1 1 0 z1 z0) f10 x y hx0 hx hy0 hy,
      L11_g9 x y hx0 hx hy0 hy,
      presS 0 0 (dSC 0 0 z0 z0 0 1 z0 z1) f12 x y hx0 hx hy0 hy,
      Mval11 x y hx0 hx hy0 hy]
  have L11_g25 : ∀ x y : ℤ, 0 ≤ x → x < m → 0 ≤ y → y < m →
      g25 (C.sub 1 1).data.ref ((C.sub 1 1).flat x y) =
        h (C.sub 1 1).data.ref ((C.sub 1 1).flat x y)
          + M1v x y - M2v x y + M3v x y + M6v x y := by
    intro x y hx0 hx hy0 hy
    rw [v25 x y hx0 hx hy0 hy,
      rect_read (rC 1 1 z1 z1) h24 hx0 (by rw [hQC]; exact hx) hy0 (by rw [hQC]; exact hy),
      rect_read (rS 0 0 z0 z0) h24 hx0 (by rw [hQS]; exact hx) hy0 (by rw [hQS]; exact hy),
      presCrec 1 1 z1 z1 Mf24 x y hx0 hx hy0 hy,
      presC 1 1 (dCS 1 1 z1 z1 1 1 z1 z1) f23 x y hx0 hx hy0 hy,
      presC 1 1 (dCS 1 1 z1 z1 1 0 z1 z0) f22 x y hx0 hx hy0 hy,
      presC 1 1 (dC 1 1 0 1 z1 z1 z0 z1 (by decide)) f21 x y hx0 hx hy0 hy,
      presC 1 1 (dC 1 1 0 0 z1 z1 z0 z0 (by decide)) f20 x y hx0 hx hy0 hy,
      presCrec 1 1 z1 z1 Mf19 x y hx0 hx hy0 hy,
      presC 1 1 (dCS 1 1 z1 z1 1 0 z1 z0) f18 x y hx0 hx hy0 hy,
      presC 1 1 (dC 1 1 1 0 z1 z1 z1 z0 (by decide)) f17 x y hx0 hx hy0 hy,
      presC 1 1 (dC 1 1 0 0 z1 z1 z0 z0 (by decide)) f16 x y hx0 hx hy0 hy,
      presCrec 1 1 z1 z1 Mf15 x y hx0 hx hy0 hy,
      presC 1 1 (dCS 1 1 z1 z1 1 0 z1 z0) f14 x y hx0 hx hy0 hy,
      L11_g13 x y hx0 hx hy0 hy,
      Mval24 x y hx0 hx hy0 hy]
  have L11_out : ∀ x y : ℤ, 0 ≤ x → x < m → 0 ≤ y → y < m →
      hOut (C.sub 1 1).data.ref ((C.sub 1 1).flat x y) =
        h (C.sub 1 1).data.ref ((C.sub 1 1).flat x y)
          + M1v x y - M2v x y + M3v x y + M6v x y := by
    intro x y hx0 hx hy0 hy
    rw [presC 1 1 (dC 1 1 0 0 z1 z1 z0 z0 (by decide)) fOut x y hx0 hx hy0 hy,
      presCrec 1 1 z1 z1 Mf28 x y hx0 hx hy0 hy,
      presC 1 1 (dCS 1 1 z1 z1 1 1 z1 z1) f27 x y hx0 hx hy0 hy,
      presC 1 1 (dCS 1 1 z1 z1 1 0 z1 z0) f26 x y hx0 hx hy0 hy,
      L11_g25 x y hx0 hx hy0 hy]
  refine ⟨?_, WOut⟩
  intro x y hx0 hx hy0 hy
  rcases lt_or_le x m with hxm | hxm <;> rcases lt_or_le y m with hym | hym
  · have hflat : C.flat x y = (C.sub 0 0).flat x y :=
      ((sub_flat C 0 0 x y).trans (flat_congr C (by ring) (by ring))).symm
    rw [show C.data.ref = (C.sub 0 0).data.ref from rfl, hflat,
      L00_out x y hx0 hxm hy0 hym,
      mmulF_block_split h2m hm0 (Submatrix.read A h) (Submatrix.read B h) x y]
    have key : M1v x y + M4v x y - M5v x y + M7v x y =
        (∑ k ∈ Finset.range m.toNat,
          Submatrix.read A h x (k : ℤ) * Submatrix.read B h (k : ℤ) y) +
        ∑ k ∈ Finset.range m.toNat,
          Submatrix.read A h x (m + (k : ℤ)) * Submatrix.read B h (m + (k : ℤ)) y := by
      rw [hM1v, hM4v, hM5v, hM7v]
      simp only [mmulF]
      refine sum_comb_ppmp m.toNat _ _ _ _ _ _ ?_
      intro k hk
      have hk0 : (0 : ℤ) ≤ (k : ℤ) := by omega
      have hkm : (k : ℤ) < m := by omega
      rw [qa00 x k hx0 hxm hk0 hkm, qa01 x k hx0 hxm hk0 hkm, qa11 x k hx0 hxm hk0 hkm,
        qb00 k y hk0 hkm hy0 hym, qb10 k y hk0 hkm hy0 hym, qb11 k y hk0 hkm hy0 hym]
      ring
    omega
  · obtain ⟨y0, rfl⟩ : ∃ y0 : ℤ, y = m + y0 := ⟨y - m, by ring⟩
    have hy00 : 0 ≤ y0 := by omega
    have hy0m : y0 < m := by omega
    have hflat : C.flat x (m + y0) = (C.sub 0 1).flat x y0 :=
      ((sub_flat C 0 1 x y0).trans (flat_congr C (by ring) (by rw [← hm]; ring))).symm
    rw [show C.data.ref = (C.sub 0 1).data.ref from rfl, hflat,
      L01_out x y0 hx0 hxm hy00 hy0m,
      mmulF_block_split h2m hm0 (Submatrix.read A h) (Submatrix.read B h) x (m + y0)]
    have key : M3v x y0 + M5v x y0 =
        (∑ k ∈ Finset.range m.toNat,
          Submatrix.read A h x (k : ℤ) * Submatrix.read B h (k : ℤ) (m + y0)) +
        ∑ k ∈ Finset.range m.toNat,
          Submatrix.read A h x (m + (k : ℤ)) * Submatrix.read B h (m + (k : ℤ)) (m + y0) := by
      rw [hM3v, hM5v]
      simp only [mmulF]
      refine sum_comb_pp m.toNat _ _ _ _ ?_
      intro k hk
      have hk0 : (0 : ℤ) ≤ (k : ℤ) := by omega
      have hkm : (k : ℤ) < m := by omega
      rw [qa00 x k hx0 hxm hk0 hkm, qa01 x k hx0 hxm hk0 hkm,
        qb01 k y0 hk0 hkm hy00 hy0m, qb11 k y0 hk0 hkm hy00 hy0m]
      ring
    omega
  · obtain ⟨x0, rfl⟩ : ∃ x0 : ℤ, x = m + x0 := ⟨x - m, by ring⟩
    have hx00 : 0 ≤ x0 := by omega
    have hx0m : x0 < m := by omega
    have hflat : C.flat (m + x0) y = (C.sub 1 0).flat x0 y :=
      ((sub_flat C 1 0 x0 y).trans (flat_congr C (by rw [← hm]; ring) (by ring))).symm
    rw [show C.data.ref = (C.sub 1 0).data.ref from rfl, hflat,
      L10_out x0 y hx00 hx0m hy0 hym,
      mmulF_block_split h2m hm0 (Submatrix.read A h) (Submatrix.read B h) (m + x0) y]
    have key : M2v x0 y + M4v x0 y =
        (∑ k ∈ Finset.range m.toNat,
          Submatrix.read A h (m + x0) (k : ℤ) * Submatrix.read B h (k : ℤ) y) +
        ∑ k ∈ Finset.range m.toNat,
          Submatrix.read A h (m + x0) (m + (k : ℤ)) * Submatrix.read B h (m + (k : ℤ)) y := by
      rw [hM2v, hM4v]
      simp only [mmulF]
      refine sum_comb_pp m.toNat _ _ _ _ ?_
      intro k hk
      have hk0 : (0 : ℤ) ≤ (k : ℤ) := by omega
      have hkm : (k : ℤ) < m := by omega
      rw [qa10 x0 k hx00 hx0m hk0 hkm, qa11 x0 k hx00 hx0m hk0 hkm,
        qb00 k y hk0 hkm hy0 hym, qb10 k y hk0 hkm hy0 hym]
      ring
    omega
  · obtain ⟨x0, rfl⟩ : ∃ x0 : ℤ, x = m + x0 := ⟨x - m, by ring⟩
    obtain ⟨y0, rfl⟩ : ∃ y0 : ℤ, y = m + y0 := ⟨y - m, by ring⟩
    have hx00 : 0 ≤ x0 := by omega
    have hx0m : x0 < m := by omega
    have hy00 : 0 ≤ y0 := by omega
    have hy0m : y0 < m := by omega
    have hflat : C.flat (m + x0) (m + y0) = (C.sub 1 1).flat x0 y0 :=
      ((sub_flat C 1 1 x0 y0).trans
        (flat_congr C (by rw [← hm]; ring) (by rw [← hm]; ring))).symm
    rw [show C.data.ref = (C.sub 1 1).data.ref from rfl, hflat,
      L11_out x0 y0 hx00 hx0m hy00 hy0m,
      mmulF_block_split h2m hm0 (Submatrix.read A h) (Submatrix.read B h) (m + x0) (m + y0)]
    have key : M1v x0 y0 - M2v x0 y0 + M3v x0 y0 + M6v x0 y0 =
        (∑ k ∈ Finset.range m.toNat,
          Submatrix.read A h (m + x0) (k : ℤ) * Submatrix.read B h (k : ℤ) (m + y0)) +
        ∑ k ∈ Finset.range m.toNat,
          Submatrix.read A h (m + x0) (m + (k : ℤ)) *
            Submatrix.read B h (m + (k : ℤ)) (m + y0) := by
      rw [hM1v, hM2v, hM3v, hM6v]
      simp only [mmulF]
      refine sum_comb_pmpp m.toNat _ _ _ _ _ _ ?_
      intro k hk
      have hk0 : (0 : ℤ) ≤ (k : ℤ) := by omega
      have hkm : (k : ℤ) < m := by omega
      rw [qa00 x0 k hx00 hx0m hk0 hkm, qa10 x0 k hx00 hx0m hk0 hkm,
        qa11 x0 k hx00 hx0m hk0 hkm, qb00 k y0 hk0 hkm hy00 hy0m,
        qb01 k y0 hk0 hkm hy00 hy0m, qb11 k y0 hk0 hkm hy00 hy0m]
      ring
    omega

/-- Partial correctness of the fueled recursion: under the shape invariant it
computes the exact integer product of the operand views into the output view
and leaves every heap location outside the output and scratch footprints
unchanged. -/
theorem strassen_rec_correct (cutoff : ℤ) :
    ∀ (fuel : ℕ) (A B C S : Submatrix) (h hOut : Heap), Config A B C S →
      strassen_mul_rec cutoff fuel A B C S h = some hOut →
      (∀ x y : ℤ, 0 ≤ x → x < C.dimension → 0 ≤ y → y < C.dimension →
        hOut C.data.ref (C.flat x y) = mmulF C.dimension (A.read h) (B.read h) x y) ∧
      (∀ r idx, ¬ InFoot C r idx → ¬ InFoot S r idx → hOut r idx = h r idx) := by
  intro fuel
  induction fuel with
  | zero =>
    intro A B C S h hOut _ he
    exact absurd he (by simp [strassen_mul_rec])
  | succ n ih =>
    intro A B C S h hOut hconf he
    have hrC : RealRect C := hconf.2.2.2.1
    have hAC : ReadsOutside A C := hconf.2.2.2.2.2.2.1
    have hBC : ReadsOutside B C := hconf.2.2.2.2.2.2.2.2.1
    have hd0 : 0 ≤ C.dimension := hrC.1
    rw [strassen_mul_rec] at he
    obtain ⟨cclr, cfr⟩ := clear_spec C h hrC
    by_cases hbase : C.dimension.tmod 2 = 1 ∨ C.dimension ≤ cutoff
    · rw [if_pos hbase, Option.some.injEq] at he
      subst he
      obtain ⟨lv, lf⟩ := linear_spec A B C (C.clear h) hrC hAC hBC
      constructor
      · intro x y hx0 hx hy0 hy
        rw [lv x y hx0 hx hy0 hy]
        have hcr : C.read (C.clear h) x y = 0 := by
          rw [rect_read hrC _ hx0 hx hy0 hy]
          exact cclr x y hx0 hx hy0 hy
        rw [hcr,
          show mmulF C.dimension (Submatrix.read A (C.clear h))
              (Submatrix.read B (C.clear h)) x y =
            mmulF C.dimension (Submatrix.read A h) (Submatrix.read B h) x y from
            mmulF_congr C.dimension _ _ _ _ x y
              (fun k _ _ => read_agree_of_outside hAC cfr x k)
              (fun k _ _ => read_agree_of_outside hBC cfr k y),
          zero_add]
      · intro r idx hc hs
        exact (lf r idx hc).trans (cfr r idx hc)
    · rw [if_neg hbase] at he
      push_neg at hbase
      have ht1 : 0 ≤ C.dimension.tmod 2 := Int.tmod_nonneg 2 hd0
      have ht2 : C.dimension.tmod 2 < 2 := Int.tmod_lt_of_pos C.dimension (by norm_num)
      have heven : C.dimension.tmod 2 = 0 := by omega
      obtain ⟨ccc, ccf⟩ := combine_correct (strassen_mul_rec cutoff n) A B C S
        (C.clear h) hOut hconf heven
        (fun X Y h1 h2 hcfg he2 => ih X Y (S.sub 0 0) (S.sub 0 1) h1 h2 hcfg he2) he
      constructor
      · intro x y hx0 hx hy0 hy
        rw [ccc x y hx0 hx hy0 hy, cclr x y hx0 hx hy0 hy,
          show mmulF C.dimension (Submatrix.read A (C.clear h))
              (Submatrix.read B (C.clear h)) x y =
            mmulF C.dimension (Submatrix.read A h) (Submatrix.read B h) x y from
            mmulF_congr C.dimension _ _ _ _ x y
              (fun k _ _ => read_agree_of_outside hAC cfr x k)
              (fun k _ _ => read_agree_of_outside hBC cfr k y),
          zero_add]
      · intro r idx hc hs
        exact (ccf r idx hc hs).trans (cfr r idx hc)

/-- Claim C1: for every dimension N at least 1, every cutoff at least 1 and all
integer N by N inputs, the Strassen multiplier over padded buffers, read back
on the top-left N by N region, returns exactly the same matrix elementwise as
the naive triple-loop linear multiplier. -/
theorem claimC1 (N cutoff : ℤ) (A B : ℤ → ℤ → ℤ) (hN : 1 ≤ N) (hcut : 1 ≤ cutoff) :
    ∃ f : ℤ → ℤ → ℤ, strassen_multiply N cutoff A B = some f ∧
      ∀ x y : ℤ, 0 ≤ x → x < N → 0 ≤ y → y < N → f x y = linear_multiply N A B x y := by
  obtain ⟨k, hk, hle, hall⟩ := padding_loop_spec cutoff hcut N.toNat N 0 le_rfl
  have hPs : padding_size N.toNat N cutoff = some (halveIter k N * 2 ^ k) := by
    simp [padding_size, hk]
  have hq1 := halveIter_pos k N hN
  have hq2 : (0 : ℤ) < 2 ^ k := by positivity
  set P := halveIter k N * 2 ^ k with hPdef
  have hP1 : 1 ≤ P := by nlinarith
  have hgeN : N ≤ P := padding_ge k N (by omega)
  have hsome := rec_isSome cutoff hcut (P.toNat + 1)
    ⟨MatrixData.make 0 N, 0, 0, P⟩ ⟨MatrixData.make 1 N, 0, 0, P⟩
    (Submatrix.ofData (MatrixData.make 2 P)) (Submatrix.ofData (MatrixData.make 3 P))
    (fun r idx => if r = 3 then 0 else initHeap N A B r idx)
    rfl (by show (0 : ℤ) ≤ P; omega) (by show P.toNat < P.toNat + 1; omega)
  obtain ⟨hF, hFeq⟩ := Option.isSome_iff_exists.mp hsome
  have hmul : strassen_mul (Submatrix.ofData (MatrixData.make 0 N))
      (Submatrix.ofData (MatrixData.make 1 N)) (Submatrix.ofData (MatrixData.make 2 P)) cutoff 3
      (P.toNat + 1) (initHeap N A B) = some hF := hFeq
  have hheap : strassen_multiply_heap N cutoff A B = some (P, hF) := by
    unfold strassen_multiply_heap
    rw [hPs, Option.some_bind, hmul]
    rfl
  have hmap : strassen_multiply N cutoff A B = some (fun x y =>
      Submatrix.read ⟨MatrixData.make 2 P, 0, 0, N⟩ hF x y) := by
    unfold strassen_multiply
    rw [hheap]
    rfl
  have hrA0 : RealRect (Submatrix.ofData (MatrixData.make 0 N)) :=
    ⟨by show (0 : ℤ) ≤ N; omega, le_refl 0, le_refl 0, by show (0 : ℤ) + N ≤ N; omega,
      by show (0 : ℤ) + N ≤ N; omega, rfl⟩
  have hrB0 : RealRect (Submatrix.ofData (MatrixData.make 1 N)) :=
    ⟨by show (0 : ℤ) ≤ N; omega, le_refl 0, le_refl 0, by show (0 : ℤ) + N ≤ N; omega,
      by show (0 : ℤ) + N ≤ N; omega, rfl⟩
  have hrC0 : RealRect (Submatrix.ofData (MatrixData.make 2 N)) :=
    ⟨by show (0 : ℤ) ≤ N; omega, le_refl 0, le_refl 0, by show (0 : ℤ) + N ≤ N; omega,
      by show (0 : ℤ) + N ≤ N; omega, rfl⟩
  have hrCP : RealRect (Submatrix.ofData (MatrixData.make 2 P)) :=
    ⟨by show (0 : ℤ) ≤ P; omega, le_refl 0, le_refl 0, by show (0 : ℤ) + P ≤ P; omega,
      by show (0 : ℤ) + P ≤ P; omega, rfl⟩
  have hrSP : RealRect (Submatrix.ofData (MatrixData.make 3 P)) :=
    ⟨by show (0 : ℤ) ≤ P; omega, le_refl 0, le_refl 0, by show (0 : ℤ) + P ≤ P; omega,
      by show (0 : ℤ) + P ≤ P; omega, rfl⟩
  have hconf : Config ⟨MatrixData.make 0 N, 0, 0, P⟩ ⟨MatrixData.make 1 N, 0, 0, P⟩
      (Submatrix.ofData (MatrixData.make 2 P)) (Submatrix.ofData (MatrixData.make 3 P)) :=
    ⟨rfl, rfl, rfl, hrCP, hrSP,
      fun r idx k1 k2 => absurd (k1.1.symm.trans k2.1) (by show ¬ ((2 : ℕ) = 3); omega),
      reads_outside_of_ref_ne _ _ (by show (0 : ℕ) ≠ 2; omega),
      reads_outside_of_ref_ne _ _ (by show (0 : ℕ) ≠ 3; omega),
      reads_outside_of_ref_ne _ _ (by show (1 : ℕ) ≠ 2; omega),
      reads_outside_of_ref_ne _ _ (by show (1 : ℕ) ≠ 3; omega)⟩
  obtain ⟨cells, _⟩ := strassen_rec_correct cutoff (P.toNat + 1)
    ⟨MatrixData.make 0 N, 0, 0, P⟩ ⟨MatrixData.make 1 N, 0, 0, P⟩
    (Submatrix.ofData (MatrixData.make 2 P)) (Submatrix.ofData (MatrixData.make 3 P))
    (fun r idx => if r = 3 then 0 else initHeap N A B r idx) hF hconf hFeq
  have roA0 : ReadsOutside (Submatrix.ofData (MatrixData.make 0 N))
      (Submatrix.ofData (MatrixData.make 2 N)) :=
    reads_outside_of_ref_ne _ _ (by show (0 : ℕ) ≠ 2; omega)
  have roB0 : ReadsOutside (Submatrix.ofData (MatrixData.make 1 N))
      (Submatrix.ofData (MatrixData.make 2 N)) :=
    reads_outside_of_ref_ne _ _ (by show (1 : ℕ) ≠ 2; omega)
  obtain ⟨lv, lf⟩ := linear_spec (Submatrix.ofData (MatrixData.make 0 N))
    (Submatrix.ofData (MatrixData.make 1 N)) (Submatrix.ofData (MatrixData.make 2 N))
    (initHeap N A B) hrC0 roA0 roB0
  have readA : ∀ u v : ℤ, 0 ≤ u → u < N → 0 ≤ v → v < N →
      Submatrix.read ⟨MatrixData.make 0 N, 0, 0, P⟩
          (fun r idx => if r = 3 then 0 else initHeap N A B r idx) u v =
        Submatrix.read (Submatrix.ofData (MatrixData.make 0 N)) (initHeap N A B) u v := by
    intro u v hu0 hu hv0 hv
    have hib0 : (Submatrix.ofData (MatrixData.make 0 N)).in_bounds u v :=
      realrect_in_bounds hrA0 hu0 hu hv0 hv
    have hibP : (⟨MatrixData.make 0 N, 0, 0, P⟩ : Submatrix).in_bounds u v :=
      ⟨hib0.1, hu0, by show u < P; omega, hv0, by show v < P; omega⟩
    unfold Submatrix.read
    rw [if_pos hibP, if_pos hib0]
    rfl
  have readB : ∀ u v : ℤ, 0 ≤ u → u < N → 0 ≤ v → v < N →
      Submatrix.read ⟨MatrixData.make 1 N, 0, 0, P⟩
          (fun r idx => if r = 3 then 0 else initHeap N A B r idx) u v =
        Submatrix.read (Submatrix.ofData (MatrixData.make 1 N)) (initHeap N A B) u v := by
    intro u v hu0 hu hv0 hv
    have hib0 : (Submatrix.ofData (MatrixData.make 1 N)).in_bounds u v :=
      realrect_in_bounds hrB0 hu0 hu hv0 hv
    have hibP : (⟨MatrixData.make 1 N, 0, 0, P⟩ : Submatrix).in_bounds u v :=
      ⟨hib0.1, hu0, by show u < P; omega, hv0, by show v < P; omega⟩
    unfold Submatrix.read
    rw [if_pos hibP, if_pos hib0]
    rfl
  have readA0 : ∀ u v : ℤ, 0 ≤ u → u < N → N ≤ v →
      Submatrix.read ⟨MatrixData.make 0 N, 0, 0, P⟩
          (fun r idx => if r = 3 then 0 else initHeap N A B r idx) u v = 0 := by
    intro u v hu0 hu hv
    have hnib : ¬ (⟨MatrixData.make 0 N, 0, 0, P⟩ : Submatrix).in_bounds u v := by
      rintro ⟨⟨-, -, hlt⟩, -⟩
      have hlt2 : u + 0 + N * (v + 0) < N * N := hlt
      have hmul2 : N * N ≤ N * (v + 0) :=
        mul_le_mul_of_nonneg_left (by omega) (by omega)
      omega
    unfold Submatrix.read
    rw [if_neg hnib]
  refine ⟨_, hmap, ?_⟩
  intro x y hx0 hx hy0 hy
  show Submatrix.read ⟨MatrixData.make 2 P, 0, 0, N⟩ hF x y = linear_multiply N A B x y
  have hibC : (Submatrix.ofData (MatrixData.make 2 P)).in_bounds x y :=
    realrect_in_bounds hrCP hx0 (by show x < P; omega) hy0 (by show y < P; omega)
  have hread : Submatrix.read ⟨MatrixData.make 2 P, 0, 0, N⟩ hF x y =
      hF (Submatrix.ofData (MatrixData.make 2 P)).data.ref
        ((Submatrix.ofData (MatrixData.make 2 P)).flat x y) := by
    unfold Submatrix.read
    rw [if_pos (show (⟨MatrixData.make 2 P, 0, 0, N⟩ : Submatrix).in_bounds x y from
      ⟨hibC.1, hx0, hx, hy0, hy⟩)]
    rfl
  rw [hread, cells x y hx0 (by show x < P; omega) hy0 (by show y < P; omega)]
  have hlin : linear_multiply N A B x y =
      mmulF N (Submatrix.read (Submatrix.ofData (MatrixData.make 0 N)) (initHeap N A B))
        (Submatrix.read (Submatrix.ofData (MatrixData.make 1 N)) (initHeap N A B)) x y := by
    show Submatrix.read (Submatrix.ofData (MatrixData.make 2 N))
        (linear_mul (Submatrix.ofData (MatrixData.make 0 N))
          (Submatrix.ofData (MatrixData.make 1 N)) (Submatrix.ofData (MatrixData.make 2 N))
          (initHeap N A B)) x y = _
    rw [rect_read hrC0 _ hx0 hx hy0 hy, lv x y hx0 hx hy0 hy]
    have hc0 : Submatrix.read (Submatrix.ofData (MatrixData.make 2 N)) (initHeap N A B) x y
        = 0 := by
      rw [rect_read hrC0 _ hx0 hx hy0 hy]
      rfl
    rw [hc0, zero_add]
    rfl
  rw [hlin]
  unfold mmulF
  rw [show ((Submatrix.ofData (MatrixData.make 2 P)).dimension).toNat =
      N.toNat + (P.toNat - N.toNat) from by show P.toNat = _; omega,
    sum_range_add_split]
  have hzero : (∑ j ∈ Finset.range (P.toNat - N.toNat),
      Submatrix.read ⟨MatrixData.make 0 N, 0, 0, P⟩
          (fun r idx => if r = 3 then 0 else initHeap N A B r idx) x ((N.toNat + j : ℕ) : ℤ) *
        Submatrix.read ⟨MatrixData.make 1 N, 0, 0, P⟩
          (fun r idx => if r = 3 then 0 else initHeap N A B r idx) ((N.toNat + j : ℕ) : ℤ) y)
      = 0 :=
    Finset.sum_eq_zero fun j hj => by
      rw [readA0 x ((N.toNat + j : ℕ) : ℤ) hx0 hx (by omega), zero_mul]
  rw [hzero, add_zero]
  refine Finset.sum_congr rfl fun j hj => ?_
  rw [Finset.mem_range] at hj
  have hj0 : (0 : ℤ) ≤ (j : ℤ) := by omega
  have hjN : (j : ℤ) < N := by omega
  rw [readA x (j : ℤ) hx0 hx hj0 hjN, readB (j : ℤ) y hj0 hjN hy0 hy]

/-- Witness for C1 at N = 2, cutoff = 1 with the inputs A = [[1,2],[3,4]],
B = [[5,6],[7,8]] held as functions of flat coordinates. -/
theorem claimC1_w :
    ∃ f : ℤ → ℤ → ℤ,
      strassen_multiply 2 1 (fun x y => 2 * x + y + 1) (fun x y => 2 * x + y + 5) = some f ∧
      ∀ x y : ℤ, 0 ≤ x → x < 2 → 0 ≤ y → y < 2 →
        f x y = linear_multiply 2 (fun x y => 2 * x + y + 1) (fun x y => 2 * x + y + 5) x y :=
  claimC1 2 1 (fun x y => 2 * x + y + 1) (fun x y => 2 * x + y + 5) (by decide) (by decide)

/-- Claim C7: the result cells of the recursive multiply do not depend on the
initial contents of the output buffer or the scratch buffer: two runs on the
same operands from initial heaps that agree outside those two buffers produce
identical output cells. -/
theorem claimC7 (cutoff : ℤ) (fuel : ℕ) (A B C S : Submatrix) (h1 h2 hOut1 hOut2 : Heap)
    (hconf : Config A B C S)
    (hAC : A.data.ref ≠ C.data.ref) (hAS : A.data.ref ≠ S.data.ref)
    (hBC : B.data.ref ≠ C.data.ref) (hBS : B.data.ref ≠ S.data.ref)
    (hagree : ∀ r idx, r ≠ C.data.ref → r ≠ S.data.ref → h1 r idx = h2 r idx)
    (he1 : strassen_mul_rec cutoff fuel A B C S h1 = some hOut1)
    (he2 : strassen_mul_rec cutoff fuel A B C S h2 = some hOut2) :
    ∀ x y : ℤ, 0 ≤ x → x < C.dimension → 0 ≤ y → y < C.dimension →
      hOut1 C.data.ref (C.flat x y) = hOut2 C.data.ref (C.flat x y) := by
  intro x y hx0 hx hy0 hy
  obtain ⟨cells1, -⟩ := strassen_rec_correct cutoff fuel A B C S h1 hOut1 hconf he1
  obtain ⟨cells2, -⟩ := strassen_rec_correct cutoff fuel A B C S h2 hOut2 hconf he2
  rw [cells1 x y hx0 hx hy0 hy, cells2 x y hx0 hx hy0 hy]
  exact mmulF_congr C.dimension _ _ _ _ x y
    (fun u _ _ => read_agree
      (fun r idx hrf => hagree r idx (by rw [hrf.1]; exact hAC) (by rw [hrf.1]; exact hAS)) x u)
    (fun u _ _ => read_agree
      (fun r idx hrf => hagree r idx (by rw [hrf.1]; exact hBC) (by rw [hrf.1]; exact hBS)) u y)

/-- Witness for C7 at a 1 by 1 configuration: the run started from the clean
initial heap and the run whose output and scratch buffers hold garbage values
9 and 7 produce the same output cell. -/
theorem claimC7_w :
    linear_mul (Submatrix.ofData (MatrixData.make 0 1)) (Submatrix.ofData (MatrixData.make 1 1))
        (Submatrix.ofData (MatrixData.make 2 1))
        ((Submatrix.ofData (MatrixData.make 2 1)).clear
          (initHeap 1 (fun _ _ => 2) (fun _ _ => 3)))
        (Submatrix.ofData (MatrixData.make 2 1)).data.ref
        ((Submatrix.ofData (MatrixData.make 2 1)).flat 0 0) =
      linear_mul (Submatrix.ofData (MatrixData.make 0 1)) (Submatrix.ofData (MatrixData.make 1 1))
        (Submatrix.ofData (MatrixData.make 2 1))
        ((Submatrix.ofData (MatrixData.make 2 1)).clear
          (fun r idx => if r = 2 then 9 else
            if r = 3 then 7 else initHeap 1 (fun _ _ => 2) (fun _ _ => 3) r idx))
        (Submatrix.ofData (MatrixData.make 2 1)).data.ref
        ((Submatrix.ofData (MatrixData.make 2 1)).flat 0 0) :=
  claimC7 1 1 (Submatrix.ofData (MatrixData.make 0 1)) (Submatrix.ofData (MatrixData.make 1 1))
    (Submatrix.ofData (MatrixData.make 2 1)) (Submatrix.ofData (MatrixData.make 3 1))
    (initHeap 1 (fun _ _ => 2) (fun _ _ => 3))
    (fun r idx => if r = 2 then 9 else
      if r = 3 then 7 else initHeap 1 (fun _ _ => 2) (fun _ _ => 3) r idx)
    _ _
    ⟨rfl, rfl, rfl, by decide, by decide,
      fun r idx k1 k2 => absurd (k1.1.symm.trans k2.1) (by decide),
      reads_outside_of_ref_ne _ _ (by decide), reads_outside_of_ref_ne _ _ (by decide),
      reads_outside_of_ref_ne _ _ (by decide), reads_outside_of_ref_ne _ _ (by decide)⟩
    (by decide) (by decide) (by decide) (by decide)
    (fun r idx hr2 hr3 => by
      show initHeap 1 (fun _ _ => 2) (fun _ _ => 3) r idx =
        if r = 2 then 9 else if r = 3 then 7 else initHeap 1 (fun _ _ => 2) (fun _ _ => 3) r idx
      rw [if_neg (show ¬ (r = 2) from hr2), if_neg (show ¬ (r = 3) from hr3)])
    rfl rfl 0 0 (by decide) (by decide) (by decide) (by decide)

end MainCorrect

end Strassen
